import Mathlib

/-!
# libgls: a shallow embedding of `gls/gls.c` and of the demo's `display()`

The C code of `src/gls/gls.c` is translated function by function.

* C integers are `Int` (`GLint`, `int`) or `Nat` (`GLuint`, `GLulong`, `size_t`);
  the C operators `/` and `%` on signed integers are `Int.tdiv` and `Int.tmod`
  (truncation towards zero).  The unsigned frame counter wraps modulo `2 ^ w`,
  where `w` is the width of `GLulong`, a type that `gls.h` does not declare.
* `GLboolean` arguments are only ever tested for truth, so they are `Bool`.
* `GLfloat` values are exact rationals.
* Arrays of two elements (`have_view`, `view_tex`, `view_textures`, ...) are pairs,
  read with `at2` and written with `set2`.
* The OpenGL library is not part of the repository.  Its state is the record
  `GLstate`, which keeps the part of the GL state that `gls.c` saves, changes and
  restores, together with the list of the GL commands issued so far.
-/

namespace Libgls

/-! ## Types of `gls.h` -/

/-- The enumeration `GLSmode`: a C enumeration is an integer, so a mode is its value. -/
abbrev GLSmode := Nat

@[simp] abbrev GLS_MODE_QUAD_BUFFER_STEREO : GLSmode := 0
@[simp] abbrev GLS_MODE_ALTERNATING : GLSmode := 1
@[simp] abbrev GLS_MODE_MONO_LEFT : GLSmode := 2
@[simp] abbrev GLS_MODE_MONO_RIGHT : GLSmode := 3
@[simp] abbrev GLS_MODE_LEFT_RIGHT : GLSmode := 4
@[simp] abbrev GLS_MODE_TOP_BOTTOM : GLSmode := 5
@[simp] abbrev GLS_MODE_HDMI_FRAME_PACK : GLSmode := 6
@[simp] abbrev GLS_MODE_EVEN_ODD_ROWS : GLSmode := 7
@[simp] abbrev GLS_MODE_EVEN_ODD_COLUMNS : GLSmode := 8
@[simp] abbrev GLS_MODE_CHECKERBOARD : GLSmode := 9
@[simp] abbrev GLS_MODE_RED_CYAN_MONOCHROME : GLSmode := 10
@[simp] abbrev GLS_MODE_RED_CYAN_HALF_COLOR : GLSmode := 11
@[simp] abbrev GLS_MODE_RED_CYAN_FULL_COLOR : GLSmode := 12
@[simp] abbrev GLS_MODE_RED_CYAN_DUBOIS : GLSmode := 13
@[simp] abbrev GLS_MODE_GREEN_MAGENTA_MONOCHROME : GLSmode := 14
@[simp] abbrev GLS_MODE_GREEN_MAGENTA_HALF_COLOR : GLSmode := 15
@[simp] abbrev GLS_MODE_GREEN_MAGENTA_FULL_COLOR : GLSmode := 16
@[simp] abbrev GLS_MODE_GREEN_MAGENTA_DUBOIS : GLSmode := 17
@[simp] abbrev GLS_MODE_AMBER_BLUE_MONOCHROME : GLSmode := 18
@[simp] abbrev GLS_MODE_AMBER_BLUE_HALF_COLOR : GLSmode := 19
@[simp] abbrev GLS_MODE_AMBER_BLUE_FULL_COLOR : GLSmode := 20
@[simp] abbrev GLS_MODE_AMBER_BLUE_DUBOIS : GLSmode := 21
@[simp] abbrev GLS_MODE_RED_GREEN_MONOCHROME : GLSmode := 22
@[simp] abbrev GLS_MODE_RED_BLUE_MONOCHROME : GLSmode := 23

/-- The enumeration `GLSview`; a view is also the index of its slot in the
two-element arrays of the context. -/
inductive GLSview where
  | GLS_VIEW_LEFT
  | GLS_VIEW_RIGHT
deriving DecidableEq, Repr

export GLSview (GLS_VIEW_LEFT GLS_VIEW_RIGHT)

/-- The integer value of a view (`GLS_VIEW_LEFT = 0`, `GLS_VIEW_RIGHT = 1`). -/
def GLSview.index : GLSview → Int
  | GLS_VIEW_LEFT => 0
  | GLS_VIEW_RIGHT => 1

/-- Read element `i` of a two-element C array (`i` is 0 or 1 wherever `gls.c` indexes). -/
def at2 {α : Type} (a : α × α) (i : Int) : α :=
  if i = 0 then a.1 else a.2

/-- Write element `i` of a two-element C array. -/
def set2 {α : Type} (a : α × α) (i : Int) (x : α) : α × α :=
  if i = 0 then (x, a.2) else (a.1, x)

/-- The fields of `struct GLS_context` that `gls.c` reads or writes (the GLEW
function tables are left out). -/
structure GLScontext where
  have_view : Bool × Bool
  view_tex : Nat × Nat
  view_tex_width : Int × Int
  view_tex_height : Int × Int
  even_odd_rows_mask_tex : Nat
  even_odd_columns_mask_tex : Nat
  checkerboard_mask_tex : Nat
  viewport_screen_x : Int
  viewport_screen_y : Int
  display_frame_counter : Nat
  parallax_adjust : ℚ
  crosstalk_r : ℚ
  crosstalk_g : ℚ
  crosstalk_b : ℚ
  ghostbust : ℚ
  prg : Nat
  prg_mode : GLSmode
  prg_ghostbust : Int
  /-- The scratch row: `none` is the `NULL` pointer, `some cells` an allocated block
  of `cells.length` words. -/
  dlp_3d_ready_sync_buf : Option (List Nat)
  dlp_3d_ready_sync_buf_size : Nat
deriving DecidableEq

/-! ## The OpenGL state machine -/

/-- The GL constants that `gls.c` and the demo pass to GL commands. -/
inductive GLenum where
  | GL_MODELVIEW | GL_PROJECTION
  | GL_DEPTH_TEST | GL_ALPHA_TEST | GL_STENCIL_TEST | GL_SCISSOR_TEST | GL_CULL_FACE
  | GL_LIGHTING | GL_LIGHT0 | GL_BLEND | GL_FOG | GL_NORMALIZE | GL_TEXTURE_2D
  | GL_TEXTURE_MIN_FILTER | GL_TEXTURE_MAG_FILTER | GL_TEXTURE_WRAP_S | GL_TEXTURE_WRAP_T
  | GL_LINEAR | GL_NEAREST | GL_CLAMP_TO_BORDER | GL_REPEAT
  | GL_UNPACK_ROW_LENGTH | GL_UNPACK_ALIGNMENT
  | GL_RGB | GL_LUMINANCE8
  | GL_BACK | GL_BACK_LEFT | GL_BACK_RIGHT
  | GL_FRONT_AND_BACK | GL_FILL
deriving DecidableEq, Repr

/-- The viewport rectangle `{x, y, width, height}` as `glGetIntegerv(GL_VIEWPORT)` returns it. -/
structure Viewport where
  x : Int
  y : Int
  width : Int
  height : Int
deriving DecidableEq, Repr

/-- What a quad drawn by `draw_quad` is rasterised with: the GL state at its `glBegin`. -/
structure Quad where
  viewport : Viewport
  draw_buffer : GLenum
  program : Nat
  /-- The value of the uniform `channel` of the active program. -/
  channel : ℚ
  /-- The 2D textures bound to the texture units 0, 1 and 2. -/
  unit0 : Nat
  unit1 : Nat
  unit2 : Nat
  /-- The arguments `viewport_width`, `viewport_height` of `draw_quad`. -/
  viewport_width : Int
  viewport_height : Int
deriving DecidableEq

/-- The GL commands issued by `gls.c` and by the demo, with the arguments that matter
here.  Queries (`glGet*`) change nothing and are not recorded. -/
inductive GLcall where
  | glClear (color depth : Bool)
  | glPushAttrib | glPopAttrib | glPushClientAttrib | glPopClientAttrib
  | glMatrixMode (m : GLenum) | glPushMatrix | glPopMatrix | glLoadIdentity
  | glEnable (cap : GLenum) | glDisable (cap : GLenum) | glDisableClientState
  | glPolygonMode (face mode : GLenum)
  | glGenTextures (name : Nat)
  | glBindTexture (unit texture : Nat)
  | glTexParameteri (pname param : GLenum)
  | glPixelStorei (pname : GLenum) (param : Int)
  | glTexImage2D (internalformat : GLenum) (width height : Int) (pixels : Option (List Nat))
  | glCopyTexSubImage2D (x y width height : Int)
  | glCreateShader (name : Nat)
  | glShaderSource (shader : Nat) (src : List Char)
  | glCompileShader (shader : Nat)
  | glCreateProgram (name : Nat)
  | glAttachShader (program shader : Nat)
  | glLinkProgram (program : Nat)
  | glUseProgram (program : Nat)
  | glActiveTexture (unit : Nat)
  | glUniform1i (program : Nat) (name : String) (v : Int)
  | glUniform1f (program : Nat) (name : String) (v : ℚ)
  | glUniform3f (program : Nat) (name : String) (v0 v1 v2 : ℚ)
  | glDrawBuffer (buf : GLenum)
  | glViewport (x y width height : Int)
  | draw_quad (q : Quad)
  | glWindowPos2i (x y : Int)
  | glDrawPixels (width height : Int) (pixels : List Nat)
  | glWindowPos3f
  | glFrustum | glMultMatrixf | glTranslated | glTranslatef | glutSolidTeapot
  | glutSwapBuffers
  | glDeleteTextures (textures : List Nat)
  | glDeleteShader (shader : Nat)
  | glDeleteProgram (program : Nat)
deriving DecidableEq

/-- The attribute groups that `glPushAttrib(GL_ALL_ATTRIB_BITS)` saves, as far as
`GLstate` keeps them. -/
structure Attribs where
  viewport : Viewport
  active_texture : Nat
  texture_binding_2d : Nat → Nat
  draw_buffer : GLenum

/-- The state of the GL context the library runs in. -/
structure GLstate where
  viewport : Viewport
  current_program : Nat
  /-- The active texture unit, as an offset from `GL_TEXTURE0`. -/
  active_texture : Nat
  /-- The texture bound to `GL_TEXTURE_2D`, for every texture unit. -/
  texture_binding_2d : Nat → Nat
  draw_buffer : GLenum
  /-- The value of every `float` uniform, by program and name. -/
  uniform1f : Nat → String → ℚ
  attrib_stack : List Attribs
  /-- The number of object names handed out so far: names are non-zero and never
  repeated, the next one is `names + 1`. -/
  names : Nat
  /-- The commands issued so far, the oldest first. -/
  log : List GLcall

/-- What lies outside `gls.c` and decides how a call into the library runs. -/
structure Env where
  /-- The shader template `GLS_GLSL_STR` of the generated header `gls.glsl.h`. -/
  GLS_GLSL_STR : List Char
  /-- Does the GLSL compiler accept this source (`GL_COMPILE_STATUS`). -/
  compile_status : List Char → Bool
  /-- The length `GL_INFO_LOG_LENGTH` of the info log of the compiler for this source. -/
  compile_log_length : List Char → Int
  /-- Does a program made of the shader with this source link (`GL_LINK_STATUS`). -/
  link_status : List Char → Bool
  /-- The length `GL_INFO_LOG_LENGTH` of the info log of the linker. -/
  link_log_length : List Char → Int
  /-- Do `malloc`, `realloc` and `strdup` return memory during this call. -/
  heap : Bool
  /-- The counter that `glXGetVideoSyncSGI` delivers, when the library is built with
  `GLS_USE_GLX`, the extension is there and the query succeeds; `none` otherwise. -/
  video_sync : Option Nat
  /-- The width in bits of the type `GLulong` of the frame counter. -/
  counter_bits : Nat
  /-- The width in bits of the type `size_t`. -/
  size_bits : Nat
  /-- The value of `sizeof(unsigned int)`. -/
  sizeof_unsigned_int : Nat

/-- The ways a call fails to return a defined result. -/
inductive NoReturn where
  /-- The function `oom_abort`. -/
  | oom_abort
  /-- The `abort()` of `compile_fragment_shader`. -/
  | compiler_error
  /-- The `abort()` of `link_program`. -/
  | linker_error
  /-- The loop of `str_replace` does not end (the pattern is the empty string). -/
  | endless_loop
  /-- A read past the end of an allocated block: the behaviour is undefined. -/
  | out_of_bounds
deriving DecidableEq, Repr

/-! ## GL commands -/

/-- Record a command in the log. -/
def GLstate.emit (gl : GLstate) (c : GLcall) : GLstate :=
  { gl with log := gl.log ++ [c] }

/-- A command that changes nothing of `GLstate` but the log. -/
def gl (c : GLcall) (s : GLstate) : GLstate :=
  s.emit c

/-- The command `glGenTextures(1, &name)`: hands out an unused, non-zero name. -/
def glGenTextures (s : GLstate) : Nat × GLstate :=
  (s.names + 1, { s with names := s.names + 1 }.emit (.glGenTextures (s.names + 1)))

/-- The command `glCreateShader(GL_FRAGMENT_SHADER)`. -/
def glCreateShader (s : GLstate) : Nat × GLstate :=
  (s.names + 1, { s with names := s.names + 1 }.emit (.glCreateShader (s.names + 1)))

/-- The command `glCreateProgram()`. -/
def glCreateProgram (s : GLstate) : Nat × GLstate :=
  (s.names + 1, { s with names := s.names + 1 }.emit (.glCreateProgram (s.names + 1)))

/-- The command `glBindTexture(GL_TEXTURE_2D, texture)`: binds in the active unit. -/
def glBindTexture (texture : Nat) (s : GLstate) : GLstate :=
  { s with texture_binding_2d :=
      fun u => if u = s.active_texture then texture else s.texture_binding_2d u }.emit
    (.glBindTexture s.active_texture texture)

/-- The command `glActiveTexture(GL_TEXTURE0 + unit)`. -/
def glActiveTexture (unit : Nat) (s : GLstate) : GLstate :=
  { s with active_texture := unit }.emit (.glActiveTexture unit)

/-- The command `glUseProgram(program)`. -/
def glUseProgram (program : Nat) (s : GLstate) : GLstate :=
  { s with current_program := program }.emit (.glUseProgram program)

/-- The command `glViewport(x, y, width, height)`. -/
def glViewport (x y width height : Int) (s : GLstate) : GLstate :=
  { s with viewport := ⟨x, y, width, height⟩ }.emit (.glViewport x y width height)

/-- The command `glDrawBuffer(buf)`. -/
def glDrawBuffer (buf : GLenum) (s : GLstate) : GLstate :=
  { s with draw_buffer := buf }.emit (.glDrawBuffer buf)

/-- The command `glLinkProgram(program)`: linking sets the uniforms of the program to zero. -/
def glLinkProgram (program : Nat) (s : GLstate) : GLstate :=
  { s with uniform1f := fun p n => if p = program then 0 else s.uniform1f p n }.emit
    (.glLinkProgram program)

/-- The command `glUniform1f(glGetUniformLocation(program, name), v)`; the uniform that
is written is the one of the program in use. -/
def glUniform1f (program : Nat) (name : String) (v : ℚ) (s : GLstate) : GLstate :=
  { s with uniform1f :=
      fun p n => if p = s.current_program ∧ n = name then v else s.uniform1f p n }.emit
    (.glUniform1f program name v)

/-- The command `glPushAttrib(GL_ALL_ATTRIB_BITS)`. -/
def glPushAttrib (s : GLstate) : GLstate :=
  { s with attrib_stack :=
      ⟨s.viewport, s.active_texture, s.texture_binding_2d, s.draw_buffer⟩ :: s.attrib_stack }.emit
    .glPushAttrib

/-- The command `glPopAttrib()`; on an empty stack it is an error that changes nothing. -/
def glPopAttrib (s : GLstate) : GLstate :=
  match s.attrib_stack with
  | [] => s.emit .glPopAttrib
  | a :: rest =>
    { s with viewport := a.viewport, active_texture := a.active_texture,
             texture_binding_2d := a.texture_binding_2d, draw_buffer := a.draw_buffer,
             attrib_stack := rest }.emit .glPopAttrib

/-- The quad that a `glBegin(GL_QUADS)` ... `glEnd()` issued now is rasterised with. -/
def GLstate.quad (s : GLstate) (viewport_width viewport_height : Int) : Quad :=
  { viewport := s.viewport, draw_buffer := s.draw_buffer, program := s.current_program,
    channel := s.uniform1f s.current_program "channel",
    unit0 := s.texture_binding_2d 0, unit1 := s.texture_binding_2d 1,
    unit2 := s.texture_binding_2d 2,
    viewport_width := viewport_width, viewport_height := viewport_height }

/-- The programs made by `glCreateProgram` among a list of commands. -/
def created_programs (l : List GLcall) : List Nat :=
  l.filterMap fun c => match c with
    | .glCreateProgram name => some name
    | _ => none

/-- The programs given to `glDeleteProgram` among a list of commands. -/
def deleted_programs (l : List GLcall) : List Nat :=
  l.filterMap fun c => match c with
    | .glDeleteProgram program => some program
    | _ => none

/-- The programs that were made and not deleted by a list of commands. -/
def live_programs (l : List GLcall) : List Nat :=
  (created_programs l).filter fun p => p ∉ deleted_programs l

/-- The shaders made by `glCreateShader` and not given to `glDeleteShader`. -/
def live_shaders (l : List GLcall) : List Nat :=
  (l.filterMap fun c => match c with
    | .glCreateShader name => some name
    | _ => none).filter fun sh =>
      sh ∉ l.filterMap fun c => match c with
        | .glDeleteShader shader => some shader
        | _ => none

/-- The query `glIsProgram(program)`. -/
def glIsProgram (program : Nat) (s : GLstate) : Bool :=
  decide (program ∈ live_programs s.log)

/-- The query `glGetAttachedShaders`: the shaders attached to a program. -/
def glGetAttachedShaders (program : Nat) (s : GLstate) : List Nat :=
  s.log.filterMap fun c => match c with
    | .glAttachShader p shader => if p = program then some shader else none
    | _ => none

/-! ## Helper functions of `gls.c` -/

/-- The function `draw_quad`: one quad over the whole viewport, with the texture
coordinates of unit 2 scaled by half the viewport size. -/
def draw_quad (viewport_width viewport_height : Int) (s : GLstate) : GLstate :=
  s.emit (.draw_quad (s.quad viewport_width viewport_height))

/-- The function `strstr`: the offset of the first occurrence of `needle` in `hay`. -/
def strstr : List Char → List Char → Option Nat
  | [], needle => if needle = [] then some 0 else none
  | c :: hay, needle =>
    if needle.isPrefixOf (c :: hay) then some 0
    else (strstr hay needle).map (· + 1)

/-- The loop of `str_replace`: `s` is the string `*s`, `off` the offset `p - *s`.  Each
round looks for `a` from `p` on, makes room when the lengths differ (`realloc`,
`memmove`), copies `b` over the place and moves `p` behind it.  The block of `*s` holds
the string and its terminator.  With `d = b_len - a_len`, `realloc` gives the block
`s_len + d + 1` bytes before `memmove` reads the `s_len - pos - a_len + 1` bytes from
`p + a_len` on; the test before the recursive call is that these bytes lie in the block,
which fails when `b` is shorter than `a`. -/
def str_replace_loop (heap : Bool) (a b : List Char) :
    Nat → List Char → Nat → Except NoReturn (List Char)
  | 0, _, _ => .error .endless_loop
  | fuel + 1, s, off =>
    match strstr (s.drop off) a with
    | none => .ok s
    | some k =>
      let pos := off + k
      if (b.length : Int) - a.length ≠ 0 then
        if heap then
          if (pos : Int) + a.length + ((s.length : Int) - pos - a.length + 1)
              ≤ (s.length : Int) + ((b.length : Int) - a.length) + 1 then
            str_replace_loop heap a b fuel (s.take pos ++ b ++ s.drop (pos + a.length))
              (pos + b.length)
          else .error .out_of_bounds
        else .error .oom_abort
      else
        str_replace_loop heap a b fuel (s.take pos ++ b ++ s.drop (pos + b.length))
          (pos + b.length)

/-- The function `str_replace`.  A round of the loop with a non-empty `a` moves `p`
past at least one character of the original string, so `s.length + 1` rounds are all
the loop can make. -/
def str_replace (heap : Bool) (s a b : List Char) : Except NoReturn (List Char) :=
  str_replace_loop heap a b (s.length + 1) s 0

/-- The function `compile_fragment_shader`; it returns the name of the shader. -/
def compile_fragment_shader (env : Env) (src : List Char) (s : GLstate) :
    Except NoReturn (Nat × GLstate) :=
  let (shader, s) := glCreateShader s
  let s := gl (.glShaderSource shader src) s
  let s := gl (.glCompileShader shader) s
  let e := env.compile_status src
  let l := env.compile_log_length src
  if 0 < l ∧ ¬ env.heap then .error .oom_abort
  else if e ≠ true then .error .compiler_error
  else .ok (shader, s)

/-- The function `link_program`; `src` is the source of the attached shader. -/
def link_program (env : Env) (src : List Char) (prg : Nat) (s : GLstate) :
    Except NoReturn GLstate :=
  let s := glLinkProgram prg s
  let e := env.link_status src
  let l := env.link_log_length src
  if 0 < l ∧ ¬ env.heap then .error .oom_abort
  else if e ≠ true then .error .linker_error
  else .ok s

/-! ## Options -/

/-- The function `glsSetViewportScreenCoords`. -/
def glsSetViewportScreenCoords (ctx : GLScontext) (x y : Int) : GLScontext :=
  { ctx with viewport_screen_x := x, viewport_screen_y := y }

/-- The function `glsSetCrosstalkGhostbusting`. -/
def glsSetCrosstalkGhostbusting (ctx : GLScontext) (r g b ghostbust : ℚ) : GLScontext :=
  { ctx with crosstalk_r := r, crosstalk_g := g, crosstalk_b := b, ghostbust := ghostbust }

/-! ## Stereoscopic display -/

/-- The function `glsClear`. -/
def glsClear (env : Env) (ctx : GLScontext) : GLScontext :=
  let ctx := { ctx with have_view := set2 (set2 ctx.have_view 0 false) 1 false }
  match env.video_sync with
  | some display_frame_counter => { ctx with display_frame_counter := display_frame_counter }
  | none =>
    { ctx with display_frame_counter := (ctx.display_frame_counter + 1) % 2 ^ env.counter_bits }

/-- The function `glsIsViewRequired`. -/
def glsIsViewRequired (ctx : GLScontext) (mode : GLSmode) (swap_views : Bool)
    (view : GLSview) : Bool :=
  if mode = GLS_MODE_MONO_LEFT
      ∨ (mode = GLS_MODE_ALTERNATING ∧ ctx.display_frame_counter % 2 = 0) then
    (!swap_views && view = GLS_VIEW_LEFT) || (swap_views && view = GLS_VIEW_RIGHT)
  else if mode = GLS_MODE_MONO_RIGHT
      ∨ (mode = GLS_MODE_ALTERNATING ∧ ctx.display_frame_counter % 2 = 1) then
    (!swap_views && view = GLS_VIEW_RIGHT) || (swap_views && view = GLS_VIEW_LEFT)
  else
    true

/-- The function `glsSubmitView`. -/
def glsSubmitView (ctx : GLScontext) (view : GLSview) (s : GLstate) : GLScontext × GLstate :=
  let texture_binding_2d_bak := s.texture_binding_2d s.active_texture
  let viewport := s.viewport
  let (ctx, s) :=
    if at2 ctx.view_tex view.index = 0 then
      let (name, s) := glGenTextures s
      ({ ctx with view_tex := set2 ctx.view_tex view.index name,
                  view_tex_width := set2 ctx.view_tex_width view.index (-1),
                  view_tex_height := set2 ctx.view_tex_height view.index (-1) }, s)
    else (ctx, s)
  let s := glBindTexture (at2 ctx.view_tex view.index) s
  let (ctx, s) :=
    if at2 ctx.view_tex_width view.index ≠ viewport.width
        ∨ at2 ctx.view_tex_height view.index ≠ viewport.height then
      let s := gl (.glTexImage2D .GL_RGB viewport.width viewport.height none) s
      let s := gl (.glTexParameteri .GL_TEXTURE_MIN_FILTER .GL_LINEAR) s
      let s := gl (.glTexParameteri .GL_TEXTURE_MAG_FILTER .GL_LINEAR) s
      let s := gl (.glTexParameteri .GL_TEXTURE_WRAP_S .GL_CLAMP_TO_BORDER) s
      let s := gl (.glTexParameteri .GL_TEXTURE_WRAP_T .GL_CLAMP_TO_BORDER) s
      ({ ctx with view_tex_width := set2 ctx.view_tex_width view.index viewport.width,
                  view_tex_height := set2 ctx.view_tex_height view.index viewport.height }, s)
    else (ctx, s)
  let s := gl (.glCopyTexSubImage2D viewport.x viewport.y viewport.width viewport.height) s
  let s := glBindTexture texture_binding_2d_bak s
  ({ ctx with have_view := set2 ctx.have_view view.index true }, s)

/-- Exchange `left` and `right` (the three `tmp = left; left = right; right = tmp`). -/
def exchange (lr : Int × Int) : Int × Int :=
  (lr.2, lr.1)

/-- Lines 576 to 579 of `glsDrawViews`: the indices `(left, right)` of the views to
show, before any exchange. -/
def initial_indices (view_textures : Nat × Nat) : Int × Int :=
  let left : Int := if at2 view_textures 0 = 0 then 1 else 0
  let right : Int := if left = 0 then 1 else 0
  let right := if at2 view_textures right = 0 then left else right
  (left, right)

/-- Lines 580 to 584 of `glsDrawViews`: the exchange asked for by `swap_views`. -/
def swap_views_exchange (swap_views : Bool) (lr : Int × Int) : Int × Int :=
  if swap_views then exchange lr else lr

/-- Lines 585 to 590 of `glsDrawViews`: the exchange by the parity of the screen row. -/
def row_parity_exchange (ctx : GLScontext) (mode : GLSmode) (viewport : Viewport)
    (lr : Int × Int) : Int × Int :=
  if (mode = GLS_MODE_EVEN_ODD_ROWS ∨ mode = GLS_MODE_CHECKERBOARD)
      ∧ Int.tmod (ctx.viewport_screen_y + viewport.y) 2 = 0 then exchange lr else lr

/-- Lines 591 to 596 of `glsDrawViews`: the exchange by the parity of the screen column. -/
def column_parity_exchange (ctx : GLScontext) (mode : GLSmode) (viewport : Viewport)
    (lr : Int × Int) : Int × Int :=
  if (mode = GLS_MODE_EVEN_ODD_COLUMNS ∨ mode = GLS_MODE_CHECKERBOARD)
      ∧ Int.tmod (ctx.viewport_screen_x + viewport.x) 2 = 1 then exchange lr else lr

/-- Lines 575 to 596 of `glsDrawViews`: the final indices `(left, right)`. -/
def view_indices (ctx : GLScontext) (mode : GLSmode) (swap_views : Bool)
    (view_textures : Nat × Nat) (viewport : Viewport) : Int × Int :=
  column_parity_exchange ctx mode viewport
    (row_parity_exchange ctx mode viewport
      (swap_views_exchange swap_views (initial_indices view_textures)))

/-- Lines 568 to 573 of `glsDrawViews`: the GL state is pushed. -/
def backup_gl_state (s : GLstate) : GLstate :=
  let s := glPushAttrib s
  let s := gl .glPushClientAttrib s
  let s := gl (.glMatrixMode .GL_MODELVIEW) s
  let s := gl .glPushMatrix s
  let s := gl (.glMatrixMode .GL_PROJECTION) s
  gl .glPushMatrix s

/-- Lines 599 to 616 of `glsDrawViews`. -/
def init_gl_things (s : GLstate) : GLstate :=
  let s := gl (.glMatrixMode .GL_PROJECTION) s
  let s := gl .glLoadIdentity s
  let s := gl (.glMatrixMode .GL_MODELVIEW) s
  let s := gl .glLoadIdentity s
  let s := gl (.glDisable .GL_DEPTH_TEST) s
  let s := gl (.glDisable .GL_ALPHA_TEST) s
  let s := gl (.glDisable .GL_STENCIL_TEST) s
  let s := gl (.glDisable .GL_SCISSOR_TEST) s
  let s := gl (.glDisable .GL_CULL_FACE) s
  let s := gl (.glDisable .GL_LIGHTING) s
  let s := gl (.glDisable .GL_BLEND) s
  let s := gl (.glDisable .GL_FOG) s
  let s := gl (.glDisable .GL_NORMALIZE) s
  let s := gl .glDisableClientState s
  let s := gl (.glPolygonMode .GL_FRONT_AND_BACK .GL_FILL) s
  gl (.glEnable .GL_TEXTURE_2D) s

/-- The body shared by lines 619 to 628, 632 to 641 and 645 to 654 of `glsDrawViews`:
a 2 x 2 luminance texture with the given bytes is made; its name is returned. -/
def create_mask_tex (mask : List Nat) (s : GLstate) : Nat × GLstate :=
  let (name, s) := glGenTextures s
  let s := glBindTexture name s
  let s := gl (.glTexParameteri .GL_TEXTURE_MIN_FILTER .GL_NEAREST) s
  let s := gl (.glTexParameteri .GL_TEXTURE_MAG_FILTER .GL_NEAREST) s
  let s := gl (.glTexParameteri .GL_TEXTURE_WRAP_S .GL_REPEAT) s
  let s := gl (.glTexParameteri .GL_TEXTURE_WRAP_T .GL_REPEAT) s
  let s := gl (.glPixelStorei .GL_UNPACK_ROW_LENGTH 0) s
  let s := gl (.glPixelStorei .GL_UNPACK_ALIGNMENT 1) s
  let s := gl (.glTexImage2D .GL_LUMINANCE8 2 2 (some mask)) s
  (name, s)

/-- Lines 617 to 655 of `glsDrawViews`: the mask texture of the mode is made once. -/
def create_mask_textures (ctx : GLScontext) (mode : GLSmode) (s : GLstate) :
    GLScontext × GLstate :=
  let (ctx, s) :=
    if mode = GLS_MODE_EVEN_ODD_ROWS ∧ ctx.even_odd_rows_mask_tex = 0 then
      let (name, s) := create_mask_tex [0xff, 0xff, 0x00, 0x00] s
      ({ ctx with even_odd_rows_mask_tex := name }, s)
    else (ctx, s)
  let (ctx, s) :=
    if mode = GLS_MODE_EVEN_ODD_COLUMNS ∧ ctx.even_odd_columns_mask_tex = 0 then
      let (name, s) := create_mask_tex [0xff, 0x00, 0xff, 0x00] s
      ({ ctx with even_odd_columns_mask_tex := name }, s)
    else (ctx, s)
  if mode = GLS_MODE_CHECKERBOARD ∧ ctx.checkerboard_mask_tex = 0 then
    let (name, s) := create_mask_tex [0xff, 0x00, 0x00, 0xff] s
    ({ ctx with checkerboard_mask_tex := name }, s)
  else (ctx, s)

/-- The value of the C expression `ctx->ghostbust > 0.0f`. -/
def ghostbust_enabled (ctx : GLScontext) : Int :=
  if 0 < ctx.ghostbust then 1 else 0

/-- Lines 658 and 659 of `glsDrawViews`: the text put in place of `$ghostbust`. -/
def ghostbust_val (ctx : GLScontext) : String :=
  if 0 < ctx.ghostbust then "ghostbust_enabled" else "ghostbust_disabled"

/-- Lines 660 to 678 of `glsDrawViews`: the text put in place of `$mode`. -/
def mode_val (mode : GLSmode) : String :=
  if mode = GLS_MODE_EVEN_ODD_ROWS then "mode_even_odd_rows"
  else if mode = GLS_MODE_EVEN_ODD_COLUMNS then "mode_even_odd_columns"
  else if mode = GLS_MODE_CHECKERBOARD then "mode_checkerboard"
  else if mode = GLS_MODE_RED_CYAN_MONOCHROME then "mode_red_cyan_monochrome"
  else if mode = GLS_MODE_RED_CYAN_HALF_COLOR then "mode_red_cyan_half_color"
  else if mode = GLS_MODE_RED_CYAN_FULL_COLOR then "mode_red_cyan_full_color"
  else if mode = GLS_MODE_RED_CYAN_DUBOIS then "mode_red_cyan_dubois"
  else if mode = GLS_MODE_GREEN_MAGENTA_MONOCHROME then "mode_green_magenta_monochrome"
  else if mode = GLS_MODE_GREEN_MAGENTA_HALF_COLOR then "mode_green_magenta_half_color"
  else if mode = GLS_MODE_GREEN_MAGENTA_FULL_COLOR then "mode_green_magenta_full_color"
  else if mode = GLS_MODE_GREEN_MAGENTA_DUBOIS then "mode_green_magenta_dubois"
  else if mode = GLS_MODE_AMBER_BLUE_MONOCHROME then "mode_amber_blue_monochrome"
  else if mode = GLS_MODE_AMBER_BLUE_HALF_COLOR then "mode_amber_blue_half_color"
  else if mode = GLS_MODE_AMBER_BLUE_FULL_COLOR then "mode_amber_blue_full_color"
  else if mode = GLS_MODE_AMBER_BLUE_DUBOIS then "mode_amber_blue_dubois"
  else if mode = GLS_MODE_RED_GREEN_MONOCHROME then "mode_red_green_monochrome"
  else if mode = GLS_MODE_RED_BLUE_MONOCHROME then "mode_red_blue_monochrome"
  else "mode_onechannel"

/-- Lines 679 to 686 of `glsDrawViews`: the source of the shader, made from the
template by two calls of `str_replace`.  A failed `strdup` leaves `shader_src` at
`NULL`, which skips both calls and ends in `oom_abort`. -/
def shader_source (env : Env) (ctx : GLScontext) (mode : GLSmode) :
    Except NoReturn (List Char) :=
  if env.heap then
    match str_replace env.heap env.GLS_GLSL_STR "$ghostbust".toList (ghostbust_val ctx).toList with
    | .error e => .error e
    | .ok shader_src => str_replace env.heap shader_src "$mode".toList (mode_val mode).toList
  else .error .oom_abort

/-- Lines 656 to 694 of `glsDrawViews`: the program of the context is kept when it was
built for this mode and this truth value of `ghostbust > 0`, and built anew otherwise. -/
def update_program (env : Env) (ctx : GLScontext) (mode : GLSmode) (s : GLstate) :
    Except NoReturn (GLScontext × GLstate) :=
  if ctx.prg = 0 ∨ ctx.prg_mode ≠ mode ∨ ctx.prg_ghostbust ≠ ghostbust_enabled ctx then
    match shader_source env ctx mode with
    | .error e => .error e
    | .ok shader_src =>
      match compile_fragment_shader env shader_src s with
      | .error e => .error e
      | .ok (shader, s) =>
        let (prg, s) := glCreateProgram s
        let ctx := { ctx with prg := prg }
        let s := gl (.glAttachShader ctx.prg shader) s
        match link_program env shader_src ctx.prg s with
        | .error e => .error e
        | .ok s =>
          .ok ({ ctx with prg_mode := mode, prg_ghostbust := ghostbust_enabled ctx }, s)
  else .ok (ctx, s)

/-- The test of lines 704 to 718 of `glsDrawViews`: the mode is none of the fourteen
anaglyph modes and `ghostbust > 0`. -/
def sets_crosstalk (ctx : GLScontext) (mode : GLSmode) : Prop :=
  mode ≠ GLS_MODE_RED_CYAN_MONOCHROME
    ∧ mode ≠ GLS_MODE_RED_CYAN_HALF_COLOR
    ∧ mode ≠ GLS_MODE_RED_CYAN_FULL_COLOR
    ∧ mode ≠ GLS_MODE_RED_CYAN_DUBOIS
    ∧ mode ≠ GLS_MODE_GREEN_MAGENTA_MONOCHROME
    ∧ mode ≠ GLS_MODE_GREEN_MAGENTA_HALF_COLOR
    ∧ mode ≠ GLS_MODE_GREEN_MAGENTA_FULL_COLOR
    ∧ mode ≠ GLS_MODE_GREEN_MAGENTA_DUBOIS
    ∧ mode ≠ GLS_MODE_AMBER_BLUE_MONOCHROME
    ∧ mode ≠ GLS_MODE_AMBER_BLUE_HALF_COLOR
    ∧ mode ≠ GLS_MODE_AMBER_BLUE_FULL_COLOR
    ∧ mode ≠ GLS_MODE_AMBER_BLUE_DUBOIS
    ∧ mode ≠ GLS_MODE_RED_BLUE_MONOCHROME
    ∧ mode ≠ GLS_MODE_RED_GREEN_MONOCHROME
    ∧ 0 < ctx.ghostbust

instance (ctx : GLScontext) (mode : GLSmode) : Decidable (sets_crosstalk ctx mode) := by
  unfold sets_crosstalk; infer_instance

/-- Lines 695 to 729 of `glsDrawViews`: the program is put in use, the two views are
bound to the texture units 0 and 1 and the uniforms are set. -/
def bind_views_and_uniforms (ctx : GLScontext) (mode : GLSmode) (view_textures : Nat × Nat)
    (viewport : Viewport) (lr : Int × Int) (s : GLstate) : GLstate :=
  let s := glUseProgram ctx.prg s
  let s := glActiveTexture 0 s
  let s := glBindTexture (at2 view_textures lr.1) s
  let s := glActiveTexture 1 s
  let s := glBindTexture (at2 view_textures lr.2) s
  let s := gl (.glUniform1i ctx.prg "rgb_l" 0) s
  let s := gl (.glUniform1i ctx.prg "rgb_r" 1) s
  let s := glUniform1f ctx.prg "parallax_adjust" ctx.parallax_adjust s
  let s :=
    if sets_crosstalk ctx mode then
      gl (.glUniform3f ctx.prg "crosstalk" (ctx.crosstalk_r * ctx.ghostbust)
        (ctx.crosstalk_g * ctx.ghostbust) (ctx.crosstalk_b * ctx.ghostbust)) s
    else s
  if mode = GLS_MODE_EVEN_ODD_ROWS ∨ mode = GLS_MODE_EVEN_ODD_COLUMNS
      ∨ mode = GLS_MODE_CHECKERBOARD then
    let s := gl (.glUniform1i ctx.prg "mask_tex" 2) s
    let s := glUniform1f ctx.prg "step_x" (1 / (viewport.width : ℚ)) s
    glUniform1f ctx.prg "step_y" (1 / (viewport.height : ℚ)) s
  else s

/-- The test of lines 751 to 764 of `glsDrawViews`: the mode is an anaglyph mode. -/
def is_anaglyph (mode : GLSmode) : Prop :=
  mode = GLS_MODE_RED_CYAN_MONOCHROME
    ∨ mode = GLS_MODE_RED_CYAN_HALF_COLOR
    ∨ mode = GLS_MODE_RED_CYAN_FULL_COLOR
    ∨ mode = GLS_MODE_RED_CYAN_DUBOIS
    ∨ mode = GLS_MODE_GREEN_MAGENTA_MONOCHROME
    ∨ mode = GLS_MODE_GREEN_MAGENTA_HALF_COLOR
    ∨ mode = GLS_MODE_GREEN_MAGENTA_FULL_COLOR
    ∨ mode = GLS_MODE_GREEN_MAGENTA_DUBOIS
    ∨ mode = GLS_MODE_AMBER_BLUE_MONOCHROME
    ∨ mode = GLS_MODE_AMBER_BLUE_HALF_COLOR
    ∨ mode = GLS_MODE_AMBER_BLUE_FULL_COLOR
    ∨ mode = GLS_MODE_AMBER_BLUE_DUBOIS
    ∨ mode = GLS_MODE_RED_GREEN_MONOCHROME
    ∨ mode = GLS_MODE_RED_BLUE_MONOCHROME

instance (mode : GLSmode) : Decidable (is_anaglyph mode) := by
  unfold is_anaglyph; infer_instance

/-- Lines 731 to 808 of `glsDrawViews`: the quads of the mode are drawn. -/
def render (ctx : GLScontext) (mode : GLSmode) (viewport : Viewport) (s : GLstate) : GLstate :=
  if mode = GLS_MODE_QUAD_BUFFER_STEREO then
    let s := glUniform1f ctx.prg "channel" 0 s
    let s := glDrawBuffer .GL_BACK_LEFT s
    let s := draw_quad viewport.width viewport.height s
    let s := glUniform1f ctx.prg "channel" 1 s
    let s := glDrawBuffer .GL_BACK_RIGHT s
    draw_quad viewport.width viewport.height s
  else if mode = GLS_MODE_EVEN_ODD_ROWS then
    let s := glActiveTexture 2 s
    let s := glBindTexture ctx.even_odd_rows_mask_tex s
    draw_quad viewport.width viewport.height s
  else if mode = GLS_MODE_EVEN_ODD_COLUMNS then
    let s := glActiveTexture 2 s
    let s := glBindTexture ctx.even_odd_columns_mask_tex s
    draw_quad viewport.width viewport.height s
  else if mode = GLS_MODE_CHECKERBOARD then
    let s := glActiveTexture 2 s
    let s := glBindTexture ctx.checkerboard_mask_tex s
    draw_quad viewport.width viewport.height s
  else if is_anaglyph mode then
    draw_quad viewport.width viewport.height s
  else if mode = GLS_MODE_MONO_LEFT
      ∨ (mode = GLS_MODE_ALTERNATING ∧ ctx.display_frame_counter % 2 = 0) then
    let s := glUniform1f ctx.prg "channel" 0 s
    draw_quad viewport.width viewport.height s
  else if mode = GLS_MODE_MONO_RIGHT
      ∨ (mode = GLS_MODE_ALTERNATING ∧ ctx.display_frame_counter % 2 = 1) then
    let s := glUniform1f ctx.prg "channel" 1 s
    draw_quad viewport.width viewport.height s
  else if mode = GLS_MODE_LEFT_RIGHT then
    let hw := Int.tdiv viewport.width 2
    let s := glViewport viewport.x viewport.y hw viewport.height s
    let s := glUniform1f ctx.prg "channel" 0 s
    let s := draw_quad viewport.width viewport.height s
    let s := glViewport (viewport.x + hw) viewport.y (viewport.width - hw) viewport.height s
    let s := glUniform1f ctx.prg "channel" 1 s
    draw_quad viewport.width viewport.height s
  else if mode = GLS_MODE_TOP_BOTTOM then
    let hh := Int.tdiv viewport.height 2
    let s := glViewport viewport.x (viewport.y + hh) viewport.width (viewport.height - hh) s
    let s := glUniform1f ctx.prg "channel" 0 s
    let s := draw_quad viewport.width viewport.height s
    let s := glViewport viewport.x viewport.y viewport.width hh s
    let s := glUniform1f ctx.prg "channel" 1 s
    draw_quad viewport.width viewport.height s
  else if mode = GLS_MODE_HDMI_FRAME_PACK then
    let blank_lines := Int.tdiv viewport.height 49
    let hh := Int.tdiv (viewport.height - blank_lines) 2
    let s := glViewport viewport.x (viewport.y + hh) viewport.width blank_lines s
    let s := gl (.glClear true false) s
    let s := glViewport viewport.x (viewport.y + hh + blank_lines) viewport.width
      (viewport.height - hh - blank_lines) s
    let s := glUniform1f ctx.prg "channel" 0 s
    let s := draw_quad viewport.width viewport.height s
    let s := glViewport viewport.x viewport.y viewport.width hh s
    let s := glUniform1f ctx.prg "channel" 1 s
    draw_quad viewport.width viewport.height s
  else s

/-- Lines 810 to 819 of `glsDrawViews`: the GL state is put back. -/
def restore_gl_state (viewport : Viewport) (current_program_bak active_texture_bak : Nat)
    (s : GLstate) : GLstate :=
  let s := gl (.glMatrixMode .GL_PROJECTION) s
  let s := gl .glPopMatrix s
  let s := gl (.glMatrixMode .GL_MODELVIEW) s
  let s := gl .glPopMatrix s
  let s := gl .glPopClientAttrib s
  let s := glPopAttrib s
  let s := glActiveTexture active_texture_bak s
  let s := glUseProgram current_program_bak s
  glViewport viewport.x viewport.y viewport.width viewport.height s

/-- The function `glsDrawViews`. -/
def glsDrawViews (env : Env) (ctx : GLScontext) (mode : GLSmode) (swap_views : Bool)
    (view_textures : Nat × Nat) (s : GLstate) : Except NoReturn (GLScontext × GLstate) :=
  if at2 view_textures 0 = 0 ∧ at2 view_textures 1 = 0 then
    .ok (ctx, gl (.glClear true false) s)
  else
    let viewport := s.viewport
    let current_program_bak := s.current_program
    let active_texture_bak := s.active_texture
    let s := backup_gl_state s
    let lr := view_indices ctx mode swap_views view_textures viewport
    let s := init_gl_things s
    let (ctx, s) := create_mask_textures ctx mode s
    match update_program env ctx mode s with
    | .error e => .error e
    | .ok (ctx, s) =>
      let s := bind_views_and_uniforms ctx mode view_textures viewport lr s
      let s := render ctx mode viewport s
      .ok (ctx, restore_gl_state viewport current_program_bak active_texture_bak s)

/-- The array `view_textures` that `glsDrawSubmittedViews` builds. -/
def submitted_view_textures (ctx : GLScontext) : Nat × Nat :=
  let view_textures : Nat × Nat := (0, 0)
  let view_textures :=
    if at2 ctx.have_view 0 then set2 view_textures 0 (at2 ctx.view_tex 0) else view_textures
  if at2 ctx.have_view 1 then set2 view_textures 1 (at2 ctx.view_tex 1) else view_textures

/-- The function `glsDrawSubmittedViews`. -/
def glsDrawSubmittedViews (env : Env) (ctx : GLScontext) (mode : GLSmode) (swap_views : Bool)
    (s : GLstate) : Except NoReturn (GLScontext × GLstate) :=
  glsDrawViews env ctx mode swap_views (submitted_view_textures ctx) s

/-- The loop `for (i = 0; i < n; i++) buf[i] = color` on the scratch row. -/
def fill_row (buf : List Nat) (n : Nat) (color : Nat) : List Nat :=
  (List.range n).foldl (fun b i => b.set i color) buf

/-- The block that `realloc(buf, size)` returns when it succeeds: `size` bytes, that is
`size / sizeof(unsigned int)` whole words, of which the old ones keep their content. -/
def realloc_words (env : Env) (buf : Option (List Nat)) (size : Nat) : List Nat :=
  let old := buf.getD []
  let words := size / env.sizeof_unsigned_int
  old.take words ++ List.replicate (words - old.length) 0

/-- Line 853 of `glsDrawDLP3dReadySyncMarker`: `viewport[2] * sizeof(unsigned int)`, a
product in the type `size_t`. -/
def sync_buf_required_size (env : Env) (viewport : Viewport) : Nat :=
  (Int.toNat (viewport.width % 2 ^ env.size_bits) * env.sizeof_unsigned_int) % 2 ^ env.size_bits

/-- Lines 854 to 857 of `glsDrawDLP3dReadySyncMarker`: the scratch row is made larger
when it is too small; a failed `realloc` leaves the `NULL` pointer. -/
def manage_sync_buf (env : Env) (ctx : GLScontext) (required_size : Nat) : GLScontext :=
  if ctx.dlp_3d_ready_sync_buf_size < required_size then
    { ctx with
      dlp_3d_ready_sync_buf :=
        if env.heap then some (realloc_words env ctx.dlp_3d_ready_sync_buf required_size)
        else none,
      dlp_3d_ready_sync_buf_size := required_size }
  else ctx

/-- Lines 861 to 885 of `glsDrawDLP3dReadySyncMarker`: the marker rows are drawn from the
scratch row `buf`; the result is the scratch row afterwards and the GL state. -/
def draw_sync_marker (ctx : GLScontext) (mode : GLSmode) (viewport : Viewport)
    (buf : List Nat) (s : GLstate) : List Nat × GLstate :=
  let R : Nat := 0xff <<< 16
  let G : Nat := 0xff <<< 8
  let B : Nat := 0xff
  let n := Int.toNat viewport.width
  if mode = GLS_MODE_LEFT_RIGHT then
    let color := if ctx.display_frame_counter % 2 = 0 then R else G ||| B
    let buf := fill_row buf n color
    let s := gl (.glWindowPos2i 0 0) s
    let s := gl (.glDrawPixels viewport.width 1 (buf.take n)) s
    (buf, gl .glWindowPos3f s)
  else if mode = GLS_MODE_TOP_BOTTOM then
    let color := if ctx.display_frame_counter % 2 = 0 then B else R ||| G
    let buf := fill_row buf n color
    let s := gl (.glWindowPos2i 0 0) s
    let s := gl (.glDrawPixels viewport.width 1 (buf.take n)) s
    let s := gl (.glWindowPos2i 0 (Int.tdiv viewport.height 2)) s
    let s := gl (.glDrawPixels viewport.width 1 (buf.take n)) s
    (buf, gl .glWindowPos3f s)
  else if mode = GLS_MODE_ALTERNATING then
    let color := if ctx.display_frame_counter % 4 < 2 then G else R ||| B
    let buf := fill_row buf n color
    let s := gl (.glWindowPos2i 0 0) s
    let s := gl (.glDrawPixels viewport.width 1 (buf.take n)) s
    (buf, gl .glWindowPos3f s)
  else
    (buf, gl .glWindowPos3f s)

/-- The function `glsDrawDLP3dReadySyncMarker`. -/
def glsDrawDLP3dReadySyncMarker (env : Env) (ctx : GLScontext) (mode : GLSmode)
    (s : GLstate) : Except NoReturn (GLScontext × GLstate) :=
  if mode ≠ GLS_MODE_LEFT_RIGHT ∧ mode ≠ GLS_MODE_TOP_BOTTOM
      ∧ mode ≠ GLS_MODE_ALTERNATING then
    .ok (ctx, s)
  else
    let viewport := s.viewport
    if viewport.x ≠ 0 ∨ viewport.y ≠ 0 then
      .ok (ctx, s)
    else
      let required_size := sync_buf_required_size env viewport
      let ctx := manage_sync_buf env ctx required_size
      match ctx.dlp_3d_ready_sync_buf with
      | none => .error .oom_abort
      | some buf =>
        let (buf, s) := draw_sync_marker ctx mode viewport buf s
        .ok ({ ctx with dlp_3d_ready_sync_buf := some buf }, s)

/-! ## Contexts -/

/-- The function `glsCreateContext`.  The block that `malloc` returns has the arbitrary
content `uninit`; the fields that the function does not assign keep it.  The result
`none` is the `NULL` pointer. -/
def glsCreateContext (env : Env) (uninit : GLScontext) : Option GLScontext :=
  if env.heap then
    some { uninit with
      have_view := (false, false)
      view_tex := (0, 0)
      even_odd_rows_mask_tex := 0
      even_odd_columns_mask_tex := 0
      checkerboard_mask_tex := 0
      viewport_screen_x := 0
      viewport_screen_y := 0
      display_frame_counter := 0
      parallax_adjust := 0
      crosstalk_r := 0
      crosstalk_g := 0
      crosstalk_b := 0
      ghostbust := 0
      prg := 0
      dlp_3d_ready_sync_buf := none
      dlp_3d_ready_sync_buf_size := 0 }
  else none

/-- The function `glsDestroyContext`; `none` is the `NULL` pointer.  The memory of the
context is given back, what is left is the GL state. -/
def glsDestroyContext (env : Env) (ctx : Option GLScontext) (s : GLstate) :
    Except NoReturn GLstate :=
  match ctx with
  | none => .ok s
  | some ctx =>
    let s := gl (.glDeleteTextures [ctx.view_tex.1, ctx.view_tex.2]) s
    let s := gl (.glDeleteTextures [ctx.even_odd_rows_mask_tex]) s
    let s := gl (.glDeleteTextures [ctx.even_odd_columns_mask_tex]) s
    let s := gl (.glDeleteTextures [ctx.checkerboard_mask_tex]) s
    if glIsProgram ctx.prg s then
      let shaders := glGetAttachedShaders ctx.prg s
      let shader_count := shaders.length
      if 0 < shader_count then
        if env.heap then
          let s := shaders.foldl (fun s shader => gl (.glDeleteShader shader) s) s
          .ok (gl (.glDeleteProgram ctx.prg) s)
        else .error .oom_abort
      else .ok (gl (.glDeleteProgram ctx.prg) s)
    else .ok s

/-! ## The demo `gls-test.c` -/

/-- The scene of `display` for one view, between `glsIsViewRequired` and
`glsSubmitView`; the arguments of these commands play no part here. -/
def render_scene (s : GLstate) : GLstate :=
  let s := gl (.glClear true true) s
  let s := gl (.glMatrixMode .GL_PROJECTION) s
  let s := gl .glLoadIdentity s
  let s := gl .glFrustum s
  let s := gl (.glMatrixMode .GL_MODELVIEW) s
  let s := gl .glLoadIdentity s
  let s := gl .glMultMatrixf s
  let s := gl .glTranslated s
  let s := gl .glTranslatef s
  gl .glutSolidTeapot s

/-- Lines 78 to 109 of `display`: the frame is begun and the required views are
rendered and submitted. -/
def display_submit (env : Env) (gls_mode : GLSmode) (gls_swap_eyes : Bool)
    (window_x window_y : Int) (gls_ctx : GLScontext) (s : GLstate) : GLScontext × GLstate :=
  let s := gl (.glEnable .GL_DEPTH_TEST) s
  let s := gl (.glEnable .GL_LIGHTING) s
  let s := gl (.glEnable .GL_LIGHT0) s
  let gls_ctx := glsClear env gls_ctx
  let gls_ctx := glsSetViewportScreenCoords gls_ctx window_x window_y
  let (gls_ctx, s) :=
    if glsIsViewRequired gls_ctx gls_mode gls_swap_eyes GLS_VIEW_LEFT then
      glsSubmitView gls_ctx GLS_VIEW_LEFT (render_scene s)
    else (gls_ctx, s)
  if glsIsViewRequired gls_ctx gls_mode gls_swap_eyes GLS_VIEW_RIGHT then
    glsSubmitView gls_ctx GLS_VIEW_RIGHT (render_scene s)
  else (gls_ctx, s)

/-- The function `display` of the demo. -/
def display (env : Env) (gls_mode : GLSmode) (gls_swap_eyes fullscreen : Bool)
    (window_x window_y : Int) (gls_ctx : GLScontext) (s : GLstate) :
    Except NoReturn (GLScontext × GLstate) :=
  let (gls_ctx, s) := display_submit env gls_mode gls_swap_eyes window_x window_y gls_ctx s
  match glsDrawSubmittedViews env gls_ctx gls_mode gls_swap_eyes s with
  | .error e => .error e
  | .ok (gls_ctx, s) =>
    if fullscreen then
      match glsDrawDLP3dReadySyncMarker env gls_ctx gls_mode s with
      | .error e => .error e
      | .ok (gls_ctx, s) => .ok (gls_ctx, gl .glutSwapBuffers s)
    else .ok (gls_ctx, gl .glutSwapBuffers s)

/-! ## Sequences of calls -/

/-- A call into the library, or GL commands of the application between two calls. -/
inductive GLSop where
  | glsClear
  | glsSetViewportScreenCoords (x y : Int)
  | glsSetCrosstalkGhostbusting (r g b ghostbust : ℚ)
  | glsSubmitView (view : GLSview)
  | glsDrawSubmittedViews (mode : GLSmode) (swap_views : Bool)
  | glsDrawViews (mode : GLSmode) (swap_views : Bool) (view_textures : Nat × Nat)
  | glsDrawDLP3dReadySyncMarker (mode : GLSmode)
  /-- Commands of the application: any change of the GL state. -/
  | application (f : GLstate → GLstate)

/-- One call, in the surroundings `env` it meets. -/
def GLSop.run (env : Env) (ctx : GLScontext) (s : GLstate) :
    GLSop → Except NoReturn (GLScontext × GLstate)
  | .glsClear => .ok (Libgls.glsClear env ctx, s)
  | .glsSetViewportScreenCoords x y => .ok (Libgls.glsSetViewportScreenCoords ctx x y, s)
  | .glsSetCrosstalkGhostbusting r g b ghostbust =>
    .ok (Libgls.glsSetCrosstalkGhostbusting ctx r g b ghostbust, s)
  | .glsSubmitView view => .ok (Libgls.glsSubmitView ctx view s)
  | .glsDrawSubmittedViews mode swap_views =>
    Libgls.glsDrawSubmittedViews env ctx mode swap_views s
  | .glsDrawViews mode swap_views view_textures =>
    Libgls.glsDrawViews env ctx mode swap_views view_textures s
  | .glsDrawDLP3dReadySyncMarker mode => Libgls.glsDrawDLP3dReadySyncMarker env ctx mode s
  | .application f => .ok (ctx, f s)

/-- A sequence of calls, each with its surroundings, from the first to the last. -/
def run_ops (ctx : GLScontext) (s : GLstate) :
    List (Env × GLSop) → Except NoReturn (GLScontext × GLstate)
  | [] => .ok (ctx, s)
  | (env, op) :: rest =>
    match op.run env ctx s with
    | .error e => .error e
    | .ok (ctx, s) => run_ops ctx s rest

/-- Was `glsSubmitView` called for `view` after the last `glsClear` of the sequence;
`before` is the answer when the sequence has neither. -/
def submitted_since_clear (view : GLSview) (before : Bool) : List (Env × GLSop) → Bool
  | [] => before
  | (_, .glsClear) :: rest => submitted_since_clear view false rest
  | (_, .glsSubmitView v) :: rest =>
    submitted_since_clear view (if v = view then true else before) rest
  | _ :: rest => submitted_since_clear view before rest

/-! ## What is observed of a run -/

/-- The quad of a command, when the command draws one. -/
def GLcall.quad : GLcall → Option Quad
  | .draw_quad q => some q
  | _ => none

/-- The quads among a list of commands. -/
def quads (l : List GLcall) : List Quad :=
  l.filterMap GLcall.quad

/-- The commands issued from the state `s` to the later state `t`. -/
def issued (s t : GLstate) : List GLcall :=
  t.log.drop s.log.length

/-- The name of the GL function of a command. -/
def GLcall.name : GLcall → String
  | .glClear .. => "glClear"
  | .glPushAttrib => "glPushAttrib"
  | .glPopAttrib => "glPopAttrib"
  | .glPushClientAttrib => "glPushClientAttrib"
  | .glPopClientAttrib => "glPopClientAttrib"
  | .glMatrixMode .. => "glMatrixMode"
  | .glPushMatrix => "glPushMatrix"
  | .glPopMatrix => "glPopMatrix"
  | .glLoadIdentity => "glLoadIdentity"
  | .glEnable .. => "glEnable"
  | .glDisable .. => "glDisable"
  | .glDisableClientState => "glDisableClientState"
  | .glPolygonMode .. => "glPolygonMode"
  | .glGenTextures .. => "glGenTextures"
  | .glBindTexture .. => "glBindTexture"
  | .glTexParameteri .. => "glTexParameteri"
  | .glPixelStorei .. => "glPixelStorei"
  | .glTexImage2D .. => "glTexImage2D"
  | .glCopyTexSubImage2D .. => "glCopyTexSubImage2D"
  | .glCreateShader .. => "glCreateShader"
  | .glShaderSource .. => "glShaderSource"
  | .glCompileShader .. => "glCompileShader"
  | .glCreateProgram .. => "glCreateProgram"
  | .glAttachShader .. => "glAttachShader"
  | .glLinkProgram .. => "glLinkProgram"
  | .glUseProgram .. => "glUseProgram"
  | .glActiveTexture .. => "glActiveTexture"
  | .glUniform1i .. => "glUniform1i"
  | .glUniform1f .. => "glUniform1f"
  | .glUniform3f .. => "glUniform3f"
  | .glDrawBuffer .. => "glDrawBuffer"
  | .glViewport .. => "glViewport"
  | .draw_quad .. => "draw_quad"
  | .glWindowPos2i .. => "glWindowPos2i"
  | .glDrawPixels .. => "glDrawPixels"
  | .glWindowPos3f => "glWindowPos3f"
  | .glFrustum => "glFrustum"
  | .glMultMatrixf => "glMultMatrixf"
  | .glTranslated => "glTranslated"
  | .glTranslatef => "glTranslatef"
  | .glutSolidTeapot => "glutSolidTeapot"
  | .glutSwapBuffers => "glutSwapBuffers"
  | .glDeleteTextures .. => "glDeleteTextures"
  | .glDeleteShader .. => "glDeleteShader"
  | .glDeleteProgram .. => "glDeleteProgram"

/-- Every command of the list is a call of one of the named GL functions. -/
def Only (names : List String) (l : List GLcall) : Prop :=
  ∀ c ∈ l, c.name ∈ names

/-- The later state `t` comes from `s` by commands none of which draws a quad. -/
def Quiet (s t : GLstate) : Prop :=
  ∃ l, t.log = s.log ++ l ∧ quads l = []

/-- The textures that lines 697 and 699 of `glsDrawViews` bind to the units 0 and 1. -/
def bound_textures (ctx : GLScontext) (mode : GLSmode) (swap_views : Bool)
    (view_textures : Nat × Nat) (viewport : Viewport) : Nat × Nat :=
  (at2 view_textures (view_indices ctx mode swap_views view_textures viewport).1,
   at2 view_textures (view_indices ctx mode swap_views view_textures viewport).2)

/-- Memory is there and the GL compiles and links every shader. -/
def Env.works (env : Env) : Prop :=
  env.heap = true ∧ (∀ src, env.compile_status src = true) ∧ (∀ src, env.link_status src = true)

/-! ## Sample values -/

/-- Surroundings in which everything works, without a hardware frame counter. -/
def sample_env : Env :=
  { GLS_GLSL_STR := "uniform float channel; void main() { $mode; $ghostbust; }".toList
    compile_status := fun _ => true
    compile_log_length := fun _ => 0
    link_status := fun _ => true
    link_log_length := fun _ => 0
    heap := true
    video_sync := none
    counter_bits := 64
    size_bits := 64
    sizeof_unsigned_int := 4 }

/-- A context as `glsCreateContext` leaves it. -/
def sample_ctx : GLScontext :=
  { have_view := (false, false), view_tex := (0, 0), view_tex_width := (0, 0),
    view_tex_height := (0, 0), even_odd_rows_mask_tex := 0, even_odd_columns_mask_tex := 0,
    checkerboard_mask_tex := 0, viewport_screen_x := 0, viewport_screen_y := 0,
    display_frame_counter := 0, parallax_adjust := 0, crosstalk_r := 0, crosstalk_g := 0,
    crosstalk_b := 0, ghostbust := 0, prg := 0, prg_mode := 0, prg_ghostbust := 0,
    dlp_3d_ready_sync_buf := none, dlp_3d_ready_sync_buf_size := 0 }

/-- A GL state with a viewport of 800 x 800 pixels and nothing bound. -/
def sample_gl : GLstate :=
  { viewport := ⟨0, 0, 800, 800⟩, current_program := 0, active_texture := 0,
    texture_binding_2d := fun _ => 0, draw_buffer := .GL_BACK, uniform1f := fun _ _ => 0,
    attrib_stack := [], names := 0, log := [] }

/-- Two frames: both views are submitted in the first, only the right one in the second. -/
def sample_ops : List (Env × GLSop) :=
  [(sample_env, .glsClear), (sample_env, .glsSubmitView GLS_VIEW_LEFT),
   (sample_env, .glsSubmitView GLS_VIEW_RIGHT),
   (sample_env, .glsDrawSubmittedViews GLS_MODE_LEFT_RIGHT false),
   (sample_env, .glsClear), (sample_env, .glsSubmitView GLS_VIEW_RIGHT),
   (sample_env, .glsDrawSubmittedViews GLS_MODE_LEFT_RIGHT false)]

/-! ## The commands of a call and the cache of the program -/

/-- The names of the GL functions called before the program is looked up. -/
def setup_names : List String :=
  ["glPushAttrib", "glPushClientAttrib", "glMatrixMode", "glPushMatrix", "glLoadIdentity",
   "glDisable", "glDisableClientState", "glPolygonMode", "glEnable", "glGenTextures",
   "glBindTexture", "glTexParameteri", "glPixelStorei", "glTexImage2D"]

/-- The names of the GL functions called to build a program. -/
def build_names : List String :=
  ["glCreateShader", "glShaderSource", "glCompileShader", "glCreateProgram", "glAttachShader",
   "glLinkProgram"]

/-- The names of the GL functions called by lines 695 to 729 of `glsDrawViews`. -/
def bind_names : List String :=
  ["glUseProgram", "glActiveTexture", "glBindTexture", "glUniform1i", "glUniform1f",
   "glUniform3f"]

/-- The names of the GL functions called by lines 731 to 808 of `glsDrawViews`. -/
def render_names : List String :=
  ["glUniform1f", "glDrawBuffer", "draw_quad", "glActiveTexture", "glBindTexture",
   "glViewport", "glClear"]

/-- The names of the GL functions called by lines 810 to 819 of `glsDrawViews`. -/
def restore_names : List String :=
  ["glMatrixMode", "glPopMatrix", "glPopClientAttrib", "glPopAttrib", "glActiveTexture",
   "glUseProgram", "glViewport"]

/-- The later state `t` comes from `s` by calls of the named GL functions. -/
def Issues (names : List String) (s t : GLstate) : Prop :=
  t.log = s.log ++ issued s t ∧ Only names (issued s t)

/-- The key under which the program of the context was built is the one asked for. -/
def program_cached (ctx : GLScontext) (mode : GLSmode) : Prop :=
  ¬ (ctx.prg = 0 ∨ ctx.prg_mode ≠ mode ∨ ctx.prg_ghostbust ≠ ghostbust_enabled ctx)

instance (ctx : GLScontext) (mode : GLSmode) : Decidable (program_cached ctx mode) := by
  unfold program_cached; infer_instance

/-- The calls of `glUniform3f` among a list of commands. -/
def uniform3f_calls (l : List GLcall) : List GLcall :=
  l.filter fun c => c.name = "glUniform3f"

/-- The textures that the commands `glBindTexture` of a list of commands bind to the
texture unit `unit`, in the order of the commands. -/
def binds (unit : Nat) (l : List GLcall) : List Nat :=
  l.filterMap fun c =>
    match c with
    | .glBindTexture u t => if u = unit then some t else none
    | _ => none

/-- The texture that a list of commands leaves bound to the texture unit `unit`: the one
of its last command `glBindTexture` for that unit, if there is one. -/
def last_bound (unit : Nat) (l : List GLcall) : Option Nat :=
  (binds unit l).getLast?

/-- The names of the GL functions called by `glsDrawViews` before it draws. -/
def before_render_names : List String :=
  setup_names ++ build_names ++ bind_names

/-- The number `blankLines` of the specification for a viewport of height `H`. -/
def blankLines (H : Int) : Int :=
  H / 49

/-- The number `halfHeight` of the specification for a viewport of height `H`. -/
def halfHeight (H : Int) : Int :=
  (H - blankLines H) / 2

/-- The textures of the indices that the swap flag alone gives. -/
def swap_only_textures (swap_views : Bool) (view_textures : Nat × Nat) : Nat × Nat :=
  (at2 view_textures (swap_views_exchange swap_views (initial_indices view_textures)).1,
   at2 view_textures (swap_views_exchange swap_views (initial_indices view_textures)).2)

/-- The names of the GL functions called by `glsDrawViews` when the program is cached. -/
def cached_call_names : List String :=
  "glClear" :: setup_names ++ bind_names ++ render_names ++ restore_names

/-- The names of the GL functions called by `glsDrawViews` after the program is there. -/
def after_program_names : List String :=
  bind_names ++ render_names ++ restore_names

/-- The enumerators of `GLSmode` in `gls.h`, without the leading `GLS_MODE_`; the empty
string for a value that is no enumerator. -/
def GLSmode_name (mode : GLSmode) : String :=
  match mode with
  | 0 => "QUAD_BUFFER_STEREO"
  | 1 => "ALTERNATING"
  | 2 => "MONO_LEFT"
  | 3 => "MONO_RIGHT"
  | 4 => "LEFT_RIGHT"
  | 5 => "TOP_BOTTOM"
  | 6 => "HDMI_FRAME_PACK"
  | 7 => "EVEN_ODD_ROWS"
  | 8 => "EVEN_ODD_COLUMNS"
  | 9 => "CHECKERBOARD"
  | 10 => "RED_CYAN_MONOCHROME"
  | 11 => "RED_CYAN_HALF_COLOR"
  | 12 => "RED_CYAN_FULL_COLOR"
  | 13 => "RED_CYAN_DUBOIS"
  | 14 => "GREEN_MAGENTA_MONOCHROME"
  | 15 => "GREEN_MAGENTA_HALF_COLOR"
  | 16 => "GREEN_MAGENTA_FULL_COLOR"
  | 17 => "GREEN_MAGENTA_DUBOIS"
  | 18 => "AMBER_BLUE_MONOCHROME"
  | 19 => "AMBER_BLUE_HALF_COLOR"
  | 20 => "AMBER_BLUE_FULL_COLOR"
  | 21 => "AMBER_BLUE_DUBOIS"
  | 22 => "RED_GREEN_MONOCHROME"
  | 23 => "RED_BLUE_MONOCHROME"
  | _ => ""

/-- The token that the name of a mode gives: `mode_` and the name in lower case. -/
def mode_token (mode : GLSmode) : List Char :=
  "mode_".toList ++ (GLSmode_name mode).toList.map Char.toLower

/-- The three modes that interleave the views and the fourteen anaglyph modes. -/
def has_own_token (mode : GLSmode) : Prop :=
  mode = GLS_MODE_EVEN_ODD_ROWS ∨ mode = GLS_MODE_EVEN_ODD_COLUMNS
    ∨ mode = GLS_MODE_CHECKERBOARD ∨ is_anaglyph mode

instance (mode : GLSmode) : Decidable (has_own_token mode) := by
  unfold has_own_token; infer_instance

/-- The shaders given to `glDeleteShader` among a list of commands. -/
def deleted_shaders (l : List GLcall) : List Nat :=
  l.filterMap fun c => match c with
    | .glDeleteShader shader => some shader
    | _ => none

/-- The programs and shaders that a call deletes; nothing when the call does not return. -/
def deleted_by (s : GLstate) (r : Except NoReturn (GLScontext × GLstate)) : List Nat × List Nat :=
  match r with
  | .ok (_, t) => (deleted_programs (issued s t), deleted_shaders (issued s t))
  | .error _ => ([], [])

/-- What is seen of the programs after a run that returns: the program of the context,
the programs alive, and the shaders alive. -/
def programs_after (r : Except NoReturn (GLScontext × GLstate)) :
    Option (Nat × List Nat × List Nat) :=
  match r with
  | .ok (ctx, s) => some (ctx.prg, live_programs s.log, live_shaders s.log)
  | .error _ => none

/-- The programs and shaders alive after `glsDestroyContext` has ended the run. -/
def programs_after_destroy (env : Env) (r : Except NoReturn (GLScontext × GLstate)) :
    Option (List Nat × List Nat) :=
  match r with
  | .ok (ctx, s) =>
    match glsDestroyContext env (some ctx) s with
    | .ok t => some (live_programs t.log, live_shaders t.log)
    | .error _ => none
  | .error _ => none

/-- Two calls of `glsDrawViews` in two modes. -/
def sample_two_modes : List (Env × GLSop) :=
  [(sample_env, .glsDrawViews GLS_MODE_MONO_LEFT false (5, 6)),
   (sample_env, .glsDrawViews GLS_MODE_MONO_RIGHT false (5, 6))]

/-- The names of all the GL functions that `glsDrawViews` calls. -/
def glsDrawViews_names : List String :=
  "glClear" :: setup_names ++ build_names ++ after_program_names

/-- A context with crosstalk levels and ghostbusting set. -/
def sample_ghostbust_ctx : GLScontext :=
  glsSetCrosstalkGhostbusting sample_ctx (1 / 2) (1 / 4) (1 / 8) (1 / 2)

/-- A GL state with a viewport of 801 x 721 pixels at (10, 20). -/
def sample_odd_gl : GLstate :=
  { sample_gl with viewport := ⟨10, 20, 801, 721⟩ }

/-- A GL state with the viewport of an HDMI frame of two 1080-line views. -/
def sample_hdmi_gl : GLstate :=
  { sample_gl with viewport := ⟨0, 0, 1920, 2205⟩ }

/-- A context that holds the program 2, built for `GLS_MODE_LEFT_RIGHT` without
ghostbusting. -/
def sample_cached_ctx : GLScontext :=
  { sample_ctx with prg := 2, prg_mode := GLS_MODE_LEFT_RIGHT, prg_ghostbust := 0 }

/-- Surroundings in which no memory is to be had and no shader compiles or links. -/
def sample_barren_env : Env :=
  { sample_env with heap := false, compile_status := fun _ => false,
                    link_status := fun _ => false }

/-! ## Stereoscopic setup -/

/-- The arguments of a call of `glFrustum`. -/
structure FrustumArgs (K : Type) where
  left : K
  right : K
  bottom : K
  top : K
  nearVal : K
  farVal : K

/-- The function `glsFrustum` in exact arithmetic over the field `K`: the arguments it
passes to `glFrustum`.  The quotient by `focalLength` is a number only when `focalLength`
is not zero; `none` stands for the call in which it is not. -/
def glsFrustum {K : Type} [Field K] [DecidableEq K]
    (left right bottom top nearVal farVal focalLength eyeSeparation : K) (view : GLSview) :
    Option (FrustumArgs K) :=
  if focalLength = 0 then none
  else
    let d := eyeSeparation / 2 * nearVal / focalLength
    let (left, right) :=
      if view = GLS_VIEW_LEFT then (left + d, right + d) else (left - d, right - d)
    some ⟨left, right, bottom, top, nearVal, farVal⟩

/-- The function `crossproduct`; the results `*cx`, `*cy`, `*cz` are returned as a triple
(`b_y` is the parameter `by`, a word that Lean keeps for itself). -/
def crossproduct {K : Type} [Field K] (ax ay az bx b_y bz : K) : K × K × K :=
  (ay * bz - az * b_y, az * bx - ax * bz, ax * b_y - ay * bx)

/-- The arguments of the calls of `glMultMatrixf` and `glTranslated` in `glsLookAt`; the
entry `M[i * 4 + j]` of the matrix is the entry `i * 4 + j` of the list. -/
structure LookAtArgs (K : Type) where
  M : List K
  translate : K × K × K

/-- The function `glsLookAt` in exact arithmetic over the field `K`, with the square root
`sqrtf` of the C library as a parameter: the arguments it passes to `glMultMatrixf` and to
`glTranslated`.  A quotient by a length is a number only when the length is not zero;
`none` stands for the call in which it is not. -/
def glsLookAt {K : Type} [Field K] [DecidableEq K] (sqrtf : K → K)
    (eyeX eyeY eyeZ centerX centerY centerZ upX upY upZ eyeSeparation : K) (view : GLSview) :
    Option (LookAtArgs K) :=
  let viewX := centerX - eyeX
  let viewY := centerY - eyeY
  let viewZ := centerZ - eyeZ
  let viewLen := sqrtf (viewX * viewX + viewY * viewY + viewZ * viewZ)
  if viewLen = 0 then none
  else
    let viewX := viewX / viewLen
    let viewY := viewY / viewLen
    let viewZ := viewZ / viewLen
    let (sX, sY, sZ) := crossproduct viewX viewY viewZ upX upY upZ
    let sLen := sqrtf (sX * sX + sY * sY + sZ * sZ)
    if sLen = 0 then none
    else
      let sX := sX / sLen
      let sY := sY / sLen
      let sZ := sZ / sLen
      let (uX, uY, uZ) := crossproduct sX sY sZ viewX viewY viewZ
      let M := [sX, uX, -viewX, 0, sY, uY, -viewY, 0, sZ, uZ, -viewZ, 0, 0, 0, 0, 1]
      let ef := eyeSeparation / 2
      if view = GLS_VIEW_LEFT then
        some ⟨M, (-(eyeX - sX * ef), -(eyeY - sY * ef), -(eyeZ - sZ * ef))⟩
      else
        some ⟨M, (-(eyeX + sX * ef), -(eyeY + sY * ef), -(eyeZ + sZ * ef))⟩

/-! ## The vectors of `glsLookAt`, the scratch row and the replacement of strings -/

/-- A context as `glsCreateContext` makes it, the fields that it leaves unassigned taken
from `sample_cached_ctx`. -/
def sample_new_ctx : GLScontext :=
  (glsCreateContext sample_env sample_cached_ctx).getD sample_ctx

/-- The modes for which `glsDrawDLP3dReadySyncMarker` draws a marker. -/
def is_marker_mode (mode : GLSmode) : Prop :=
  mode = GLS_MODE_LEFT_RIGHT ∨ mode = GLS_MODE_TOP_BOTTOM ∨ mode = GLS_MODE_ALTERNATING

instance (mode : GLSmode) : Decidable (is_marker_mode mode) := by
  unfold is_marker_mode; infer_instance

/-- The number of words of the scratch row; 0 for the `NULL` pointer. -/
def sync_buf_words (ctx : GLScontext) : Nat :=
  (ctx.dlp_3d_ready_sync_buf.getD []).length

/-- The recorded size of the scratch row does not exceed the bytes of its block, `w` being
`sizeof(unsigned int)`. -/
def sync_buf_fits (w : Nat) (ctx : GLScontext) : Prop :=
  ctx.dlp_3d_ready_sync_buf_size ≤ sync_buf_words ctx * w

instance (w : Nat) (ctx : GLScontext) : Decidable (sync_buf_fits w ctx) := by
  unfold sync_buf_fits; infer_instance

/-- A GL state whose viewport has the width 0. -/
def sample_empty_gl : GLstate :=
  { sample_gl with viewport := ⟨0, 0, 0, 600⟩ }

/-- A GL state with a viewport of 4 x 721 pixels at the origin. -/
def sample_marker_gl : GLstate :=
  { sample_gl with viewport := ⟨0, 0, 4, 721⟩ }

/-- One call of `glsDrawDLP3dReadySyncMarker`. -/
def sample_marker_ops : List (Env × GLSop) :=
  [(sample_env, .glsDrawDLP3dReadySyncMarker GLS_MODE_LEFT_RIGHT)]

/-- A GL state in which the application has a program in use, the texture unit 1 active
and a texture bound in every unit. -/
def sample_busy_gl : GLstate :=
  { sample_gl with viewport := ⟨10, 20, 801, 721⟩, current_program := 9, active_texture := 1,
                   texture_binding_2d := fun u => u + 10 }

/-- The inner product of two vectors. -/
def dot {K : Type} [Field K] (a b : K × K × K) : K :=
  a.1 * b.1 + a.2.1 * b.2.1 + a.2.2 * b.2.2

/-- The vector product of two vectors. -/
def cross {K : Type} [Field K] (a b : K × K × K) : K × K × K :=
  (a.2.1 * b.2.2 - a.2.2 * b.2.1, a.2.2 * b.1 - a.1 * b.2.2, a.1 * b.2.1 - a.2.1 * b.1)

/-- The difference `a - b` of two vectors. -/
def vec_sub {K : Type} [Field K] (a b : K × K × K) : K × K × K :=
  (a.1 - b.1, a.2.1 - b.2.1, a.2.2 - b.2.2)

/-- The square root `sqrtf` is exact at `x`. -/
def sqrt_exact {K : Type} [Field K] (sqrtf : K → K) (x : K) : Prop :=
  sqrtf x * sqrtf x = x

/-- The vector `a` divided by its length. -/
def normalize {K : Type} [Field K] (sqrtf : K → K) (a : K × K × K) : K × K × K :=
  (a.1 / sqrtf (dot a a), a.2.1 / sqrtf (dot a a), a.2.2 / sqrtf (dot a a))

/-- The direction of view `normalize(center - eye)`. -/
def forward_vector {K : Type} [Field K] (sqrtf : K → K) (eye center : K × K × K) : K × K × K :=
  normalize sqrtf (vec_sub center eye)

/-- The vector `right = normalize(normalize(center - eye) x up)`. -/
def right_vector {K : Type} [Field K] (sqrtf : K → K) (eye center up : K × K × K) :
    K × K × K :=
  normalize sqrtf (cross (forward_vector sqrtf eye center) up)

/-- The matrix with the rows `s`, `u` and `-f`, laid out as `glsLookAt` fills `M`. -/
def lookat_matrix {K : Type} [Field K] (s u f : K × K × K) : List K :=
  [s.1, u.1, -f.1, 0, s.2.1, u.2.1, -f.2.1, 0, s.2.2, u.2.2, -f.2.2, 0, 0, 0, 0, 1]

/-- The function `gluLookAt` of the GLU library, which is not part of this repository,
after its sample implementation: `forward = center - eye` and `side = forward x up` are
normalized (a vector of length zero is left as it is), `up = side x forward`, the matrix
has the rows `side`, `up` and `-forward`, and the translation is by `-eye`. -/
def gluLookAt {K : Type} [Field K] [DecidableEq K] (sqrtf : K → K)
    (eyeX eyeY eyeZ centerX centerY centerZ upX upY upZ : K) : LookAtArgs K :=
  let normalize_or_keep : K × K × K → K × K × K := fun v =>
    if sqrtf (dot v v) = 0 then v else normalize sqrtf v
  let forward := normalize_or_keep (centerX - eyeX, centerY - eyeY, centerZ - eyeZ)
  let side := normalize_or_keep (cross forward (upX, upY, upZ))
  let up := cross side forward
  ⟨[side.1, up.1, -forward.1, 0, side.2.1, up.2.1, -forward.2.1, 0,
    side.2.2, up.2.2, -forward.2.2, 0, 0, 0, 0, 1], (-eyeX, -eyeY, -eyeZ)⟩

/-- A camera on the z axis. -/
def sample_eye : ℚ × ℚ × ℚ := (0, 0, 5)

/-- The point the camera looks at. -/
def sample_center : ℚ × ℚ × ℚ := (0, 0, 0)

/-- The up vector of the camera. -/
def sample_up : ℚ × ℚ × ℚ := (0, 1, 0)

@[simp] theorem quads_nil : quads [] = [] := rfl

@[simp] theorem quads_cons (c : GLcall) (l : List GLcall) :
    quads (c :: l) = (c.quad.toList) ++ quads l := by
  cases h : c.quad <;> simp [quads, List.filterMap_cons, h]

@[simp] theorem quads_append (l₁ l₂ : List GLcall) : quads (l₁ ++ l₂) = quads l₁ ++ quads l₂ := by
  simp [quads, List.filterMap_append]

@[simp] theorem gl_fields (c : GLcall) (s : GLstate) :
    (gl c s).log = s.log ++ [c] ∧ (gl c s).viewport = s.viewport
    ∧ (gl c s).current_program = s.current_program ∧ (gl c s).active_texture = s.active_texture
    ∧ (gl c s).texture_binding_2d = s.texture_binding_2d ∧ (gl c s).draw_buffer = s.draw_buffer
    ∧ (gl c s).uniform1f = s.uniform1f ∧ (gl c s).attrib_stack = s.attrib_stack
    ∧ (gl c s).names = s.names := by
  simp [gl, GLstate.emit]

@[simp] theorem draw_quad_fields (w h : Int) (s : GLstate) :
    (draw_quad w h s).log = s.log ++ [.draw_quad (s.quad w h)]
    ∧ (draw_quad w h s).viewport = s.viewport
    ∧ (draw_quad w h s).current_program = s.current_program
    ∧ (draw_quad w h s).active_texture = s.active_texture
    ∧ (draw_quad w h s).texture_binding_2d = s.texture_binding_2d
    ∧ (draw_quad w h s).draw_buffer = s.draw_buffer
    ∧ (draw_quad w h s).uniform1f = s.uniform1f
    ∧ (draw_quad w h s).attrib_stack = s.attrib_stack
    ∧ (draw_quad w h s).names = s.names := by
  simp [draw_quad, GLstate.emit]

@[simp] theorem glBindTexture_fields (t : Nat) (s : GLstate) :
    (glBindTexture t s).log = s.log ++ [.glBindTexture s.active_texture t]
    ∧ (glBindTexture t s).viewport = s.viewport
    ∧ (glBindTexture t s).current_program = s.current_program
    ∧ (glBindTexture t s).active_texture = s.active_texture
    ∧ (glBindTexture t s).texture_binding_2d
        = (fun u => if u = s.active_texture then t else s.texture_binding_2d u)
    ∧ (glBindTexture t s).draw_buffer = s.draw_buffer
    ∧ (glBindTexture t s).uniform1f = s.uniform1f
    ∧ (glBindTexture t s).attrib_stack = s.attrib_stack
    ∧ (glBindTexture t s).names = s.names := by
  simp [glBindTexture, GLstate.emit]

@[simp] theorem glActiveTexture_fields (u : Nat) (s : GLstate) :
    (glActiveTexture u s).log = s.log ++ [.glActiveTexture u]
    ∧ (glActiveTexture u s).viewport = s.viewport
    ∧ (glActiveTexture u s).current_program = s.current_program
    ∧ (glActiveTexture u s).active_texture = u
    ∧ (glActiveTexture u s).texture_binding_2d = s.texture_binding_2d
    ∧ (glActiveTexture u s).draw_buffer = s.draw_buffer
    ∧ (glActiveTexture u s).uniform1f = s.uniform1f
    ∧ (glActiveTexture u s).attrib_stack = s.attrib_stack
    ∧ (glActiveTexture u s).names = s.names := by
  simp [glActiveTexture, GLstate.emit]

@[simp] theorem glUseProgram_fields (p : Nat) (s : GLstate) :
    (glUseProgram p s).log = s.log ++ [.glUseProgram p]
    ∧ (glUseProgram p s).viewport = s.viewport
    ∧ (glUseProgram p s).current_program = p
    ∧ (glUseProgram p s).active_texture = s.active_texture
    ∧ (glUseProgram p s).texture_binding_2d = s.texture_binding_2d
    ∧ (glUseProgram p s).draw_buffer = s.draw_buffer
    ∧ (glUseProgram p s).uniform1f = s.uniform1f
    ∧ (glUseProgram p s).attrib_stack = s.attrib_stack
    ∧ (glUseProgram p s).names = s.names := by
  simp [glUseProgram, GLstate.emit]

@[simp] theorem glViewport_fields (x y w h : Int) (s : GLstate) :
    (glViewport x y w h s).log = s.log ++ [.glViewport x y w h]
    ∧ (glViewport x y w h s).viewport = ⟨x, y, w, h⟩
    ∧ (glViewport x y w h s).current_program = s.current_program
    ∧ (glViewport x y w h s).active_texture = s.active_texture
    ∧ (glViewport x y w h s).texture_binding_2d = s.texture_binding_2d
    ∧ (glViewport x y w h s).draw_buffer = s.draw_buffer
    ∧ (glViewport x y w h s).uniform1f = s.uniform1f
    ∧ (glViewport x y w h s).attrib_stack = s.attrib_stack
    ∧ (glViewport x y w h s).names = s.names := by
  simp [glViewport, GLstate.emit]

@[simp] theorem glDrawBuffer_fields (b : GLenum) (s : GLstate) :
    (glDrawBuffer b s).log = s.log ++ [.glDrawBuffer b]
    ∧ (glDrawBuffer b s).viewport = s.viewport
    ∧ (glDrawBuffer b s).current_program = s.current_program
    ∧ (glDrawBuffer b s).active_texture = s.active_texture
    ∧ (glDrawBuffer b s).texture_binding_2d = s.texture_binding_2d
    ∧ (glDrawBuffer b s).draw_buffer = b
    ∧ (glDrawBuffer b s).uniform1f = s.uniform1f
    ∧ (glDrawBuffer b s).attrib_stack = s.attrib_stack
    ∧ (glDrawBuffer b s).names = s.names := by
  simp [glDrawBuffer, GLstate.emit]

@[simp] theorem glUniform1f_fields (p : Nat) (n : String) (v : ℚ) (s : GLstate) :
    (glUniform1f p n v s).log = s.log ++ [.glUniform1f p n v]
    ∧ (glUniform1f p n v s).viewport = s.viewport
    ∧ (glUniform1f p n v s).current_program = s.current_program
    ∧ (glUniform1f p n v s).active_texture = s.active_texture
    ∧ (glUniform1f p n v s).texture_binding_2d = s.texture_binding_2d
    ∧ (glUniform1f p n v s).draw_buffer = s.draw_buffer
    ∧ (glUniform1f p n v s).uniform1f
        = (fun q m => if q = s.current_program ∧ m = n then v else s.uniform1f q m)
    ∧ (glUniform1f p n v s).attrib_stack = s.attrib_stack
    ∧ (glUniform1f p n v s).names = s.names := by
  simp [glUniform1f, GLstate.emit]

@[simp] theorem quad_fields (w h : Int) (s : GLstate) :
    (s.quad w h).unit0 = s.texture_binding_2d 0 ∧ (s.quad w h).unit1 = s.texture_binding_2d 1
    ∧ (s.quad w h).unit2 = s.texture_binding_2d 2
    ∧ (s.quad w h).channel = s.uniform1f s.current_program "channel"
    ∧ (s.quad w h).program = s.current_program ∧ (s.quad w h).viewport = s.viewport
    ∧ (s.quad w h).draw_buffer = s.draw_buffer
    ∧ (s.quad w h).viewport_width = w ∧ (s.quad w h).viewport_height = h := by
  simp [GLstate.quad]

theorem render_log (ctx : GLScontext) (mode : GLSmode) (viewport : Viewport) (s : GLstate) :
    ∃ l, (render ctx mode viewport s).log = s.log ++ l
      ∧ (∀ q ∈ quads l, q.unit0 = s.texture_binding_2d 0 ∧ q.unit1 = s.texture_binding_2d 1)
      ∧ (mode < 24 → quads l ≠ [])
      ∧ (mode = GLS_MODE_MONO_LEFT
          ∨ (mode = GLS_MODE_ALTERNATING ∧ ctx.display_frame_counter % 2 = 0) →
          ∃ q, quads l = [q] ∧ q.channel = 0)
      ∧ (mode = GLS_MODE_MONO_RIGHT
          ∨ (mode = GLS_MODE_ALTERNATING ∧ ctx.display_frame_counter % 2 = 1) →
          ∃ q, quads l = [q] ∧ q.channel = 1) := by
  unfold render
  by_cases h1 : mode = GLS_MODE_QUAD_BUFFER_STEREO
  · rw [if_pos h1]
    refine ⟨_, by simp only [gl_fields, draw_quad_fields, glUniform1f_fields, glDrawBuffer_fields,
      glActiveTexture_fields, glBindTexture_fields, glViewport_fields, List.append_assoc]; rfl, ?_⟩
    simp [h1, GLcall.quad]
  rw [if_neg h1]
  by_cases h2 : mode = GLS_MODE_EVEN_ODD_ROWS
  · rw [if_pos h2]
    refine ⟨_, by simp only [gl_fields, draw_quad_fields, glUniform1f_fields, glDrawBuffer_fields,
      glActiveTexture_fields, glBindTexture_fields, glViewport_fields, List.append_assoc]; rfl, ?_⟩
    simp [h2, GLcall.quad]
  rw [if_neg h2]
  by_cases h3 : mode = GLS_MODE_EVEN_ODD_COLUMNS
  · rw [if_pos h3]
    refine ⟨_, by simp only [gl_fields, draw_quad_fields, glUniform1f_fields, glDrawBuffer_fields,
      glActiveTexture_fields, glBindTexture_fields, glViewport_fields, List.append_assoc]; rfl, ?_⟩
    simp [h3, GLcall.quad]
  rw [if_neg h3]
  by_cases h4 : mode = GLS_MODE_CHECKERBOARD
  · rw [if_pos h4]
    refine ⟨_, by simp only [gl_fields, draw_quad_fields, glUniform1f_fields, glDrawBuffer_fields,
      glActiveTexture_fields, glBindTexture_fields, glViewport_fields, List.append_assoc]; rfl, ?_⟩
    simp [h4, GLcall.quad]
  rw [if_neg h4]
  by_cases h5 : is_anaglyph mode
  · rw [if_pos h5]
    refine ⟨_, by simp only [gl_fields, draw_quad_fields, glUniform1f_fields, glDrawBuffer_fields,
      glActiveTexture_fields, glBindTexture_fields, glViewport_fields, List.append_assoc]; rfl, ?_⟩
    have h5' := h5
    simp only [is_anaglyph] at h5'
    simp at h1 h2 h3 h4 h5'
    simp [GLcall.quad] at *
    unfold GLSmode at *
    omega
  rw [if_neg h5]
  by_cases h6 : mode = GLS_MODE_MONO_LEFT
      ∨ (mode = GLS_MODE_ALTERNATING ∧ ctx.display_frame_counter % 2 = 0)
  · rw [if_pos h6]
    refine ⟨_, by simp only [gl_fields, draw_quad_fields, glUniform1f_fields, glDrawBuffer_fields,
      glActiveTexture_fields, glBindTexture_fields, glViewport_fields, List.append_assoc]; rfl, ?_⟩
    simp [GLcall.quad] at *
    unfold GLSmode at *
    omega
  rw [if_neg h6]
  by_cases h7 : mode = GLS_MODE_MONO_RIGHT
      ∨ (mode = GLS_MODE_ALTERNATING ∧ ctx.display_frame_counter % 2 = 1)
  · rw [if_pos h7]
    refine ⟨_, by simp only [gl_fields, draw_quad_fields, glUniform1f_fields, glDrawBuffer_fields,
      glActiveTexture_fields, glBindTexture_fields, glViewport_fields, List.append_assoc]; rfl, ?_⟩
    simp [GLcall.quad] at *
    unfold GLSmode at *
    omega
  rw [if_neg h7]
  by_cases h8 : mode = GLS_MODE_LEFT_RIGHT
  · rw [if_pos h8]
    refine ⟨_, by simp only [gl_fields, draw_quad_fields, glUniform1f_fields, glDrawBuffer_fields,
      glActiveTexture_fields, glBindTexture_fields, glViewport_fields, List.append_assoc]; rfl, ?_⟩
    simp [GLcall.quad] at *
    exact ⟨h6, h7⟩
  rw [if_neg h8]
  by_cases h9 : mode = GLS_MODE_TOP_BOTTOM
  · rw [if_pos h9]
    refine ⟨_, by simp only [gl_fields, draw_quad_fields, glUniform1f_fields, glDrawBuffer_fields,
      glActiveTexture_fields, glBindTexture_fields, glViewport_fields, List.append_assoc]; rfl, ?_⟩
    simp [GLcall.quad] at *
    exact ⟨h6, h7⟩
  rw [if_neg h9]
  by_cases h10 : mode = GLS_MODE_HDMI_FRAME_PACK
  · rw [if_pos h10]
    refine ⟨_, by simp only [gl_fields, draw_quad_fields, glUniform1f_fields, glDrawBuffer_fields,
      glActiveTexture_fields, glBindTexture_fields, glViewport_fields, List.append_assoc]; rfl, ?_⟩
    simp [GLcall.quad] at *
    exact ⟨h6, h7⟩
  rw [if_neg h10]
  refine ⟨[], by simp, ?_⟩
  simp only [is_anaglyph] at h5
  simp at *
  unfold GLSmode at *
  omega

theorem Quiet.refl (s : GLstate) : Quiet s s := ⟨[], by simp⟩

theorem Quiet.trans {s t u : GLstate} (h₁ : Quiet s t) (h₂ : Quiet t u) : Quiet s u := by
  obtain ⟨l₁, e₁, q₁⟩ := h₁
  obtain ⟨l₂, e₂, q₂⟩ := h₂
  exact ⟨l₁ ++ l₂, by rw [e₂, e₁, List.append_assoc], by simp [q₁, q₂]⟩

@[simp] theorem glLinkProgram_fields (p : Nat) (s : GLstate) :
    (glLinkProgram p s).log = s.log ++ [.glLinkProgram p]
    ∧ (glLinkProgram p s).viewport = s.viewport
    ∧ (glLinkProgram p s).current_program = s.current_program
    ∧ (glLinkProgram p s).active_texture = s.active_texture
    ∧ (glLinkProgram p s).texture_binding_2d = s.texture_binding_2d
    ∧ (glLinkProgram p s).draw_buffer = s.draw_buffer
    ∧ (glLinkProgram p s).uniform1f = (fun q n => if q = p then 0 else s.uniform1f q n)
    ∧ (glLinkProgram p s).attrib_stack = s.attrib_stack
    ∧ (glLinkProgram p s).names = s.names := by
  simp [glLinkProgram, GLstate.emit]

@[simp] theorem glPushAttrib_fields (s : GLstate) :
    (glPushAttrib s).log = s.log ++ [.glPushAttrib]
    ∧ (glPushAttrib s).viewport = s.viewport
    ∧ (glPushAttrib s).current_program = s.current_program
    ∧ (glPushAttrib s).active_texture = s.active_texture
    ∧ (glPushAttrib s).texture_binding_2d = s.texture_binding_2d
    ∧ (glPushAttrib s).draw_buffer = s.draw_buffer
    ∧ (glPushAttrib s).uniform1f = s.uniform1f
    ∧ (glPushAttrib s).attrib_stack
        = ⟨s.viewport, s.active_texture, s.texture_binding_2d, s.draw_buffer⟩ :: s.attrib_stack
    ∧ (glPushAttrib s).names = s.names := by
  simp [glPushAttrib, GLstate.emit]

@[simp] theorem glPopAttrib_fields (s : GLstate) :
    (glPopAttrib s).log = s.log ++ [.glPopAttrib]
    ∧ (glPopAttrib s).current_program = s.current_program
    ∧ (glPopAttrib s).uniform1f = s.uniform1f
    ∧ (glPopAttrib s).names = s.names := by
  unfold glPopAttrib
  cases s.attrib_stack <;> simp [GLstate.emit]

@[simp] theorem glGenTextures_fields (s : GLstate) :
    (glGenTextures s).1 = s.names + 1
    ∧ (glGenTextures s).2.log = s.log ++ [.glGenTextures (s.names + 1)]
    ∧ (glGenTextures s).2.viewport = s.viewport
    ∧ (glGenTextures s).2.current_program = s.current_program
    ∧ (glGenTextures s).2.active_texture = s.active_texture
    ∧ (glGenTextures s).2.texture_binding_2d = s.texture_binding_2d
    ∧ (glGenTextures s).2.draw_buffer = s.draw_buffer
    ∧ (glGenTextures s).2.uniform1f = s.uniform1f
    ∧ (glGenTextures s).2.attrib_stack = s.attrib_stack
    ∧ (glGenTextures s).2.names = s.names + 1 := by
  simp [glGenTextures, GLstate.emit]

@[simp] theorem glCreateShader_fields (s : GLstate) :
    (glCreateShader s).1 = s.names + 1
    ∧ (glCreateShader s).2.log = s.log ++ [.glCreateShader (s.names + 1)]
    ∧ (glCreateShader s).2.viewport = s.viewport
    ∧ (glCreateShader s).2.current_program = s.current_program
    ∧ (glCreateShader s).2.active_texture = s.active_texture
    ∧ (glCreateShader s).2.texture_binding_2d = s.texture_binding_2d
    ∧ (glCreateShader s).2.draw_buffer = s.draw_buffer
    ∧ (glCreateShader s).2.uniform1f = s.uniform1f
    ∧ (glCreateShader s).2.attrib_stack = s.attrib_stack
    ∧ (glCreateShader s).2.names = s.names + 1 := by
  simp [glCreateShader, GLstate.emit]

@[simp] theorem glCreateProgram_fields (s : GLstate) :
    (glCreateProgram s).1 = s.names + 1
    ∧ (glCreateProgram s).2.log = s.log ++ [.glCreateProgram (s.names + 1)]
    ∧ (glCreateProgram s).2.viewport = s.viewport
    ∧ (glCreateProgram s).2.current_program = s.current_program
    ∧ (glCreateProgram s).2.active_texture = s.active_texture
    ∧ (glCreateProgram s).2.texture_binding_2d = s.texture_binding_2d
    ∧ (glCreateProgram s).2.draw_buffer = s.draw_buffer
    ∧ (glCreateProgram s).2.uniform1f = s.uniform1f
    ∧ (glCreateProgram s).2.attrib_stack = s.attrib_stack
    ∧ (glCreateProgram s).2.names = s.names + 1 := by
  simp [glCreateProgram, GLstate.emit]

theorem backup_gl_state_quiet (s : GLstate) : Quiet s (backup_gl_state s) := by
  refine ⟨_, by simp only [backup_gl_state, gl_fields, glPushAttrib_fields, List.append_assoc]; rfl, ?_⟩
  simp [GLcall.quad]

theorem init_gl_things_quiet (s : GLstate) : Quiet s (init_gl_things s) := by
  refine ⟨_, by simp only [init_gl_things, gl_fields, List.append_assoc]; rfl, ?_⟩
  simp [GLcall.quad]

theorem create_mask_tex_quiet (mask : List Nat) (s : GLstate) :
    Quiet s (create_mask_tex mask s).2 := by
  refine ⟨_, by simp only [create_mask_tex, gl_fields, glGenTextures_fields, glBindTexture_fields,
    List.append_assoc]; rfl, ?_⟩
  simp [GLcall.quad]

theorem create_mask_textures_quiet (ctx : GLScontext) (mode : GLSmode) (s : GLstate) :
    Quiet s (create_mask_textures ctx mode s).2
    ∧ (create_mask_textures ctx mode s).1.display_frame_counter = ctx.display_frame_counter := by
  unfold create_mask_textures
  by_cases h1 : mode = GLS_MODE_EVEN_ODD_ROWS ∧ ctx.even_odd_rows_mask_tex = 0 <;>
  by_cases h2 : mode = GLS_MODE_EVEN_ODD_COLUMNS ∧ ctx.even_odd_columns_mask_tex = 0 <;>
  by_cases h3 : mode = GLS_MODE_CHECKERBOARD ∧ ctx.checkerboard_mask_tex = 0 <;>
  simp [h1, h2, h3, Quiet.refl, create_mask_tex_quiet]

theorem restore_gl_state_quiet (viewport : Viewport) (p a : Nat) (s : GLstate) :
    Quiet s (restore_gl_state viewport p a s) := by
  refine ⟨_, by simp only [restore_gl_state, gl_fields, glPopAttrib_fields, glActiveTexture_fields,
    glUseProgram_fields, glViewport_fields, List.append_assoc]; rfl, ?_⟩
  simp [GLcall.quad]

theorem compile_fragment_shader_quiet {env : Env} {src : List Char} {s t : GLstate} {shader : Nat}
    (h : compile_fragment_shader env src s = .ok (shader, t)) : Quiet s t := by
  unfold compile_fragment_shader at h
  simp only [] at h
  split_ifs at h
  simp only [Except.ok.injEq, Prod.mk.injEq] at h
  obtain ⟨-, rfl⟩ := h
  refine ⟨_, by simp only [gl_fields, glCreateShader_fields, List.append_assoc]; rfl, ?_⟩
  simp [GLcall.quad]

theorem link_program_quiet {env : Env} {src : List Char} {prg : Nat} {s t : GLstate}
    (h : link_program env src prg s = .ok t) : Quiet s t := by
  unfold link_program at h
  simp only [] at h
  split_ifs at h
  simp only [Except.ok.injEq] at h
  subst h
  refine ⟨_, by simp only [glLinkProgram_fields, List.append_assoc]; rfl, ?_⟩
  simp [GLcall.quad]

theorem update_program_quiet {env : Env} {ctx ctx₁ : GLScontext} {mode : GLSmode}
    {s t : GLstate} (h : update_program env ctx mode s = .ok (ctx₁, t)) :
    Quiet s t ∧ ctx₁.display_frame_counter = ctx.display_frame_counter := by
  unfold update_program at h
  split_ifs at h with hc
  · split at h
    · exact absurd h (by simp)
    · rename_i src hsrc
      split at h
      · exact absurd h (by simp)
      · rename_i shader s₁ hcomp
        simp only [] at h
        split at h
        · exact absurd h (by simp)
        · rename_i s₂ hlink
          simp only [Except.ok.injEq, Prod.mk.injEq] at h
          obtain ⟨rfl, rfl⟩ := h
          refine ⟨?_, rfl⟩
          refine (compile_fragment_shader_quiet hcomp).trans (Quiet.trans ?_ (link_program_quiet hlink))
          refine ⟨_, by simp only [gl_fields, glCreateProgram_fields, List.append_assoc]; rfl, ?_⟩
          simp [GLcall.quad]
  · simp only [Except.ok.injEq, Prod.mk.injEq] at h
    obtain ⟨rfl, rfl⟩ := h
    exact ⟨Quiet.refl _, rfl⟩

theorem bind_views_and_uniforms_spec (ctx : GLScontext) (mode : GLSmode) (vt : Nat × Nat)
    (viewport : Viewport) (lr : Int × Int) (s : GLstate) :
    Quiet s (bind_views_and_uniforms ctx mode vt viewport lr s)
    ∧ (bind_views_and_uniforms ctx mode vt viewport lr s).texture_binding_2d 0 = at2 vt lr.1
    ∧ (bind_views_and_uniforms ctx mode vt viewport lr s).texture_binding_2d 1 = at2 vt lr.2 := by
  unfold bind_views_and_uniforms
  by_cases h1 : sets_crosstalk ctx mode <;>
  by_cases h2 : mode = GLS_MODE_EVEN_ODD_ROWS ∨ mode = GLS_MODE_EVEN_ODD_COLUMNS
      ∨ mode = GLS_MODE_CHECKERBOARD
  all_goals
    dsimp only
    first | rw [if_pos h2] | rw [if_neg h2]
    first | rw [if_pos h1] | rw [if_neg h1]
    refine ⟨⟨_, by simp only [gl_fields, glUseProgram_fields, glActiveTexture_fields,
      glBindTexture_fields, glUniform1f_fields, List.append_assoc]; rfl, ?_⟩, ?_, ?_⟩
    · simp [GLcall.quad]
    · simp
    · simp

/-! ## Lemmas on `str_replace` -/

theorem isPrefixOf_length_le : ∀ (a l : List Char), a.isPrefixOf l = true → a.length ≤ l.length
  | [], _, _ => by simp
  | _ :: _, [], h => by simp [List.isPrefixOf] at h
  | x :: a, y :: l, h => by
    simp only [List.isPrefixOf, Bool.and_eq_true] at h
    have := isPrefixOf_length_le a l h.2
    simp only [List.length_cons]
    omega

theorem strstr_fits : ∀ (hay a : List Char) (k : Nat), strstr hay a = some k →
    k + a.length ≤ hay.length
  | [], a, k, h => by
    unfold strstr at h
    split_ifs at h with ha
    simp only [Option.some.injEq] at h
    subst h; subst ha; simp
  | c :: hay, a, k, h => by
    unfold strstr at h
    split_ifs at h with hp
    · simp only [Option.some.injEq] at h
      subst h
      have := isPrefixOf_length_le a (c :: hay) hp
      simpa using this
    · cases hk : strstr hay a with
      | none => simp [hk] at h
      | some k' =>
        simp only [hk, Option.map_some', Option.some.injEq] at h
        subst h
        have := strstr_fits hay a k' hk
        simp only [List.length_cons]
        omega

theorem str_replace_loop_returns (a b : List Char) (ha : a ≠ [])
    (hab : a.length ≤ b.length) :
    ∀ (fuel : Nat) (s : List Char) (off : Nat), off ≤ s.length → s.length < fuel + off →
      ∃ r, str_replace_loop true a b fuel s off = .ok r := by
  have hpos : 0 < a.length := List.length_pos.mpr ha
  intro fuel
  induction fuel with
  | zero =>
    intro s off h₁ h₂
    omega
  | succ fuel ih =>
    intro s off h₁ h₂
    unfold str_replace_loop
    cases hk : strstr (s.drop off) a with
    | none => exact ⟨s, rfl⟩
    | some k =>
      have hfit := strstr_fits _ _ _ hk
      simp only [List.length_drop] at hfit
      dsimp only
      have hlen : ∀ n : Nat, n = a.length →
          ∃ r, str_replace_loop true a b fuel (s.take (off + k) ++ b ++ s.drop (off + k + n))
            (off + k + b.length) = .ok r := by
        intro n hn
        apply ih
        · simp only [List.length_append, List.length_take, List.length_drop]
          omega
        · simp only [List.length_append, List.length_take, List.length_drop]
          omega
      by_cases hd : (b.length : Int) - a.length ≠ 0
      · rw [if_pos hd, if_pos rfl, if_pos (by omega)]
        exact hlen _ rfl
      · rw [if_neg hd]
        exact hlen _ (by omega)

theorem str_replace_returns (s a b : List Char) (ha : a ≠ []) (hab : a.length ≤ b.length) :
    ∃ r, str_replace true s a b = .ok r :=
  str_replace_loop_returns a b ha hab _ s 0 (Nat.zero_le _) (by omega)

theorem ghostbust_val_length (ctx : GLScontext) :
    "$ghostbust".toList.length ≤ (ghostbust_val ctx).toList.length := by
  unfold ghostbust_val
  split_ifs <;> decide

theorem mode_val_length (mode : GLSmode) :
    "$mode".toList.length ≤ (mode_val mode).toList.length := by
  by_cases hlt : mode < 24
  · have : ∀ m : Fin 24, "$mode".toList.length ≤ (mode_val m.val).toList.length := by decide
    exact this ⟨mode, hlt⟩
  · have hne : ∀ k : Nat, k < 24 → mode ≠ k := fun k hk h => hlt (h ▸ hk)
    unfold mode_val
    rw [if_neg (hne 7 (by decide)), if_neg (hne 8 (by decide)), if_neg (hne 9 (by decide)),
      if_neg (hne 10 (by decide)), if_neg (hne 11 (by decide)), if_neg (hne 12 (by decide)),
      if_neg (hne 13 (by decide)), if_neg (hne 14 (by decide)), if_neg (hne 15 (by decide)),
      if_neg (hne 16 (by decide)), if_neg (hne 17 (by decide)), if_neg (hne 18 (by decide)),
      if_neg (hne 19 (by decide)), if_neg (hne 20 (by decide)), if_neg (hne 21 (by decide)),
      if_neg (hne 22 (by decide)), if_neg (hne 23 (by decide))]
    decide

theorem shader_source_returns (env : Env) (ctx : GLScontext) (mode : GLSmode)
    (h : env.heap = true) : ∃ src, shader_source env ctx mode = .ok src := by
  unfold shader_source
  rw [if_pos h, h]
  obtain ⟨r, hr⟩ := str_replace_returns env.GLS_GLSL_STR "$ghostbust".toList
    (ghostbust_val ctx).toList (by decide) (ghostbust_val_length ctx)
  rw [hr]
  exact str_replace_returns r "$mode".toList (mode_val mode).toList (by decide)
    (mode_val_length mode)

theorem update_program_returns (env : Env) (ctx : GLScontext) (mode : GLSmode) (s : GLstate)
    (h : env.works) : ∃ r, update_program env ctx mode s = .ok r := by
  obtain ⟨hheap, hcomp, hlink⟩ := h
  unfold update_program
  split_ifs
  · obtain ⟨src, hsrc⟩ := shader_source_returns env ctx mode hheap
    rw [hsrc]
    simp [compile_fragment_shader, link_program, hheap, hcomp, hlink]
  · exact ⟨_, rfl⟩

theorem glsDrawViews_returns (env : Env) (ctx : GLScontext) (mode : GLSmode) (swap_views : Bool)
    (vt : Nat × Nat) (s : GLstate) (h : env.works) :
    ∃ r, glsDrawViews env ctx mode swap_views vt s = .ok r := by
  unfold glsDrawViews
  split_ifs
  · exact ⟨_, rfl⟩
  · dsimp only
    rcases hm : create_mask_textures ctx mode (init_gl_things (backup_gl_state s)) with ⟨c, t⟩
    obtain ⟨⟨c₁, t₁⟩, hr⟩ := update_program_returns env c mode t h
    simp only [hr]
    exact ⟨_, rfl⟩

theorem issued_of_log {s t : GLstate} {l : List GLcall} (h : t.log = s.log ++ l) :
    issued s t = l := by
  simp [issued, h]

/-- What `glsDrawViews` draws when at least one texture is given: every quad has the
textures of the final indices `left` and `right` in the units 0 and 1. -/
theorem glsDrawViews_quads {env : Env} {ctx ctx' : GLScontext} {mode : GLSmode}
    {swap_views : Bool} {vt : Nat × Nat} {s s' : GLstate}
    (hvt : ¬ (at2 vt 0 = 0 ∧ at2 vt 1 = 0))
    (h : glsDrawViews env ctx mode swap_views vt s = .ok (ctx', s')) :
    (∀ q ∈ quads (issued s s'),
        q.unit0 = at2 vt (view_indices ctx mode swap_views vt s.viewport).1
        ∧ q.unit1 = at2 vt (view_indices ctx mode swap_views vt s.viewport).2)
    ∧ (mode < 24 → quads (issued s s') ≠ [])
    ∧ (mode = GLS_MODE_MONO_LEFT
        ∨ (mode = GLS_MODE_ALTERNATING ∧ ctx.display_frame_counter % 2 = 0) →
        ∃ q, quads (issued s s') = [q] ∧ q.channel = 0)
    ∧ (mode = GLS_MODE_MONO_RIGHT
        ∨ (mode = GLS_MODE_ALTERNATING ∧ ctx.display_frame_counter % 2 = 1) →
        ∃ q, quads (issued s s') = [q] ∧ q.channel = 1) := by
  unfold glsDrawViews at h
  rw [if_neg hvt] at h
  dsimp only at h
  have hmq := create_mask_textures_quiet ctx mode (init_gl_things (backup_gl_state s))
  rcases hm : create_mask_textures ctx mode (init_gl_things (backup_gl_state s)) with ⟨c, t⟩
  rw [hm] at h hmq
  dsimp only at h hmq
  cases hu : update_program env c mode t with
  | error e => rw [hu] at h; exact absurd h (by simp)
  | ok r =>
    obtain ⟨c₁, t₁⟩ := r
    rw [hu] at h
    simp only [Except.ok.injEq, Prod.mk.injEq] at h
    obtain ⟨rfl, rfl⟩ := h
    obtain ⟨huq, hcnt⟩ := update_program_quiet hu
    have hcnt' : c₁.display_frame_counter = ctx.display_frame_counter := hcnt.trans hmq.2
    obtain ⟨hbq, hb0, hb1⟩ := bind_views_and_uniforms_spec c₁ mode vt s.viewport
      (view_indices ctx mode swap_views vt s.viewport) t₁
    obtain ⟨lpre, hpre, hpreq⟩ :=
      ((((backup_gl_state_quiet s).trans (init_gl_things_quiet _)).trans hmq.1).trans huq).trans hbq
    obtain ⟨l, hl, hunits, hne, hleft, hright⟩ := render_log c₁ mode s.viewport
      (bind_views_and_uniforms c₁ mode vt s.viewport
        (view_indices ctx mode swap_views vt s.viewport) t₁)
    obtain ⟨lpost, hpost, hpostq⟩ := restore_gl_state_quiet s.viewport s.current_program
      s.active_texture (render c₁ mode s.viewport (bind_views_and_uniforms c₁ mode vt s.viewport
        (view_indices ctx mode swap_views vt s.viewport) t₁))
    have hlog : issued s (restore_gl_state s.viewport s.current_program s.active_texture
        (render c₁ mode s.viewport (bind_views_and_uniforms c₁ mode vt s.viewport
          (view_indices ctx mode swap_views vt s.viewport) t₁))) = lpre ++ l ++ lpost :=
      issued_of_log (by rw [hpost, hl, hpre]; simp only [List.append_assoc])
    have hq : quads (lpre ++ l ++ lpost) = quads l := by simp [hpreq, hpostq]
    rw [hlog, hq, ← hb0, ← hb1]
    rw [hcnt'] at hleft hright
    exact ⟨hunits, hne, hleft, hright⟩

/-! ## Lemmas on the context and on the indices of the views -/

theorem sample_env_works : sample_env.works := ⟨rfl, fun _ => rfl, fun _ => rfl⟩

theorem view_indices_of_plain_mode (ctx : GLScontext) (mode : GLSmode) (swap_views : Bool)
    (vt : Nat × Nat) (viewport : Viewport) (h7 : mode ≠ GLS_MODE_EVEN_ODD_ROWS)
    (h8 : mode ≠ GLS_MODE_EVEN_ODD_COLUMNS) (h9 : mode ≠ GLS_MODE_CHECKERBOARD) :
    view_indices ctx mode swap_views vt viewport
      = swap_views_exchange swap_views (initial_indices vt) := by
  simp [view_indices, row_parity_exchange, column_parity_exchange, h7, h8, h9]

theorem required_view_index (ctx : GLScontext) (mode : GLSmode) (swap_views : Bool)
    (vt : Nat × Nat) (viewport : Viewport) (v : GLSview)
    (hmode : mode = GLS_MODE_MONO_LEFT ∨ mode = GLS_MODE_MONO_RIGHT ∨ mode = GLS_MODE_ALTERNATING)
    (hreq : glsIsViewRequired ctx mode swap_views v = true)
    (htex : at2 vt v.index ≠ 0) :
    ((mode = GLS_MODE_MONO_LEFT
        ∨ (mode = GLS_MODE_ALTERNATING ∧ ctx.display_frame_counter % 2 = 0))
      ∧ at2 vt (view_indices ctx mode swap_views vt viewport).1 = at2 vt v.index)
    ∨ ((mode = GLS_MODE_MONO_RIGHT
        ∨ (mode = GLS_MODE_ALTERNATING ∧ ctx.display_frame_counter % 2 = 1))
      ∧ at2 vt (view_indices ctx mode swap_views vt viewport).2 = at2 vt v.index) := by
  have hplain : view_indices ctx mode swap_views vt viewport
      = swap_views_exchange swap_views (initial_indices vt) := by
    apply view_indices_of_plain_mode <;> rcases hmode with h | h | h <;> simp [h]
  rw [hplain]
  obtain ⟨a, b⟩ := vt
  have hpar := Nat.mod_two_eq_zero_or_one ctx.display_frame_counter
  rcases hmode with h | h | h <;> subst h <;> cases swap_views <;> cases v <;>
    by_cases ha : a = 0 <;> by_cases hb : b = 0 <;> rcases hpar with hp | hp <;>
    simp [glsIsViewRequired, initial_indices, swap_views_exchange, exchange, at2,
      GLSview.index, ha, hb, hp] at hreq htex ⊢

theorem exchange_exchange (lr : Int × Int) : exchange (exchange lr) = lr := rfl

/-- The final indices are the initial ones, exchanged or not. -/
theorem view_indices_cases (ctx : GLScontext) (mode : GLSmode) (swap_views : Bool)
    (vt : Nat × Nat) (viewport : Viewport) :
    view_indices ctx mode swap_views vt viewport = initial_indices vt
    ∨ view_indices ctx mode swap_views vt viewport = exchange (initial_indices vt) := by
  unfold view_indices column_parity_exchange row_parity_exchange swap_views_exchange
  by_cases hc : (mode = GLS_MODE_EVEN_ODD_COLUMNS ∨ mode = GLS_MODE_CHECKERBOARD)
      ∧ Int.tmod (ctx.viewport_screen_x + viewport.x) 2 = 1 <;>
  by_cases hr : (mode = GLS_MODE_EVEN_ODD_ROWS ∨ mode = GLS_MODE_CHECKERBOARD)
      ∧ Int.tmod (ctx.viewport_screen_y + viewport.y) 2 = 0 <;>
  cases swap_views <;> simp [hc, hr, exchange]

/-- Turning `swap_views` on exchanges the final indices. -/
theorem view_indices_swap (ctx : GLScontext) (mode : GLSmode)
    (vt : Nat × Nat) (viewport : Viewport) :
    view_indices ctx mode true vt viewport = exchange (view_indices ctx mode false vt viewport) := by
  unfold view_indices column_parity_exchange row_parity_exchange swap_views_exchange
  by_cases hc : (mode = GLS_MODE_EVEN_ODD_COLUMNS ∨ mode = GLS_MODE_CHECKERBOARD)
      ∧ Int.tmod (ctx.viewport_screen_x + viewport.x) 2 = 1 <;>
  by_cases hr : (mode = GLS_MODE_EVEN_ODD_ROWS ∨ mode = GLS_MODE_CHECKERBOARD)
      ∧ Int.tmod (ctx.viewport_screen_y + viewport.y) 2 = 0 <;>
  simp [hc, hr, exchange]

theorem bound_textures_single (ctx : GLScontext) (mode : GLSmode) (swap_views : Bool)
    (viewport : Viewport) (t : Nat) (ht : t ≠ 0) :
    bound_textures ctx mode swap_views (t, 0) viewport = (t, t)
    ∧ bound_textures ctx mode swap_views (0, t) viewport = (t, t)
    ∧ bound_textures ctx mode swap_views (t, t) viewport = (t, t) := by
  unfold bound_textures
  refine ⟨?_, ?_, ?_⟩
  · rcases view_indices_cases ctx mode swap_views (t, 0) viewport with h | h <;>
      simp [h, initial_indices, exchange, at2, ht]
  · rcases view_indices_cases ctx mode swap_views (0, t) viewport with h | h <;>
      simp [h, initial_indices, exchange, at2, ht]
  · rcases view_indices_cases ctx mode swap_views (t, t) viewport with h | h <;>
      simp [h, initial_indices, exchange, at2, ht]

theorem parity_succ_mod (c w : Nat) (hw : 0 < w) :
    ((c + 1) % 2 ^ w) % 2 = (c + 1) % 2 := by
  have : 2 ∣ 2 ^ w := dvd_pow_self 2 (by omega)
  exact Nat.mod_mod_of_dvd _ this

/-- What `glsSubmitView` does to the context. -/
theorem glsSubmitView_ctx (ctx : GLScontext) (view : GLSview) (s : GLstate) :
    (glsSubmitView ctx view s).1.have_view = set2 ctx.have_view view.index true
    ∧ (glsSubmitView ctx view s).1.view_tex
        = (if at2 ctx.view_tex view.index = 0 then set2 ctx.view_tex view.index (s.names + 1)
           else ctx.view_tex)
    ∧ (glsSubmitView ctx view s).1.display_frame_counter = ctx.display_frame_counter := by
  unfold glsSubmitView
  by_cases h1 : at2 ctx.view_tex view.index = 0
  · simp only [h1, if_true]
    split_ifs <;> simp
  · simp only [h1, if_false]
    split_ifs <;> simp

/-- A view is always required. -/
theorem some_view_required (ctx : GLScontext) (mode : GLSmode) (swap_views : Bool) :
    ∃ v, glsIsViewRequired ctx mode swap_views v = true := by
  by_cases h : glsIsViewRequired ctx mode swap_views GLS_VIEW_LEFT = true
  · exact ⟨_, h⟩
  · refine ⟨GLS_VIEW_RIGHT, ?_⟩
    unfold glsIsViewRequired at h ⊢
    cases swap_views <;> split_ifs at h ⊢ <;> simp_all

theorem glsIsViewRequired_congr {ctx ctx' : GLScontext}
    (h : ctx'.display_frame_counter = ctx.display_frame_counter) (mode : GLSmode)
    (swap_views : Bool) (v : GLSview) :
    glsIsViewRequired ctx' mode swap_views v = glsIsViewRequired ctx mode swap_views v := by
  unfold glsIsViewRequired
  rw [h]

theorem glsClear_have_view (env : Env) (ctx : GLScontext) :
    (glsClear env ctx).have_view = (false, false) := by
  unfold glsClear
  cases env.video_sync <;> simp [set2]

/-- The context after lines 78 to 109 of `display`. -/
theorem display_submit_ctx (env : Env) (mode : GLSmode) (swap_views : Bool) (wx wy : Int)
    (ctx : GLScontext) (s : GLstate) (v : GLSview) :
    at2 (display_submit env mode swap_views wx wy ctx s).1.have_view v.index
      = glsIsViewRequired (glsSetViewportScreenCoords (glsClear env ctx) wx wy)
          mode swap_views v
    ∧ (glsIsViewRequired (glsSetViewportScreenCoords (glsClear env ctx) wx wy)
          mode swap_views v = true →
        at2 (display_submit env mode swap_views wx wy ctx s).1.view_tex v.index ≠ 0) := by
  have hv : (glsSetViewportScreenCoords (glsClear env ctx) wx wy).have_view = (false, false) :=
    glsClear_have_view env ctx
  unfold display_submit
  dsimp only
  generalize glsSetViewportScreenCoords (glsClear env ctx) wx wy = c at hv ⊢
  generalize gl (GLcall.glEnable GLenum.GL_LIGHT0)
    (gl (GLcall.glEnable GLenum.GL_LIGHTING) (gl (GLcall.glEnable GLenum.GL_DEPTH_TEST) s)) = t
  by_cases hL : glsIsViewRequired c mode swap_views GLS_VIEW_LEFT = true
  · rw [if_pos hL]
    obtain ⟨h1, h2, h3⟩ := glsSubmitView_ctx c GLS_VIEW_LEFT (render_scene t)
    have hc := glsIsViewRequired_congr h3 mode swap_views GLS_VIEW_RIGHT
    rcases hs : glsSubmitView c GLS_VIEW_LEFT (render_scene t) with ⟨c₁, t₁⟩
    rw [hs] at h1 h2 h3 hc
    dsimp only at h1 h2 h3 hc ⊢
    by_cases hR : glsIsViewRequired c mode swap_views GLS_VIEW_RIGHT = true
    · rw [if_pos (hc.trans hR)]
      obtain ⟨k1, k2, -⟩ := glsSubmitView_ctx c₁ GLS_VIEW_RIGHT (render_scene t₁)
      rw [k1, k2, h1, h2, hv]
      cases v <;> simp [set2, at2, GLSview.index, hL, hR] <;> split_ifs <;> simp_all
    · rw [if_neg (by rw [hc]; exact hR)]
      rw [h1, h2, hv]
      cases v <;> simp [set2, at2, GLSview.index, hL, hR]
      split_ifs <;> simp_all
  · rw [if_neg hL]
    dsimp only
    by_cases hR : glsIsViewRequired c mode swap_views GLS_VIEW_RIGHT = true
    · rw [if_pos hR]
      obtain ⟨k1, k2, -⟩ := glsSubmitView_ctx c GLS_VIEW_RIGHT (render_scene t)
      rw [k1, k2, hv]
      cases v <;> simp [set2, at2, GLSview.index, hL, hR]
      split_ifs <;> simp_all
    · rw [if_neg hR]
      obtain ⟨v', hv'⟩ := some_view_required c mode swap_views
      cases v' <;> simp_all

/-- A texture that `glsDrawSubmittedViews` passes on is the texture of a submitted view. -/
theorem submitted_view_textures_at (ctx : GLScontext) (i : Int) (hi : i = 0 ∨ i = 1)
    (h : at2 (submitted_view_textures ctx) i ≠ 0) :
    ∃ v : GLSview, v.index = i ∧ at2 ctx.have_view v.index = true
      ∧ at2 (submitted_view_textures ctx) i = at2 ctx.view_tex v.index := by
  unfold submitted_view_textures at h ⊢
  rcases hi with rfl | rfl
  · refine ⟨GLS_VIEW_LEFT, rfl, ?_⟩
    cases h0 : at2 ctx.have_view 0 <;> cases h1 : at2 ctx.have_view 1 <;>
      simp [h0, h1, at2, set2, GLSview.index] at h ⊢
    all_goals simp [at2] at h0 h1; simp_all
  · refine ⟨GLS_VIEW_RIGHT, rfl, ?_⟩
    cases h0 : at2 ctx.have_view 0 <;> cases h1 : at2 ctx.have_view 1 <;>
      simp [h0, h1, at2, set2, GLSview.index] at h ⊢
    all_goals simp [at2] at h0 h1; simp_all

/-- The initial indices name textures that are there, when one is. -/
theorem initial_indices_nonzero (vt : Nat × Nat) (h : ¬ (at2 vt 0 = 0 ∧ at2 vt 1 = 0)) :
    ((initial_indices vt).1 = 0 ∨ (initial_indices vt).1 = 1)
    ∧ ((initial_indices vt).2 = 0 ∨ (initial_indices vt).2 = 1)
    ∧ at2 vt (initial_indices vt).1 ≠ 0 ∧ at2 vt (initial_indices vt).2 ≠ 0 := by
  obtain ⟨a, b⟩ := vt
  by_cases ha : a = 0 <;> by_cases hb : b = 0 <;>
    simp [initial_indices, at2, ha, hb] at h ⊢

theorem create_mask_textures_views (ctx : GLScontext) (mode : GLSmode) (s : GLstate) :
    (create_mask_textures ctx mode s).1.have_view = ctx.have_view
    ∧ (create_mask_textures ctx mode s).1.view_tex = ctx.view_tex := by
  unfold create_mask_textures
  by_cases h1 : mode = GLS_MODE_EVEN_ODD_ROWS ∧ ctx.even_odd_rows_mask_tex = 0 <;>
  by_cases h2 : mode = GLS_MODE_EVEN_ODD_COLUMNS ∧ ctx.even_odd_columns_mask_tex = 0 <;>
  by_cases h3 : mode = GLS_MODE_CHECKERBOARD ∧ ctx.checkerboard_mask_tex = 0 <;>
  simp [h1, h2, h3]

theorem update_program_views {env : Env} {ctx ctx₁ : GLScontext} {mode : GLSmode}
    {s t : GLstate} (h : update_program env ctx mode s = .ok (ctx₁, t)) :
    ctx₁.have_view = ctx.have_view ∧ ctx₁.view_tex = ctx.view_tex := by
  unfold update_program at h
  split_ifs at h with hc
  · split at h
    · exact absurd h (by simp)
    · split at h
      · exact absurd h (by simp)
      · simp only [] at h
        split at h
        · exact absurd h (by simp)
        · simp only [Except.ok.injEq, Prod.mk.injEq] at h
          obtain ⟨rfl, -⟩ := h
          exact ⟨rfl, rfl⟩
  · simp only [Except.ok.injEq, Prod.mk.injEq] at h
    obtain ⟨rfl, -⟩ := h
    exact ⟨rfl, rfl⟩

theorem glsDrawViews_views {env : Env} {ctx ctx' : GLScontext} {mode : GLSmode}
    {swap_views : Bool} {vt : Nat × Nat} {s s' : GLstate}
    (h : glsDrawViews env ctx mode swap_views vt s = .ok (ctx', s')) :
    ctx'.have_view = ctx.have_view ∧ ctx'.view_tex = ctx.view_tex := by
  unfold glsDrawViews at h
  split_ifs at h
  · simp only [Except.ok.injEq, Prod.mk.injEq] at h
    obtain ⟨rfl, -⟩ := h
    exact ⟨rfl, rfl⟩
  · dsimp only at h
    have hm := create_mask_textures_views ctx mode (init_gl_things (backup_gl_state s))
    rcases hc : create_mask_textures ctx mode (init_gl_things (backup_gl_state s)) with ⟨c, t⟩
    rw [hc] at h hm
    dsimp only at h hm
    cases hu : update_program env c mode t with
    | error e => rw [hu] at h; exact absurd h (by simp)
    | ok r =>
      obtain ⟨c₁, t₁⟩ := r
      rw [hu] at h
      simp only [Except.ok.injEq, Prod.mk.injEq] at h
      obtain ⟨rfl, -⟩ := h
      have := update_program_views hu
      exact ⟨this.1.trans hm.1, this.2.trans hm.2⟩

theorem manage_sync_buf_views (env : Env) (ctx : GLScontext) (n : Nat) :
    (manage_sync_buf env ctx n).have_view = ctx.have_view
    ∧ (manage_sync_buf env ctx n).view_tex = ctx.view_tex := by
  unfold manage_sync_buf
  split_ifs <;> exact ⟨rfl, rfl⟩

theorem glsDrawDLP3dReadySyncMarker_views {env : Env} {ctx ctx' : GLScontext} {mode : GLSmode}
    {s s' : GLstate} (h : glsDrawDLP3dReadySyncMarker env ctx mode s = .ok (ctx', s')) :
    ctx'.have_view = ctx.have_view ∧ ctx'.view_tex = ctx.view_tex := by
  unfold glsDrawDLP3dReadySyncMarker at h
  dsimp only at h
  have hm := manage_sync_buf_views env ctx (sync_buf_required_size env s.viewport)
  generalize manage_sync_buf env ctx (sync_buf_required_size env s.viewport) = c at h hm
  split_ifs at h with h1 h2
  · simp only [Except.ok.injEq, Prod.mk.injEq] at h
    obtain ⟨rfl, -⟩ := h
    exact ⟨rfl, rfl⟩
  · simp only [Except.ok.injEq, Prod.mk.injEq] at h
    obtain ⟨rfl, -⟩ := h
    exact ⟨rfl, rfl⟩
  · split at h
    · exact absurd h (by simp)
    · simp only [Except.ok.injEq, Prod.mk.injEq] at h
      obtain ⟨rfl, -⟩ := h
      exact hm

/-- Every call but `glsClear` and `glsSubmitView` leaves the flags `have_view` and the
textures `view_tex` as they are. -/
theorem GLSop.run_views {env : Env} {ctx ctx' : GLScontext} {s s' : GLstate} {op : GLSop}
    (h : op.run env ctx s = .ok (ctx', s')) :
    (op = .glsClear ∧ ctx'.have_view = (false, false))
    ∨ (∃ v, op = .glsSubmitView v ∧ ctx'.have_view = set2 ctx.have_view v.index true)
    ∨ ((op ≠ .glsClear ∧ ∀ v, op ≠ .glsSubmitView v) ∧ ctx'.have_view = ctx.have_view) := by
  cases op with
  | glsClear =>
    simp only [GLSop.run, Except.ok.injEq, Prod.mk.injEq] at h
    obtain ⟨rfl, -⟩ := h
    exact Or.inl ⟨rfl, glsClear_have_view env ctx⟩
  | glsSubmitView v =>
    simp only [GLSop.run, Except.ok.injEq] at h
    refine Or.inr (Or.inl ⟨v, rfl, ?_⟩)
    have := (glsSubmitView_ctx ctx v s).1
    rw [h] at this
    exact this
  | glsSetViewportScreenCoords x y =>
    simp only [GLSop.run, Except.ok.injEq, Prod.mk.injEq] at h
    obtain ⟨rfl, -⟩ := h
    exact Or.inr (Or.inr ⟨⟨by simp, by simp⟩, rfl⟩)
  | glsSetCrosstalkGhostbusting r g b gb =>
    simp only [GLSop.run, Except.ok.injEq, Prod.mk.injEq] at h
    obtain ⟨rfl, -⟩ := h
    exact Or.inr (Or.inr ⟨⟨by simp, by simp⟩, rfl⟩)
  | glsDrawSubmittedViews mode sw =>
    exact Or.inr (Or.inr ⟨⟨by simp, by simp⟩, (glsDrawViews_views h).1⟩)
  | glsDrawViews mode sw vt =>
    exact Or.inr (Or.inr ⟨⟨by simp, by simp⟩, (glsDrawViews_views h).1⟩)
  | glsDrawDLP3dReadySyncMarker mode =>
    exact Or.inr (Or.inr ⟨⟨by simp, by simp⟩, (glsDrawDLP3dReadySyncMarker_views h).1⟩)
  | application f =>
    simp only [GLSop.run, Except.ok.injEq, Prod.mk.injEq] at h
    obtain ⟨rfl, -⟩ := h
    exact Or.inr (Or.inr ⟨⟨by simp, by simp⟩, rfl⟩)

theorem at2_set2_index (hv : Bool × Bool) (v w : GLSview) (b : Bool) :
    at2 (set2 hv v.index b) w.index = if v = w then b else at2 hv w.index := by
  cases v <;> cases w <;> simp [at2, set2, GLSview.index]

theorem submitted_view_textures_index (ctx : GLScontext) (v : GLSview) :
    at2 (submitted_view_textures ctx) v.index
      = if at2 ctx.have_view v.index = true then at2 ctx.view_tex v.index else 0 := by
  unfold submitted_view_textures
  cases v <;> cases h0 : at2 ctx.have_view 0 <;> cases h1 : at2 ctx.have_view 1 <;>
    simp [at2, set2, GLSview.index] at h0 h1 ⊢ <;> simp [h0, h1]

theorem run_ops_have_view (v : GLSview) : ∀ (ops : List (Env × GLSop)) (ctx ctx' : GLScontext)
    (s s' : GLstate), run_ops ctx s ops = .ok (ctx', s') →
    at2 ctx'.have_view v.index = submitted_since_clear v (at2 ctx.have_view v.index) ops
  | [], ctx, ctx', s, s', h => by
    simp only [run_ops, Except.ok.injEq, Prod.mk.injEq] at h
    obtain ⟨rfl, -⟩ := h
    rfl
  | (env, op) :: rest, ctx, ctx', s, s', h => by
    unfold run_ops at h
    cases hr : op.run env ctx s with
    | error e => rw [hr] at h; exact absurd h (by simp)
    | ok r =>
      obtain ⟨c, t⟩ := r
      rw [hr] at h
      dsimp only at h
      have ih := run_ops_have_view v rest c ctx' t s' h
      rw [ih]
      rcases GLSop.run_views hr with ⟨rfl, hc⟩ | ⟨w, rfl, hc⟩ | ⟨⟨hn1, hn2⟩, hc⟩
      · rw [hc]
        cases v <;> simp [submitted_since_clear, at2, GLSview.index]
      · rw [hc, at2_set2_index]
        simp [submitted_since_clear]
      · rw [hc]
        cases op <;> simp_all [submitted_since_clear]

/-! ## The claims -/

/-- Claim C1.  In the mode `GLS_MODE_ALTERNATING`, for every frame counter and every
swap flag, `glsIsViewRequired` is true for exactly one of the two views: without swap
the left view is required iff the counter is even, with swap the right view is required
iff the counter is even. -/
theorem glsIsViewRequired_alternating (ctx : GLScontext) (swap_views : Bool) :
    (glsIsViewRequired ctx GLS_MODE_ALTERNATING swap_views GLS_VIEW_LEFT
        = !glsIsViewRequired ctx GLS_MODE_ALTERNATING swap_views GLS_VIEW_RIGHT)
    ∧ (glsIsViewRequired ctx GLS_MODE_ALTERNATING false GLS_VIEW_LEFT = true
        ↔ ctx.display_frame_counter % 2 = 0)
    ∧ (glsIsViewRequired ctx GLS_MODE_ALTERNATING true GLS_VIEW_RIGHT = true
        ↔ ctx.display_frame_counter % 2 = 0) := by
  rcases Nat.mod_two_eq_zero_or_one ctx.display_frame_counter with h | h <;>
    cases swap_views <;> simp [glsIsViewRequired, h]

/-- Claim C2.  Without a hardware frame counter, `glsClear` advances
`display_frame_counter` by one modulo `2 ^ w`, `w > 0` being the width of the counter,
and for every view, swap flag and context the answer of `glsIsViewRequired` in the mode
`GLS_MODE_ALTERNATING` after the call is the opposite of the answer before it, also when
the counter wraps around. -/
theorem glsClear_alternates_view (env : Env) (ctx : GLScontext) (swap_views : Bool) (view : GLSview)
    (hsync : env.video_sync = none) (hbits : 0 < env.counter_bits) :
    (glsClear env ctx).display_frame_counter
        = (ctx.display_frame_counter + 1) % 2 ^ env.counter_bits
    ∧ glsIsViewRequired (glsClear env ctx) GLS_MODE_ALTERNATING swap_views view
        = !glsIsViewRequired ctx GLS_MODE_ALTERNATING swap_views view := by
  have hc : (glsClear env ctx).display_frame_counter
      = (ctx.display_frame_counter + 1) % 2 ^ env.counter_bits := by
    simp [glsClear, hsync]
  refine ⟨hc, ?_⟩
  have hp := parity_succ_mod ctx.display_frame_counter env.counter_bits hbits
  unfold glsIsViewRequired
  rw [hc, hp]
  rcases Nat.mod_two_eq_zero_or_one ctx.display_frame_counter with h | h <;>
    cases swap_views <;> cases view <;> simp [h, Nat.succ_mod_two_eq_zero_iff, Nat.succ_mod_two_eq_one_iff]

/-- The frame counter `2 ^ 64 - 1` wraps around to 0 and the required view changes. -/
theorem glsClear_alternates_view_witness :
    sample_env.video_sync = none ∧ 0 < sample_env.counter_bits
    ∧ (glsClear sample_env { sample_ctx with display_frame_counter := 2 ^ 64 - 1 }).display_frame_counter = 0
    ∧ glsIsViewRequired (glsClear sample_env { sample_ctx with display_frame_counter := 2 ^ 64 - 1 })
        GLS_MODE_ALTERNATING false GLS_VIEW_LEFT = true
    ∧ glsIsViewRequired { sample_ctx with display_frame_counter := 2 ^ 64 - 1 }
        GLS_MODE_ALTERNATING false GLS_VIEW_LEFT = false := by
  have h := glsClear_alternates_view sample_env { sample_ctx with display_frame_counter := 2 ^ 64 - 1 } false GLS_VIEW_LEFT rfl (by decide)
  refine ⟨rfl, by decide, ?_, ?_, ?_⟩
  · rw [h.1]; decide
  · rw [h.2]; decide
  · decide

/-- Claim C3.  For a mode other than `GLS_MODE_ALTERNATING` the answer of
`glsIsViewRequired` does not depend on the frame counter.  `GLS_MODE_MONO_LEFT` requires
only the left view without swap and only the right view with swap, `GLS_MODE_MONO_RIGHT`
only the right view without swap and only the left view with swap, and every other mode,
of which 21 are valid, requires both views whatever the swap flag. -/
theorem glsIsViewRequired_other_modes (ctx : GLScontext) (mode : GLSmode) (swap_views : Bool) (view : GLSview) :
    (mode ≠ GLS_MODE_ALTERNATING → ∀ c : Nat,
        glsIsViewRequired { ctx with display_frame_counter := c } mode swap_views view
          = glsIsViewRequired ctx mode swap_views view)
    ∧ (glsIsViewRequired ctx GLS_MODE_MONO_LEFT swap_views view = true
        ↔ view = (if swap_views then GLS_VIEW_RIGHT else GLS_VIEW_LEFT))
    ∧ (glsIsViewRequired ctx GLS_MODE_MONO_RIGHT swap_views view = true
        ↔ view = (if swap_views then GLS_VIEW_LEFT else GLS_VIEW_RIGHT))
    ∧ (mode ≠ GLS_MODE_ALTERNATING → mode ≠ GLS_MODE_MONO_LEFT → mode ≠ GLS_MODE_MONO_RIGHT →
        glsIsViewRequired ctx mode swap_views view = true)
    ∧ ((List.range 24).filter fun m => m ≠ GLS_MODE_ALTERNATING ∧ m ≠ GLS_MODE_MONO_LEFT
        ∧ m ≠ GLS_MODE_MONO_RIGHT).length = 21 := by
  refine ⟨?_, ?_, ?_, ?_, by decide⟩
  · intro h c
    simp [glsIsViewRequired, h]
  · cases swap_views <;> cases view <;> simp [glsIsViewRequired]
  · cases swap_views <;> cases view <;> simp [glsIsViewRequired]
  · intro h1 h2 h3
    simp [glsIsViewRequired, h1, h2, h3]

/-- The mode `GLS_MODE_CHECKERBOARD` requires the left view at every frame counter. -/
theorem glsIsViewRequired_other_modes_witness :
    (∀ c : Nat, glsIsViewRequired { sample_ctx with display_frame_counter := c }
        GLS_MODE_CHECKERBOARD true GLS_VIEW_LEFT
      = glsIsViewRequired sample_ctx GLS_MODE_CHECKERBOARD true GLS_VIEW_LEFT)
    ∧ glsIsViewRequired sample_ctx GLS_MODE_CHECKERBOARD true GLS_VIEW_LEFT = true :=
  ⟨(glsIsViewRequired_other_modes sample_ctx GLS_MODE_CHECKERBOARD true GLS_VIEW_LEFT).1 (by decide),
   (glsIsViewRequired_other_modes sample_ctx GLS_MODE_CHECKERBOARD true GLS_VIEW_LEFT).2.2.2.1 (by decide) (by decide) (by decide)⟩

/-- Claim C4.  In the modes `GLS_MODE_MONO_LEFT`, `GLS_MODE_MONO_RIGHT` and
`GLS_MODE_ALTERNATING`, when `v` is the view that `glsIsViewRequired` asks for and its
texture is not zero, a call of `glsDrawViews` that returns has drawn exactly one quad,
either with `channel = 0` and the texture of `v` in unit 0, or with `channel = 1` and the
texture of `v` in unit 1; and the call returns when memory is there and the shader
compiles and links. -/
theorem glsIsViewRequired_consistent_with_glsDrawViews (env : Env) (ctx : GLScontext)
    (mode : GLSmode) (swap_views : Bool) (view_textures : Nat × Nat) (s : GLstate) (v : GLSview)
    (hmode : mode = GLS_MODE_MONO_LEFT ∨ mode = GLS_MODE_MONO_RIGHT ∨ mode = GLS_MODE_ALTERNATING)
    (hreq : glsIsViewRequired ctx mode swap_views v = true)
    (htex : at2 view_textures v.index ≠ 0) :
    (∀ ctx' s', glsDrawViews env ctx mode swap_views view_textures s = .ok (ctx', s') →
      ∃ q, quads (issued s s') = [q]
        ∧ ((q.channel = 0 ∧ q.unit0 = at2 view_textures v.index)
          ∨ (q.channel = 1 ∧ q.unit1 = at2 view_textures v.index)))
    ∧ (env.works → ∃ r, glsDrawViews env ctx mode swap_views view_textures s = .ok r) := by
  refine ⟨?_, glsDrawViews_returns env ctx mode swap_views view_textures s⟩
  intro ctx' s' h
  have hvt : ¬ (at2 view_textures 0 = 0 ∧ at2 view_textures 1 = 0) := by
    intro hz
    cases v
    · exact htex hz.1
    · exact htex (by simpa [GLSview.index, at2] using hz.2)
  obtain ⟨hunits, -, hleft, hright⟩ := glsDrawViews_quads hvt h
  rcases required_view_index ctx mode swap_views view_textures s.viewport v hmode hreq htex
    with ⟨hm, hi⟩ | ⟨hm, hi⟩
  · obtain ⟨q, hq, hc⟩ := hleft hm
    refine ⟨q, hq, Or.inl ⟨hc, ?_⟩⟩
    rw [← hi]
    exact (hunits q (by simp [hq])).1
  · obtain ⟨q, hq, hc⟩ := hright hm
    refine ⟨q, hq, Or.inr ⟨hc, ?_⟩⟩
    rw [← hi]
    exact (hunits q (by simp [hq])).2

/-- The mode `GLS_MODE_ALTERNATING` with swap, an even frame counter and only the right
texture given. -/
theorem glsIsViewRequired_consistent_with_glsDrawViews_witness :
    (GLS_MODE_ALTERNATING = GLS_MODE_MONO_LEFT ∨ GLS_MODE_ALTERNATING = GLS_MODE_MONO_RIGHT
      ∨ GLS_MODE_ALTERNATING = GLS_MODE_ALTERNATING)
    ∧ glsIsViewRequired sample_ctx GLS_MODE_ALTERNATING true GLS_VIEW_RIGHT = true
    ∧ at2 ((0, 6) : Nat × Nat) GLS_VIEW_RIGHT.index ≠ 0
    ∧ (∀ ctx' s', glsDrawViews sample_env sample_ctx GLS_MODE_ALTERNATING true (0, 6) sample_gl
          = .ok (ctx', s') →
        ∃ q, quads (issued sample_gl s') = [q]
          ∧ ((q.channel = 0 ∧ q.unit0 = at2 ((0, 6) : Nat × Nat) GLS_VIEW_RIGHT.index)
            ∨ (q.channel = 1 ∧ q.unit1 = at2 ((0, 6) : Nat × Nat) GLS_VIEW_RIGHT.index)))
    ∧ (∃ r, glsDrawViews sample_env sample_ctx GLS_MODE_ALTERNATING true (0, 6) sample_gl = .ok r) :=
  ⟨by decide, by decide, by decide,
    (glsIsViewRequired_consistent_with_glsDrawViews sample_env sample_ctx GLS_MODE_ALTERNATING
      true (0, 6) sample_gl GLS_VIEW_RIGHT (by decide) (by decide) (by decide)).1,
    (glsIsViewRequired_consistent_with_glsDrawViews sample_env sample_ctx GLS_MODE_ALTERNATING
      true (0, 6) sample_gl GLS_VIEW_RIGHT (by decide) (by decide) (by decide)).2 sample_env_works⟩

/-- Claim C5.  In a frame of `display`, for every mode, swap flag and context: a view is
required; after the submissions the flag `have_view` of a view says whether the view was
required; the textures that `glsDrawSubmittedViews` passes on are not both zero, so the
path that only clears is not taken; every quad that is drawn has in the units 0 and 1
non-zero textures of views submitted in this frame, and a valid mode draws a quad; and
`glsDrawSubmittedViews` returns when memory is there and the shader compiles and links. -/
theorem display_submits_a_view (env : Env) (mode : GLSmode) (swap_views : Bool)
    (window_x window_y : Int) (ctx : GLScontext) (s : GLstate) :
    (∃ v, glsIsViewRequired (glsSetViewportScreenCoords (glsClear env ctx) window_x window_y)
        mode swap_views v = true)
    ∧ (∀ v, at2 (display_submit env mode swap_views window_x window_y ctx s).1.have_view v.index
        = glsIsViewRequired (glsSetViewportScreenCoords (glsClear env ctx) window_x window_y)
            mode swap_views v)
    ∧ ¬ (at2 (submitted_view_textures
            (display_submit env mode swap_views window_x window_y ctx s).1) 0 = 0
        ∧ at2 (submitted_view_textures
            (display_submit env mode swap_views window_x window_y ctx s).1) 1 = 0)
    ∧ (∀ ctx' s',
        glsDrawSubmittedViews env (display_submit env mode swap_views window_x window_y ctx s).1
          mode swap_views (display_submit env mode swap_views window_x window_y ctx s).2
          = .ok (ctx', s') →
        (∀ q ∈ quads (issued (display_submit env mode swap_views window_x window_y ctx s).2 s'),
          (q.unit0 ≠ 0 ∧ ∃ v : GLSview,
            at2 (display_submit env mode swap_views window_x window_y ctx s).1.have_view v.index
              = true
            ∧ q.unit0
              = at2 (display_submit env mode swap_views window_x window_y ctx s).1.view_tex v.index)
          ∧ (q.unit1 ≠ 0 ∧ ∃ v : GLSview,
            at2 (display_submit env mode swap_views window_x window_y ctx s).1.have_view v.index
              = true
            ∧ q.unit1
              = at2 (display_submit env mode swap_views window_x window_y ctx s).1.view_tex v.index))
        ∧ (mode < 24 →
          quads (issued (display_submit env mode swap_views window_x window_y ctx s).2 s') ≠ []))
    ∧ (env.works → ∃ r,
        glsDrawSubmittedViews env (display_submit env mode swap_views window_x window_y ctx s).1
          mode swap_views (display_submit env mode swap_views window_x window_y ctx s).2
          = .ok r) := by
  have hreq := some_view_required
    (glsSetViewportScreenCoords (glsClear env ctx) window_x window_y) mode swap_views
  have hctx := display_submit_ctx env mode swap_views window_x window_y ctx s
  generalize display_submit env mode swap_views window_x window_y ctx s = r at hctx ⊢
  obtain ⟨c, t⟩ := r
  dsimp only at hctx ⊢
  have hnz : ¬ (at2 (submitted_view_textures c) 0 = 0 ∧ at2 (submitted_view_textures c) 1 = 0) := by
    obtain ⟨v, hv⟩ := hreq
    have h1 := (hctx v).1
    have h2 := (hctx v).2 hv
    rw [hv] at h1
    intro hz
    cases v
    · simp [submitted_view_textures, at2, set2, GLSview.index] at h1 h2 hz
      simp [h1] at hz
      split_ifs at hz <;> simp_all
    · simp [submitted_view_textures, at2, set2, GLSview.index] at h1 h2 hz
      simp [h1] at hz
      split_ifs at hz <;> simp_all
  refine ⟨hreq, fun v => (hctx v).1, hnz, ?_, fun hw => glsDrawViews_returns env c mode swap_views _ t hw⟩
  intro ctx' s' h
  obtain ⟨hunits, hne, -, -⟩ := glsDrawViews_quads hnz h
  refine ⟨fun q hq => ?_, hne⟩
  obtain ⟨u0, u1⟩ := hunits q hq
  obtain ⟨i1, i2, n1, n2⟩ := initial_indices_nonzero (submitted_view_textures c) hnz
  rcases view_indices_cases c mode swap_views (submitted_view_textures c) t.viewport with e | e
  · rw [e] at u0 u1
    obtain ⟨v0, -, a0, b0⟩ := submitted_view_textures_at c _ i1 n1
    obtain ⟨v1, -, a1, b1⟩ := submitted_view_textures_at c _ i2 n2
    exact ⟨⟨u0 ▸ n1, v0, a0, u0.trans b0⟩, ⟨u1 ▸ n2, v1, a1, u1.trans b1⟩⟩
  · rw [e] at u0 u1
    simp only [exchange] at u0 u1
    obtain ⟨v0, -, a0, b0⟩ := submitted_view_textures_at c _ i1 n1
    obtain ⟨v1, -, a1, b1⟩ := submitted_view_textures_at c _ i2 n2
    exact ⟨⟨u0 ▸ n2, v1, a1, u0.trans b1⟩, ⟨u1 ▸ n1, v0, a0, u1.trans b0⟩⟩

/-- A frame of the demo in the mode `GLS_MODE_ALTERNATING` with swap. -/
theorem display_submits_a_view_witness :
    sample_env.works
    ∧ ∃ r, glsDrawSubmittedViews sample_env
        (display_submit sample_env GLS_MODE_ALTERNATING true 300 200 sample_ctx sample_gl).1
        GLS_MODE_ALTERNATING true
        (display_submit sample_env GLS_MODE_ALTERNATING true 300 200 sample_ctx sample_gl).2
        = .ok r :=
  ⟨sample_env_works,
    (display_submits_a_view sample_env GLS_MODE_ALTERNATING true 300 200 sample_ctx
      sample_gl).2.2.2.2 sample_env_works⟩

/-- Claim C6.  Given the textures `(t, 0)` or `(0, t)` with `t` not zero, `glsDrawViews`
binds `t` to both texture units, as it does for `(t, t)`, in every mode, with every swap
flag and at every screen and viewport origin: every quad it draws has `t` in the units 0
and 1, and the whole call is the same as the call with `(t, t)`. -/
theorem glsDrawViews_single_texture (env : Env) (ctx : GLScontext) (mode : GLSmode)
    (swap_views : Bool) (s : GLstate) (t : Nat) (view_textures : Nat × Nat) (ht : t ≠ 0)
    (hvt : view_textures = (t, 0) ∨ view_textures = (0, t)) :
    bound_textures ctx mode swap_views view_textures s.viewport = (t, t)
    ∧ bound_textures ctx mode swap_views view_textures s.viewport
        = bound_textures ctx mode swap_views (t, t) s.viewport
    ∧ (∀ ctx' s', glsDrawViews env ctx mode swap_views view_textures s = .ok (ctx', s') →
        (∀ q ∈ quads (issued s s'), q.unit0 = t ∧ q.unit1 = t)
        ∧ (mode < 24 → quads (issued s s') ≠ []))
    ∧ glsDrawViews env ctx mode swap_views view_textures s
        = glsDrawViews env ctx mode swap_views (t, t) s
    ∧ (env.works → ∃ r, glsDrawViews env ctx mode swap_views view_textures s = .ok r) := by
  obtain ⟨h1, h2, h3⟩ := bound_textures_single ctx mode swap_views s.viewport t ht
  have hb : bound_textures ctx mode swap_views view_textures s.viewport = (t, t) := by
    rcases hvt with rfl | rfl <;> assumption
  have hnz : ¬ (at2 view_textures 0 = 0 ∧ at2 view_textures 1 = 0) := by
    rcases hvt with rfl | rfl <;> simp [at2, ht]
  refine ⟨hb, hb.trans h3.symm, ?_, ?_, glsDrawViews_returns env ctx mode swap_views _ s⟩
  · intro ctx' s' h
    obtain ⟨hunits, hne, -, -⟩ := glsDrawViews_quads hnz h
    refine ⟨fun q hq => ?_, hne⟩
    have := hunits q hq
    unfold bound_textures at hb
    simp only [Prod.mk.injEq] at hb
    exact ⟨this.1.trans hb.1, this.2.trans hb.2⟩
  · have hnz' : ¬ (at2 ((t, t) : Nat × Nat) 0 = 0 ∧ at2 ((t, t) : Nat × Nat) 1 = 0) := by
      simp [at2, ht]
    unfold bound_textures at hb h3
    simp only [Prod.mk.injEq] at hb h3
    unfold glsDrawViews
    rw [if_neg hnz, if_neg hnz']
    simp only [bind_views_and_uniforms, hb.1, hb.2, h3.1, h3.2]

/-- The mode `GLS_MODE_CHECKERBOARD` with swap and only the right texture given. -/
theorem glsDrawViews_single_texture_witness :
    (5 : Nat) ≠ 0 ∧ (((0, 5) : Nat × Nat) = (5, 0) ∨ ((0, 5) : Nat × Nat) = (0, 5))
    ∧ bound_textures sample_ctx GLS_MODE_CHECKERBOARD true (0, 5) sample_gl.viewport = (5, 5)
    ∧ glsDrawViews sample_env sample_ctx GLS_MODE_CHECKERBOARD true (0, 5) sample_gl
        = glsDrawViews sample_env sample_ctx GLS_MODE_CHECKERBOARD true (5, 5) sample_gl
    ∧ (∃ r, glsDrawViews sample_env sample_ctx GLS_MODE_CHECKERBOARD true (0, 5) sample_gl = .ok r) :=
  ⟨by decide, by decide,
    (glsDrawViews_single_texture sample_env sample_ctx GLS_MODE_CHECKERBOARD true sample_gl 5
      (0, 5) (by decide) (by decide)).1,
    (glsDrawViews_single_texture sample_env sample_ctx GLS_MODE_CHECKERBOARD true sample_gl 5
      (0, 5) (by decide) (by decide)).2.2.2.1,
    (glsDrawViews_single_texture sample_env sample_ctx GLS_MODE_CHECKERBOARD true sample_gl 5
      (0, 5) (by decide) (by decide)).2.2.2.2 sample_env_works⟩

/-- Claim C7.  With both textures zero `glsDrawViews` returns, in every mode and with
every swap flag, with the context unchanged and a GL state that differs only by the one
command `glClear(GL_COLOR_BUFFER_BIT)` in the log: no quad, no shader, no program, no mask
texture, and the viewport, the program in use and the active texture unit as before. -/
theorem glsDrawViews_without_textures (env : Env) (ctx : GLScontext) (mode : GLSmode)
    (swap_views : Bool) (s : GLstate) :
    glsDrawViews env ctx mode swap_views (0, 0) s
      = .ok (ctx, { s with log := s.log ++ [GLcall.glClear true false] })
    ∧ issued s { s with log := s.log ++ [GLcall.glClear true false] } = [GLcall.glClear true false]
    ∧ quads [GLcall.glClear true false] = [] := by
  refine ⟨?_, ?_, rfl⟩
  · simp [glsDrawViews, at2, gl, GLstate.emit]
  · simp [issued]

/-- Claim C8.  After any sequence of calls that returns, the flag `have_view` of a view
is true exactly when `glsSubmitView` was called for the view after the last `glsClear`:
`glsClear` sets both flags to false, `glsSubmitView` sets the flag of its view, no other
call changes a flag.  So `glsDrawSubmittedViews` passes to `glsDrawViews` the texture of
a view submitted since the last `glsClear`, and 0 for a view that was not. -/
theorem have_view_tracks_submissions (ops : List (Env × GLSop)) (ctx ctx' : GLScontext)
    (s s' : GLstate) (v : GLSview) (h : run_ops ctx s ops = .ok (ctx', s')) :
    at2 ctx'.have_view v.index = submitted_since_clear v (at2 ctx.have_view v.index) ops
    ∧ (∀ (env : Env) (op : GLSop) (c c' : GLScontext) (t t' : GLstate),
        op.run env c t = .ok (c', t') →
          (op = .glsClear ∧ c'.have_view = (false, false))
          ∨ (∃ w, op = .glsSubmitView w ∧ c'.have_view = set2 c.have_view w.index true)
          ∨ ((op ≠ .glsClear ∧ ∀ w, op ≠ .glsSubmitView w) ∧ c'.have_view = c.have_view))
    ∧ (∀ (env : Env) (mode : GLSmode) (swap_views : Bool),
        glsDrawSubmittedViews env ctx' mode swap_views s'
          = glsDrawViews env ctx' mode swap_views (submitted_view_textures ctx') s')
    ∧ at2 (submitted_view_textures ctx') v.index
        = (if submitted_since_clear v (at2 ctx.have_view v.index) ops = true
           then at2 ctx'.view_tex v.index else 0) := by
  have h1 := run_ops_have_view v ops ctx ctx' s s' h
  refine ⟨h1, fun env op c c' t t' hr => GLSop.run_views hr, fun _ _ _ => rfl, ?_⟩
  rw [submitted_view_textures_index, h1]

/-- After a second frame in which only the right view is submitted, the left flag is
false and 0 is passed for the left view, although the left texture of the first frame is
still there. -/
theorem have_view_tracks_submissions_witness :
    ∃ c t, run_ops sample_ctx sample_gl sample_ops = .ok (c, t)
      ∧ at2 c.have_view GLS_VIEW_LEFT.index = false
      ∧ at2 c.have_view GLS_VIEW_RIGHT.index = true
      ∧ at2 (submitted_view_textures c) GLS_VIEW_LEFT.index = 0
      ∧ at2 c.view_tex GLS_VIEW_LEFT.index = 1 :=
  ⟨_, _, rfl,
    (have_view_tracks_submissions sample_ops sample_ctx _ sample_gl _ GLS_VIEW_LEFT rfl).1.trans
      (by decide),
    (have_view_tracks_submissions sample_ops sample_ctx _ sample_gl _ GLS_VIEW_RIGHT rfl).1.trans
      (by decide),
    (have_view_tracks_submissions sample_ops sample_ctx _ sample_gl _ GLS_VIEW_LEFT
      rfl).2.2.2.trans (by decide),
    by decide⟩

set_option maxRecDepth 100000

theorem Issues.of_log {names : List String} {s t : GLstate} {l : List GLcall}
    (h : t.log = s.log ++ l) (ho : Only names l) : Issues names s t := by
  have : issued s t = l := issued_of_log h
  exact ⟨by rw [this]; exact h, by rw [this]; exact ho⟩

theorem Only.append {names : List String} {l₁ l₂ : List GLcall} (h₁ : Only names l₁)
    (h₂ : Only names l₂) : Only names (l₁ ++ l₂) := by
  intro c hc
  rcases List.mem_append.mp hc with h | h
  · exact h₁ c h
  · exact h₂ c h

theorem Only.mono {n₁ n₂ : List String} {l : List GLcall} (h : Only n₁ l)
    (hs : ∀ n ∈ n₁, n ∈ n₂) : Only n₂ l :=
  fun c hc => hs _ (h c hc)

theorem Only.nil (names : List String) : Only names [] := by
  intro c hc
  simp at hc

theorem issued_self (s : GLstate) : issued s s = [] := by
  simp [issued]

theorem issued_trans {s t u : GLstate} (h₁ : t.log = s.log ++ issued s t)
    (h₂ : u.log = t.log ++ issued t u) : issued s u = issued s t ++ issued t u :=
  issued_of_log (by rw [h₂, h₁, List.append_assoc])

theorem Issues.same (names : List String) (s : GLstate) : Issues names s s := by
  refine ⟨by simp [issued_self], ?_⟩
  rw [issued_self]
  exact Only.nil names

theorem Issues.chain {names : List String} {s t u : GLstate} (h₁ : Issues names s t)
    (h₂ : Issues names t u) : Issues names s u := by
  have := issued_trans h₁.1 h₂.1
  refine ⟨by rw [this, h₂.1, h₁.1, List.append_assoc], ?_⟩
  rw [this]
  exact h₁.2.append h₂.2

theorem backup_gl_state_issues (s : GLstate) : Issues setup_names s (backup_gl_state s) := by
  refine Issues.of_log
    (by simp only [backup_gl_state, gl_fields, glPushAttrib_fields, List.append_assoc]; rfl) ?_
  simp [Only, GLcall.name, setup_names]

theorem init_gl_things_issues (s : GLstate) : Issues setup_names s (init_gl_things s) := by
  refine Issues.of_log
    (by simp only [init_gl_things, gl_fields, List.append_assoc]; rfl) ?_
  simp [Only, GLcall.name, setup_names]

theorem create_mask_tex_issues (mask : List Nat) (s : GLstate) :
    Issues setup_names s (create_mask_tex mask s).2 := by
  refine Issues.of_log
    (by simp only [create_mask_tex, gl_fields, glGenTextures_fields, glBindTexture_fields,
      List.append_assoc]; rfl) ?_
  simp [Only, GLcall.name, setup_names]

theorem create_mask_textures_issues (ctx : GLScontext) (mode : GLSmode) (s : GLstate) :
    Issues setup_names s (create_mask_textures ctx mode s).2 := by
  unfold create_mask_textures
  by_cases h1 : mode = GLS_MODE_EVEN_ODD_ROWS ∧ ctx.even_odd_rows_mask_tex = 0 <;>
  by_cases h2 : mode = GLS_MODE_EVEN_ODD_COLUMNS ∧ ctx.even_odd_columns_mask_tex = 0 <;>
  by_cases h3 : mode = GLS_MODE_CHECKERBOARD ∧ ctx.checkerboard_mask_tex = 0 <;>
  simp [h1, h2, h3, Issues.same, create_mask_tex_issues]

theorem restore_gl_state_issues (viewport : Viewport) (p a : Nat) (s : GLstate) :
    Issues restore_names s (restore_gl_state viewport p a s) := by
  refine Issues.of_log
    (by simp only [restore_gl_state, gl_fields, glPopAttrib_fields, glActiveTexture_fields,
      glUseProgram_fields, glViewport_fields, List.append_assoc]; rfl) ?_
  simp [Only, GLcall.name, restore_names]

theorem compile_fragment_shader_issues {env : Env} {src : List Char} {s t : GLstate}
    {shader : Nat} (h : compile_fragment_shader env src s = .ok (shader, t)) :
    Issues build_names s t ∧ shader = s.names + 1 ∧ t.names = s.names + 1
    ∧ created_programs (issued s t) = [] := by
  unfold compile_fragment_shader at h
  simp only [] at h
  split_ifs at h
  simp only [Except.ok.injEq, Prod.mk.injEq] at h
  obtain ⟨rfl, rfl⟩ := h
  have hl : (gl (GLcall.glCompileShader (glCreateShader s).1)
      (gl (GLcall.glShaderSource (glCreateShader s).1 src) (glCreateShader s).2)).log
      = s.log ++ [GLcall.glCreateShader (s.names + 1), GLcall.glShaderSource (s.names + 1) src,
          GLcall.glCompileShader (s.names + 1)] := by
    simp only [gl_fields, glCreateShader_fields, List.append_assoc]; rfl
  refine ⟨Issues.of_log hl ?_, by simp, by simp, ?_⟩
  · simp [Only, GLcall.name, build_names]
  · rw [issued_of_log hl]
    simp [created_programs]

theorem link_program_issues {env : Env} {src : List Char} {prg : Nat} {s t : GLstate}
    (h : link_program env src prg s = .ok t) :
    Issues build_names s t ∧ t.names = s.names ∧ created_programs (issued s t) = [] := by
  unfold link_program at h
  simp only [] at h
  split_ifs at h
  simp only [Except.ok.injEq] at h
  subst h
  have hl : (glLinkProgram prg s).log = s.log ++ [GLcall.glLinkProgram prg] := by simp
  refine ⟨Issues.of_log hl ?_, by simp, ?_⟩
  · simp [Only, GLcall.name, build_names]
  · rw [issued_of_log hl]
    simp [created_programs]

theorem created_programs_append (l₁ l₂ : List GLcall) :
    created_programs (l₁ ++ l₂) = created_programs l₁ ++ created_programs l₂ := by
  simp [created_programs, List.filterMap_append]

/-- What `update_program` does: nothing when the program is cached, and otherwise one new
shader and one new program, none deleted. -/
theorem update_program_spec {env : Env} {ctx ctx₁ : GLScontext} {mode : GLSmode}
    {s t : GLstate} (h : update_program env ctx mode s = .ok (ctx₁, t)) :
    Issues build_names s t
    ∧ program_cached ctx₁ mode
    ∧ (program_cached ctx mode → ctx₁ = ctx ∧ t = s)
    ∧ (¬ program_cached ctx mode →
        ctx₁ = { ctx with prg := s.names + 2, prg_mode := mode,
                          prg_ghostbust := ghostbust_enabled ctx }
        ∧ created_programs (issued s t) = [s.names + 2]) := by
  unfold update_program at h
  by_cases hc : ctx.prg = 0 ∨ ctx.prg_mode ≠ mode ∨ ctx.prg_ghostbust ≠ ghostbust_enabled ctx
  · rw [if_pos hc] at h
    split at h
    · exact absurd h (by simp)
    · rename_i src hsrc
      split at h
      · exact absurd h (by simp)
      · rename_i shader s₁ hcomp
        simp only [] at h
        split at h
        · exact absurd h (by simp)
        · rename_i s₂ hlink
          simp only [Except.ok.injEq, Prod.mk.injEq] at h
          obtain ⟨rfl, rfl⟩ := h
          obtain ⟨hi₁, hsh, hn₁, hp₁⟩ := compile_fragment_shader_issues hcomp
          obtain ⟨hi₃, hn₃, hp₃⟩ := link_program_issues hlink
          have hl₂ : (gl (GLcall.glAttachShader (glCreateProgram s₁).1 shader)
              (glCreateProgram s₁).2).log
              = s₁.log ++ [GLcall.glCreateProgram (s₁.names + 1),
                  GLcall.glAttachShader (s₁.names + 1) shader] := by
            simp only [gl_fields, glCreateProgram_fields, List.append_assoc]; rfl
          have hi₂ : Issues build_names s₁ (gl (GLcall.glAttachShader (glCreateProgram s₁).1 shader)
              (glCreateProgram s₁).2) :=
            Issues.of_log hl₂ (by simp [Only, GLcall.name, build_names])
          have hi := (hi₁.chain hi₂).chain hi₃
          refine ⟨hi, ?_, fun hk => absurd hc hk, fun _ => ⟨?_, ?_⟩⟩
          · simp [program_cached, ghostbust_enabled]
          · simp [hn₁, ghostbust_enabled]
          · rw [issued_trans (hi₁.chain hi₂).1 hi₃.1, issued_trans hi₁.1 hi₂.1,
              issued_of_log hl₂]
            simp only [created_programs_append, hp₁, hp₃]
            simp [created_programs, hn₁]
  · rw [if_neg hc] at h
    simp only [Except.ok.injEq, Prod.mk.injEq] at h
    obtain ⟨rfl, rfl⟩ := h
    exact ⟨Issues.same _ _, hc, fun _ => ⟨rfl, rfl⟩, fun hk => absurd hc hk⟩

theorem uniform3f_calls_append (l₁ l₂ : List GLcall) :
    uniform3f_calls (l₁ ++ l₂) = uniform3f_calls l₁ ++ uniform3f_calls l₂ := by
  simp [uniform3f_calls]

theorem uniform3f_calls_of_only {names : List String} {l : List GLcall} (h : Only names l)
    (hn : "glUniform3f" ∉ names) : uniform3f_calls l = [] := by
  unfold uniform3f_calls
  rw [List.filter_eq_nil_iff]
  intro c hc
  have := h c hc
  simp only [decide_eq_true_eq]
  intro he
  exact hn (he ▸ this)

/-- Lines 695 to 729 of `glsDrawViews`: the commands issued. -/
theorem bind_views_and_uniforms_log (ctx : GLScontext) (mode : GLSmode) (vt : Nat × Nat)
    (viewport : Viewport) (lr : Int × Int) (s : GLstate) :
    (bind_views_and_uniforms ctx mode vt viewport lr s).log
      = s.log ++ ([GLcall.glUseProgram ctx.prg, GLcall.glActiveTexture 0,
          GLcall.glBindTexture 0 (at2 vt lr.1), GLcall.glActiveTexture 1,
          GLcall.glBindTexture 1 (at2 vt lr.2), GLcall.glUniform1i ctx.prg "rgb_l" 0,
          GLcall.glUniform1i ctx.prg "rgb_r" 1,
          GLcall.glUniform1f ctx.prg "parallax_adjust" ctx.parallax_adjust]
        ++ (if sets_crosstalk ctx mode then
              [GLcall.glUniform3f ctx.prg "crosstalk" (ctx.crosstalk_r * ctx.ghostbust)
                (ctx.crosstalk_g * ctx.ghostbust) (ctx.crosstalk_b * ctx.ghostbust)]
            else [])
        ++ (if mode = GLS_MODE_EVEN_ODD_ROWS ∨ mode = GLS_MODE_EVEN_ODD_COLUMNS
              ∨ mode = GLS_MODE_CHECKERBOARD then
              [GLcall.glUniform1i ctx.prg "mask_tex" 2,
                GLcall.glUniform1f ctx.prg "step_x" (1 / (viewport.width : ℚ)),
                GLcall.glUniform1f ctx.prg "step_y" (1 / (viewport.height : ℚ))]
            else [])) := by
  unfold bind_views_and_uniforms
  by_cases h1 : sets_crosstalk ctx mode <;>
  by_cases h2 : mode = GLS_MODE_EVEN_ODD_ROWS ∨ mode = GLS_MODE_EVEN_ODD_COLUMNS
      ∨ mode = GLS_MODE_CHECKERBOARD
  all_goals
    dsimp only
    first | rw [if_pos h2, if_pos h2] | rw [if_neg h2, if_neg h2]
    first | rw [if_pos h1, if_pos h1] | rw [if_neg h1, if_neg h1]
    simp only [gl_fields, glUseProgram_fields, glActiveTexture_fields, glBindTexture_fields,
      glUniform1f_fields, List.append_assoc, List.cons_append, List.nil_append, List.append_nil]

/-- Lines 695 to 729 of `glsDrawViews`: the functions called, and the one call that sets
the uniform `crosstalk`. -/
theorem bind_views_and_uniforms_issues (ctx : GLScontext) (mode : GLSmode) (vt : Nat × Nat)
    (viewport : Viewport) (lr : Int × Int) (s : GLstate) :
    Issues bind_names s (bind_views_and_uniforms ctx mode vt viewport lr s)
    ∧ uniform3f_calls (issued s (bind_views_and_uniforms ctx mode vt viewport lr s))
        = (if sets_crosstalk ctx mode then
            [GLcall.glUniform3f ctx.prg "crosstalk" (ctx.crosstalk_r * ctx.ghostbust)
              (ctx.crosstalk_g * ctx.ghostbust) (ctx.crosstalk_b * ctx.ghostbust)]
           else []) := by
  have hl := bind_views_and_uniforms_log ctx mode vt viewport lr s
  refine ⟨Issues.of_log hl ?_, ?_⟩
  · by_cases h1 : sets_crosstalk ctx mode <;>
    by_cases h2 : mode = GLS_MODE_EVEN_ODD_ROWS ∨ mode = GLS_MODE_EVEN_ODD_COLUMNS
        ∨ mode = GLS_MODE_CHECKERBOARD <;>
    simp [h1, h2, Only, GLcall.name, bind_names]
  · rw [issued_of_log hl]
    by_cases h1 : sets_crosstalk ctx mode <;>
    by_cases h2 : mode = GLS_MODE_EVEN_ODD_ROWS ∨ mode = GLS_MODE_EVEN_ODD_COLUMNS
        ∨ mode = GLS_MODE_CHECKERBOARD <;>
    simp [h1, h2, uniform3f_calls, GLcall.name]

/-- Lines 731 to 808 of `glsDrawViews`: the functions called. -/
theorem render_issues (ctx : GLScontext) (mode : GLSmode) (viewport : Viewport) (s : GLstate) :
    Issues render_names s (render ctx mode viewport s) := by
  unfold render
  by_cases h1 : mode = GLS_MODE_QUAD_BUFFER_STEREO
  · rw [if_pos h1]
    refine Issues.of_log (by
      simp only [gl_fields, draw_quad_fields, glUniform1f_fields, glDrawBuffer_fields,
        glActiveTexture_fields, glBindTexture_fields, glViewport_fields, List.append_assoc]
      rfl) ?_
    simp [Only, GLcall.name, render_names]
  rw [if_neg h1]
  by_cases h2 : mode = GLS_MODE_EVEN_ODD_ROWS
  · rw [if_pos h2]
    refine Issues.of_log (by
      simp only [gl_fields, draw_quad_fields, glUniform1f_fields, glDrawBuffer_fields,
        glActiveTexture_fields, glBindTexture_fields, glViewport_fields, List.append_assoc]
      rfl) ?_
    simp [Only, GLcall.name, render_names]
  rw [if_neg h2]
  by_cases h3 : mode = GLS_MODE_EVEN_ODD_COLUMNS
  · rw [if_pos h3]
    refine Issues.of_log (by
      simp only [gl_fields, draw_quad_fields, glUniform1f_fields, glDrawBuffer_fields,
        glActiveTexture_fields, glBindTexture_fields, glViewport_fields, List.append_assoc]
      rfl) ?_
    simp [Only, GLcall.name, render_names]
  rw [if_neg h3]
  by_cases h4 : mode = GLS_MODE_CHECKERBOARD
  · rw [if_pos h4]
    refine Issues.of_log (by
      simp only [gl_fields, draw_quad_fields, glUniform1f_fields, glDrawBuffer_fields,
        glActiveTexture_fields, glBindTexture_fields, glViewport_fields, List.append_assoc]
      rfl) ?_
    simp [Only, GLcall.name, render_names]
  rw [if_neg h4]
  by_cases h5 : is_anaglyph mode
  · rw [if_pos h5]
    refine Issues.of_log (by
      simp only [gl_fields, draw_quad_fields, glUniform1f_fields, glDrawBuffer_fields,
        glActiveTexture_fields, glBindTexture_fields, glViewport_fields, List.append_assoc]
      rfl) ?_
    simp [Only, GLcall.name, render_names]
  rw [if_neg h5]
  by_cases h6 : mode = GLS_MODE_MONO_LEFT
      ∨ (mode = GLS_MODE_ALTERNATING ∧ ctx.display_frame_counter % 2 = 0)
  · rw [if_pos h6]
    refine Issues.of_log (by
      simp only [gl_fields, draw_quad_fields, glUniform1f_fields, glDrawBuffer_fields,
        glActiveTexture_fields, glBindTexture_fields, glViewport_fields, List.append_assoc]
      rfl) ?_
    simp [Only, GLcall.name, render_names]
  rw [if_neg h6]
  by_cases h7 : mode = GLS_MODE_MONO_RIGHT
      ∨ (mode = GLS_MODE_ALTERNATING ∧ ctx.display_frame_counter % 2 = 1)
  · rw [if_pos h7]
    refine Issues.of_log (by
      simp only [gl_fields, draw_quad_fields, glUniform1f_fields, glDrawBuffer_fields,
        glActiveTexture_fields, glBindTexture_fields, glViewport_fields, List.append_assoc]
      rfl) ?_
    simp [Only, GLcall.name, render_names]
  rw [if_neg h7]
  by_cases h8 : mode = GLS_MODE_LEFT_RIGHT
  · rw [if_pos h8]
    refine Issues.of_log (by
      simp only [gl_fields, draw_quad_fields, glUniform1f_fields, glDrawBuffer_fields,
        glActiveTexture_fields, glBindTexture_fields, glViewport_fields, List.append_assoc]
      rfl) ?_
    simp [Only, GLcall.name, render_names]
  rw [if_neg h8]
  by_cases h9 : mode = GLS_MODE_TOP_BOTTOM
  · rw [if_pos h9]
    refine Issues.of_log (by
      simp only [gl_fields, draw_quad_fields, glUniform1f_fields, glDrawBuffer_fields,
        glActiveTexture_fields, glBindTexture_fields, glViewport_fields, List.append_assoc]
      rfl) ?_
    simp [Only, GLcall.name, render_names]
  rw [if_neg h9]
  by_cases h10 : mode = GLS_MODE_HDMI_FRAME_PACK
  · rw [if_pos h10]
    refine Issues.of_log (by
      simp only [gl_fields, draw_quad_fields, glUniform1f_fields, glDrawBuffer_fields,
        glActiveTexture_fields, glBindTexture_fields, glViewport_fields, List.append_assoc]
      rfl) ?_
    simp [Only, GLcall.name, render_names]
  rw [if_neg h10]
  exact Issues.same _ _

/-- The commands of `render` in the mode `GLS_MODE_LEFT_RIGHT`. -/
theorem render_left_right (ctx : GLScontext) (viewport : Viewport) (s : GLstate) :
    issued s (render ctx GLS_MODE_LEFT_RIGHT viewport s)
      = [GLcall.glViewport viewport.x viewport.y (Int.tdiv viewport.width 2) viewport.height,
         GLcall.glUniform1f ctx.prg "channel" 0,
         GLcall.draw_quad
           { viewport := ⟨viewport.x, viewport.y, Int.tdiv viewport.width 2, viewport.height⟩,
             draw_buffer := s.draw_buffer, program := s.current_program, channel := 0,
             unit0 := s.texture_binding_2d 0, unit1 := s.texture_binding_2d 1,
             unit2 := s.texture_binding_2d 2,
             viewport_width := viewport.width, viewport_height := viewport.height },
         GLcall.glViewport (viewport.x + Int.tdiv viewport.width 2) viewport.y
           (viewport.width - Int.tdiv viewport.width 2) viewport.height,
         GLcall.glUniform1f ctx.prg "channel" 1,
         GLcall.draw_quad
           { viewport := ⟨viewport.x + Int.tdiv viewport.width 2, viewport.y,
               viewport.width - Int.tdiv viewport.width 2, viewport.height⟩,
             draw_buffer := s.draw_buffer, program := s.current_program, channel := 1,
             unit0 := s.texture_binding_2d 0, unit1 := s.texture_binding_2d 1,
             unit2 := s.texture_binding_2d 2,
             viewport_width := viewport.width, viewport_height := viewport.height }] := by
  apply issued_of_log
  unfold render
  rw [if_neg (by decide), if_neg (by decide), if_neg (by decide), if_neg (by decide),
    if_neg (by decide), if_neg (by simp), if_neg (by simp), if_pos rfl]
  simp only [gl_fields, draw_quad_fields, glUniform1f_fields, glViewport_fields,
    List.append_assoc, List.cons_append, List.nil_append, GLstate.quad]
  simp

/-- The commands of `render` in the mode `GLS_MODE_TOP_BOTTOM`. -/
theorem render_top_bottom (ctx : GLScontext) (viewport : Viewport) (s : GLstate) :
    issued s (render ctx GLS_MODE_TOP_BOTTOM viewport s)
      = [GLcall.glViewport viewport.x (viewport.y + Int.tdiv viewport.height 2) viewport.width
           (viewport.height - Int.tdiv viewport.height 2),
         GLcall.glUniform1f ctx.prg "channel" 0,
         GLcall.draw_quad
           { viewport := ⟨viewport.x, viewport.y + Int.tdiv viewport.height 2, viewport.width,
               viewport.height - Int.tdiv viewport.height 2⟩,
             draw_buffer := s.draw_buffer, program := s.current_program, channel := 0,
             unit0 := s.texture_binding_2d 0, unit1 := s.texture_binding_2d 1,
             unit2 := s.texture_binding_2d 2,
             viewport_width := viewport.width, viewport_height := viewport.height },
         GLcall.glViewport viewport.x viewport.y viewport.width (Int.tdiv viewport.height 2),
         GLcall.glUniform1f ctx.prg "channel" 1,
         GLcall.draw_quad
           { viewport := ⟨viewport.x, viewport.y, viewport.width, Int.tdiv viewport.height 2⟩,
             draw_buffer := s.draw_buffer, program := s.current_program, channel := 1,
             unit0 := s.texture_binding_2d 0, unit1 := s.texture_binding_2d 1,
             unit2 := s.texture_binding_2d 2,
             viewport_width := viewport.width, viewport_height := viewport.height }] := by
  apply issued_of_log
  unfold render
  rw [if_neg (by decide), if_neg (by decide), if_neg (by decide), if_neg (by decide),
    if_neg (by decide), if_neg (by simp), if_neg (by simp), if_neg (by decide), if_pos rfl]
  simp only [gl_fields, draw_quad_fields, glUniform1f_fields, glViewport_fields,
    List.append_assoc, List.cons_append, List.nil_append, GLstate.quad]
  simp

/-- The commands of `render` in the mode `GLS_MODE_HDMI_FRAME_PACK`, with
`blank_lines = height / 49` and `hh = (height - blank_lines) / 2` as in the C code. -/
theorem render_hdmi_frame_pack (ctx : GLScontext) (viewport : Viewport) (s : GLstate) :
    issued s (render ctx GLS_MODE_HDMI_FRAME_PACK viewport s)
      = [GLcall.glViewport viewport.x
           (viewport.y + Int.tdiv (viewport.height - Int.tdiv viewport.height 49) 2)
           viewport.width (Int.tdiv viewport.height 49),
         GLcall.glClear true false,
         GLcall.glViewport viewport.x
           (viewport.y + Int.tdiv (viewport.height - Int.tdiv viewport.height 49) 2
             + Int.tdiv viewport.height 49)
           viewport.width
           (viewport.height - Int.tdiv (viewport.height - Int.tdiv viewport.height 49) 2
             - Int.tdiv viewport.height 49),
         GLcall.glUniform1f ctx.prg "channel" 0,
         GLcall.draw_quad
           { viewport := ⟨viewport.x,
               viewport.y + Int.tdiv (viewport.height - Int.tdiv viewport.height 49) 2
                 + Int.tdiv viewport.height 49,
               viewport.width,
               viewport.height - Int.tdiv (viewport.height - Int.tdiv viewport.height 49) 2
                 - Int.tdiv viewport.height 49⟩,
             draw_buffer := s.draw_buffer, program := s.current_program, channel := 0,
             unit0 := s.texture_binding_2d 0, unit1 := s.texture_binding_2d 1,
             unit2 := s.texture_binding_2d 2,
             viewport_width := viewport.width, viewport_height := viewport.height },
         GLcall.glViewport viewport.x viewport.y viewport.width
           (Int.tdiv (viewport.height - Int.tdiv viewport.height 49) 2),
         GLcall.glUniform1f ctx.prg "channel" 1,
         GLcall.draw_quad
           { viewport := ⟨viewport.x, viewport.y, viewport.width,
               Int.tdiv (viewport.height - Int.tdiv viewport.height 49) 2⟩,
             draw_buffer := s.draw_buffer, program := s.current_program, channel := 1,
             unit0 := s.texture_binding_2d 0, unit1 := s.texture_binding_2d 1,
             unit2 := s.texture_binding_2d 2,
             viewport_width := viewport.width, viewport_height := viewport.height }] := by
  apply issued_of_log
  unfold render
  rw [if_neg (by decide), if_neg (by decide), if_neg (by decide), if_neg (by decide),
    if_neg (by decide), if_neg (by simp), if_neg (by simp), if_neg (by decide),
    if_neg (by decide), if_pos rfl]
  simp only [gl_fields, draw_quad_fields, glUniform1f_fields, glViewport_fields,
    List.append_assoc, List.cons_append, List.nil_append, GLstate.quad]
  simp

/-- A call of `glsDrawViews` that returns, with a texture given, issues the commands of its
five parts one after the other. -/
theorem glsDrawViews_issued {env : Env} {ctx ctx' : GLScontext} {mode : GLSmode}
    {swap_views : Bool} {vt : Nat × Nat} {s s' : GLstate}
    (hvt : ¬ (at2 vt 0 = 0 ∧ at2 vt 1 = 0))
    (h : glsDrawViews env ctx mode swap_views vt s = .ok (ctx', s')) :
    ∃ (c₀ : GLScontext) (t₀ t₁ : GLstate),
      create_mask_textures ctx mode (init_gl_things (backup_gl_state s)) = (c₀, t₀)
      ∧ update_program env c₀ mode t₀ = .ok (ctx', t₁)
      ∧ Issues setup_names s t₀
      ∧ s' = restore_gl_state s.viewport s.current_program s.active_texture
          (render ctx' mode s.viewport (bind_views_and_uniforms ctx' mode vt s.viewport
            (view_indices ctx mode swap_views vt s.viewport) t₁))
      ∧ issued s s' = issued s t₀ ++ issued t₀ t₁
          ++ issued t₁ (bind_views_and_uniforms ctx' mode vt s.viewport
              (view_indices ctx mode swap_views vt s.viewport) t₁)
          ++ issued (bind_views_and_uniforms ctx' mode vt s.viewport
              (view_indices ctx mode swap_views vt s.viewport) t₁)
            (render ctx' mode s.viewport (bind_views_and_uniforms ctx' mode vt s.viewport
              (view_indices ctx mode swap_views vt s.viewport) t₁))
          ++ issued (render ctx' mode s.viewport (bind_views_and_uniforms ctx' mode vt s.viewport
              (view_indices ctx mode swap_views vt s.viewport) t₁)) s' := by
  unfold glsDrawViews at h
  rw [if_neg hvt] at h
  dsimp only at h
  have hA := ((backup_gl_state_issues s).chain (init_gl_things_issues _)).chain
    (create_mask_textures_issues ctx mode (init_gl_things (backup_gl_state s)))
  rcases hm : create_mask_textures ctx mode (init_gl_things (backup_gl_state s)) with ⟨c, t⟩
  rw [hm] at h hA
  dsimp only at h hA
  cases hu : update_program env c mode t with
  | error e => rw [hu] at h; exact absurd h (by simp)
  | ok r =>
    obtain ⟨c₁, t₁⟩ := r
    rw [hu] at h
    simp only [Except.ok.injEq, Prod.mk.injEq] at h
    obtain ⟨rfl, rfl⟩ := h
    refine ⟨c, t, t₁, rfl, hu, hA, rfl, ?_⟩
    have hU := (update_program_spec hu).1
    have hB := (bind_views_and_uniforms_issues c₁ mode vt s.viewport
      (view_indices ctx mode swap_views vt s.viewport) t₁).1
    have hR := render_issues c₁ mode s.viewport (bind_views_and_uniforms c₁ mode vt s.viewport
      (view_indices ctx mode swap_views vt s.viewport) t₁)
    have hP := restore_gl_state_issues s.viewport s.current_program s.active_texture
      (render c₁ mode s.viewport (bind_views_and_uniforms c₁ mode vt s.viewport
        (view_indices ctx mode swap_views vt s.viewport) t₁))
    have e₁ := issued_trans hA.1 hU.1
    have l₁ : t₁.log = s.log ++ issued s t₁ := by rw [e₁, hU.1, hA.1, List.append_assoc]
    have e₂ := issued_trans l₁ hB.1
    have l₂ := by
      have := hB.1
      rw [l₁, List.append_assoc, ← e₂] at this
      exact this
    have e₃ := issued_trans l₂ hR.1
    have l₃ := by
      have := hR.1
      rw [l₂, List.append_assoc, ← e₃] at this
      exact this
    have e₄ := issued_trans l₃ hP.1
    rw [e₄, e₃, e₂, e₁]

theorem quads_of_only {names : List String} {l : List GLcall} (h : Only names l)
    (hn : "draw_quad" ∉ names) : quads l = [] := by
  unfold quads
  rw [List.filterMap_eq_nil_iff]
  intro c hc
  have := h c hc
  cases c <;> first | rfl | exact absurd this hn

/-- A call of `glsDrawViews` that returns, with a texture given: the commands of `render`
are issued in a state `t` that has the two views in the units 0 and 1, between commands
that set up and commands that restore. -/
theorem glsDrawViews_render {env : Env} {ctx ctx' : GLScontext} {mode : GLSmode}
    {swap_views : Bool} {vt : Nat × Nat} {s s' : GLstate}
    (hvt : ¬ (at2 vt 0 = 0 ∧ at2 vt 1 = 0))
    (h : glsDrawViews env ctx mode swap_views vt s = .ok (ctx', s')) :
    ∃ (t : GLstate) (pre post : List GLcall),
      issued s s' = pre ++ issued t (render ctx' mode s.viewport t) ++ post
      ∧ Only before_render_names pre ∧ Only restore_names post
      ∧ t.texture_binding_2d 0 = at2 vt (view_indices ctx mode swap_views vt s.viewport).1
      ∧ t.texture_binding_2d 1 = at2 vt (view_indices ctx mode swap_views vt s.viewport).2
      ∧ t.current_program = ctx'.prg := by
  obtain ⟨c₀, t₀, t₁, -, hu, hA, rfl, he⟩ := glsDrawViews_issued hvt h
  obtain ⟨-, hb0, hb1⟩ := bind_views_and_uniforms_spec ctx' mode vt s.viewport
    (view_indices ctx mode swap_views vt s.viewport) t₁
  have hU := (update_program_spec hu).1
  have hB := (bind_views_and_uniforms_issues ctx' mode vt s.viewport
    (view_indices ctx mode swap_views vt s.viewport) t₁).1
  have hP := restore_gl_state_issues s.viewport s.current_program s.active_texture
    (render ctx' mode s.viewport (bind_views_and_uniforms ctx' mode vt s.viewport
      (view_indices ctx mode swap_views vt s.viewport) t₁))
  refine ⟨_, _, _, he, ?_, hP.2, hb0, hb1, ?_⟩
  · refine ((hA.2.mono ?_).append (hU.2.mono ?_)).append (hB.2.mono ?_) <;>
      intro n hn <;> simp only [before_render_names, List.mem_append] <;> tauto
  · unfold bind_views_and_uniforms
    by_cases h1 : sets_crosstalk ctx' mode <;>
    by_cases h2 : mode = GLS_MODE_EVEN_ODD_ROWS ∨ mode = GLS_MODE_EVEN_ODD_COLUMNS
        ∨ mode = GLS_MODE_CHECKERBOARD <;>
    simp [h1, h2]

theorem quads_issued_glsDrawViews {pre post mid : List GLcall}
    (h₁ : Only before_render_names pre) (h₂ : Only restore_names post) :
    quads (pre ++ mid ++ post) = quads mid := by
  rw [quads_append, quads_append, quads_of_only h₁ (by decide), quads_of_only h₂ (by decide)]
  simp

theorem tmod_two_eq_one_iff (n : Int) : Int.tmod n 2 = 1 ↔ (0 < n ∧ Odd n) := by
  rw [Int.odd_iff]
  cases n with
  | ofNat k =>
    have h : Int.tmod (Int.ofNat k) 2 = Int.ofNat k % 2 :=
      Int.tmod_eq_emod (Int.ofNat_nonneg k) (by decide)
    rw [h]
    simp only [Int.ofNat_eq_coe]
    omega
  | negSucc k =>
    have h : Int.tmod (Int.negSucc k) 2 = -(((k + 1) % 2 : Nat) : Int) := rfl
    rw [h]
    have : Int.negSucc k < 0 := Int.negSucc_lt_zero k
    omega

/-- The column rule at a given context and viewport, in closed form. -/
theorem column_parity_exchange_eq (ctx : GLScontext) (mode : GLSmode) (viewport : Viewport)
    (lr : Int × Int) :
    column_parity_exchange ctx mode viewport lr
      = (if (mode = GLS_MODE_EVEN_ODD_COLUMNS ∨ mode = GLS_MODE_CHECKERBOARD)
            ∧ 0 < ctx.viewport_screen_x + viewport.x
            ∧ Odd (ctx.viewport_screen_x + viewport.x) then (lr.2, lr.1) else lr) := by
  unfold column_parity_exchange exchange
  simp only [tmod_two_eq_one_iff]

theorem create_mask_textures_screen (ctx : GLScontext) (mode : GLSmode) (s : GLstate)
    (x y : Int) :
    create_mask_textures (glsSetViewportScreenCoords ctx x y) mode s
      = (glsSetViewportScreenCoords (create_mask_textures ctx mode s).1 x y,
         (create_mask_textures ctx mode s).2) := by
  unfold create_mask_textures glsSetViewportScreenCoords
  by_cases h1 : mode = GLS_MODE_EVEN_ODD_ROWS ∧ ctx.even_odd_rows_mask_tex = 0 <;>
  by_cases h2 : mode = GLS_MODE_EVEN_ODD_COLUMNS ∧ ctx.even_odd_columns_mask_tex = 0 <;>
  by_cases h3 : mode = GLS_MODE_CHECKERBOARD ∧ ctx.checkerboard_mask_tex = 0 <;>
  simp [h1, h2, h3]

theorem update_program_screen (env : Env) (ctx : GLScontext) (mode : GLSmode) (s : GLstate)
    (x y : Int) :
    update_program env (glsSetViewportScreenCoords ctx x y) mode s
      = (update_program env ctx mode s).map
          fun r => (glsSetViewportScreenCoords r.1 x y, r.2) := by
  unfold update_program
  have hs : shader_source env (glsSetViewportScreenCoords ctx x y) mode
      = shader_source env ctx mode := rfl
  have hg : ghostbust_enabled (glsSetViewportScreenCoords ctx x y) = ghostbust_enabled ctx := rfl
  rw [hs, hg]
  by_cases hc : ctx.prg = 0 ∨ ctx.prg_mode ≠ mode ∨ ctx.prg_ghostbust ≠ ghostbust_enabled ctx
  · have hc' : (glsSetViewportScreenCoords ctx x y).prg = 0
        ∨ (glsSetViewportScreenCoords ctx x y).prg_mode ≠ mode
        ∨ (glsSetViewportScreenCoords ctx x y).prg_ghostbust ≠ ghostbust_enabled ctx := hc
    rw [if_pos hc, if_pos hc']
    cases shader_source env ctx mode with
    | error e => rfl
    | ok src =>
      dsimp only
      cases compile_fragment_shader env src s with
      | error e => rfl
      | ok r =>
        obtain ⟨shader, t⟩ := r
        dsimp only
        cases link_program env src (glCreateProgram t).1
            (gl (GLcall.glAttachShader (glCreateProgram t).1 shader) (glCreateProgram t).2) with
        | error e => rfl
        | ok u => rfl
  · have hc' : ¬ ((glsSetViewportScreenCoords ctx x y).prg = 0
        ∨ (glsSetViewportScreenCoords ctx x y).prg_mode ≠ mode
        ∨ (glsSetViewportScreenCoords ctx x y).prg_ghostbust ≠ ghostbust_enabled ctx) := hc
    rw [if_neg hc, if_neg hc']
    rfl

/-- The screen coordinates play no part in `glsDrawViews` beyond the indices of the views. -/
theorem glsDrawViews_screen (env : Env) (ctx : GLScontext) (mode : GLSmode) (swap_views : Bool)
    (vt : Nat × Nat) (s : GLstate) (x y : Int)
    (h : view_indices (glsSetViewportScreenCoords ctx x y) mode swap_views vt s.viewport
      = view_indices ctx mode swap_views vt s.viewport) :
    glsDrawViews env (glsSetViewportScreenCoords ctx x y) mode swap_views vt s
      = (glsDrawViews env ctx mode swap_views vt s).map
          fun r => (glsSetViewportScreenCoords r.1 x y, r.2) := by
  unfold glsDrawViews
  by_cases hz : at2 vt 0 = 0 ∧ at2 vt 1 = 0
  · rw [if_pos hz, if_pos hz]
    rfl
  · rw [if_neg hz, if_neg hz]
    dsimp only
    rw [create_mask_textures_screen, h]
    rcases create_mask_textures ctx mode (init_gl_things (backup_gl_state s)) with ⟨c, t⟩
    dsimp only
    rw [update_program_screen]
    cases update_program env c mode t with
    | error e => rfl
    | ok r => rfl

theorem create_mask_textures_program (ctx : GLScontext) (mode : GLSmode) (s : GLstate) :
    (create_mask_textures ctx mode s).1.prg = ctx.prg
    ∧ (create_mask_textures ctx mode s).1.prg_mode = ctx.prg_mode
    ∧ (create_mask_textures ctx mode s).1.prg_ghostbust = ctx.prg_ghostbust
    ∧ (create_mask_textures ctx mode s).1.ghostbust = ctx.ghostbust
    ∧ (create_mask_textures ctx mode s).1.crosstalk_r = ctx.crosstalk_r
    ∧ (create_mask_textures ctx mode s).1.crosstalk_g = ctx.crosstalk_g
    ∧ (create_mask_textures ctx mode s).1.crosstalk_b = ctx.crosstalk_b := by
  unfold create_mask_textures
  by_cases h1 : mode = GLS_MODE_EVEN_ODD_ROWS ∧ ctx.even_odd_rows_mask_tex = 0 <;>
  by_cases h2 : mode = GLS_MODE_EVEN_ODD_COLUMNS ∧ ctx.even_odd_columns_mask_tex = 0 <;>
  by_cases h3 : mode = GLS_MODE_CHECKERBOARD ∧ ctx.checkerboard_mask_tex = 0 <;>
  simp [h1, h2, h3]

theorem program_cached_congr {ctx c : GLScontext} {mode : GLSmode} (h₁ : c.prg = ctx.prg)
    (h₂ : c.prg_mode = ctx.prg_mode) (h₃ : c.prg_ghostbust = ctx.prg_ghostbust)
    (h₄ : (0 < c.ghostbust) ↔ (0 < ctx.ghostbust)) :
    program_cached c mode ↔ program_cached ctx mode := by
  unfold program_cached ghostbust_enabled
  rw [h₁, h₂, h₃]
  by_cases hg : 0 < ctx.ghostbust
  · rw [if_pos hg, if_pos (h₄.mpr hg)]
  · rw [if_neg hg, if_neg (fun h => hg (h₄.mp h))]

/-- A call of `glsDrawViews` that returns, with a texture given: the commands before the
program is looked up, the commands of `update_program`, and the commands after it, among
which the uniform `crosstalk` is set or not. -/
theorem glsDrawViews_around_program {env : Env} {ctx ctx' : GLScontext} {mode : GLSmode}
    {swap_views : Bool} {vt : Nat × Nat} {s s' : GLstate}
    (hvt : ¬ (at2 vt 0 = 0 ∧ at2 vt 1 = 0))
    (h : glsDrawViews env ctx mode swap_views vt s = .ok (ctx', s')) :
    ∃ (c₀ : GLScontext) (t₀ t₁ : GLstate) (post : List GLcall),
      create_mask_textures ctx mode (init_gl_things (backup_gl_state s)) = (c₀, t₀)
      ∧ update_program env c₀ mode t₀ = .ok (ctx', t₁)
      ∧ issued s s' = issued s t₀ ++ issued t₀ t₁ ++ post
      ∧ Only setup_names (issued s t₀)
      ∧ Only after_program_names post
      ∧ uniform3f_calls post
          = (if sets_crosstalk ctx' mode then
              [GLcall.glUniform3f ctx'.prg "crosstalk" (ctx'.crosstalk_r * ctx'.ghostbust)
                (ctx'.crosstalk_g * ctx'.ghostbust) (ctx'.crosstalk_b * ctx'.ghostbust)]
             else []) := by
  obtain ⟨c₀, t₀, t₁, hm, hu, hA, rfl, he⟩ := glsDrawViews_issued hvt h
  obtain ⟨hB, hB3⟩ := bind_views_and_uniforms_issues ctx' mode vt s.viewport
    (view_indices ctx mode swap_views vt s.viewport) t₁
  have hR := render_issues ctx' mode s.viewport (bind_views_and_uniforms ctx' mode vt s.viewport
    (view_indices ctx mode swap_views vt s.viewport) t₁)
  have hP := restore_gl_state_issues s.viewport s.current_program s.active_texture
    (render ctx' mode s.viewport (bind_views_and_uniforms ctx' mode vt s.viewport
      (view_indices ctx mode swap_views vt s.viewport) t₁))
  have hB2 := hB.2
  have hR2 := hR.2
  have hP2 := hP.2
  generalize issued t₁ (bind_views_and_uniforms ctx' mode vt s.viewport
    (view_indices ctx mode swap_views vt s.viewport) t₁) = B at he hB2 hB3
  generalize issued (bind_views_and_uniforms ctx' mode vt s.viewport
    (view_indices ctx mode swap_views vt s.viewport) t₁) (render ctx' mode s.viewport
      (bind_views_and_uniforms ctx' mode vt s.viewport
        (view_indices ctx mode swap_views vt s.viewport) t₁)) = R at he hR2
  generalize issued (render ctx' mode s.viewport (bind_views_and_uniforms ctx' mode vt
    s.viewport (view_indices ctx mode swap_views vt s.viewport) t₁))
    (restore_gl_state s.viewport s.current_program s.active_texture
      (render ctx' mode s.viewport (bind_views_and_uniforms ctx' mode vt s.viewport
        (view_indices ctx mode swap_views vt s.viewport) t₁))) = P at he hP2
  refine ⟨c₀, t₀, t₁, B ++ R ++ P, hm, hu, ?_, hA.2, ?_, ?_⟩
  · rw [he]
    simp only [List.append_assoc]
  · refine ((hB2.mono ?_).append (hR2.mono ?_)).append (hP2.mono ?_) <;>
      intro n hn <;> simp only [after_program_names, List.mem_append] <;> tauto
  · rw [uniform3f_calls_append, uniform3f_calls_append, hB3,
      uniform3f_calls_of_only hR2 (by decide), uniform3f_calls_of_only hP2 (by decide)]
    simp

/-- With the program cached, `glsDrawViews` returns whatever the surroundings are, keeps
the program, and calls none of the functions that build one. -/
theorem glsDrawViews_cached (env : Env) (ctx : GLScontext) (mode : GLSmode) (swap_views : Bool)
    (vt : Nat × Nat) (s : GLstate) (hk : program_cached ctx mode) :
    ∃ ctx' s', glsDrawViews env ctx mode swap_views vt s = .ok (ctx', s')
      ∧ ctx'.prg = ctx.prg ∧ ctx'.prg_mode = ctx.prg_mode
      ∧ ctx'.prg_ghostbust = ctx.prg_ghostbust
      ∧ Only cached_call_names (issued s s') := by
  by_cases hvt : at2 vt 0 = 0 ∧ at2 vt 1 = 0
  · refine ⟨ctx, gl (.glClear true false) s, ?_, rfl, rfl, rfl, ?_⟩
    · unfold glsDrawViews
      rw [if_pos hvt]
    · rw [@issued_of_log s (gl (.glClear true false) s) [GLcall.glClear true false] (by simp)]
      simp [Only, GLcall.name, cached_call_names]
  · obtain ⟨p1, p2, p3, p4, -, -, -⟩ := create_mask_textures_program ctx mode
      (init_gl_things (backup_gl_state s))
    have hk' : program_cached
        (create_mask_textures ctx mode (init_gl_things (backup_gl_state s))).1 mode :=
      (program_cached_congr p1 p2 p3 (by rw [p4])).mpr hk
    rcases hm : create_mask_textures ctx mode (init_gl_things (backup_gl_state s)) with ⟨c, t⟩
    rw [hm] at p1 p2 p3 hk'
    dsimp only at p1 p2 p3 hk'
    have hu : update_program env c mode t = .ok (c, t) := by
      unfold update_program
      rw [if_neg hk']
    have hcall : ∃ s', glsDrawViews env ctx mode swap_views vt s = .ok (c, s') := by
      unfold glsDrawViews
      rw [if_neg hvt]
      dsimp only
      rw [hm]
      dsimp only
      rw [hu]
      exact ⟨_, rfl⟩
    obtain ⟨s', hs'⟩ := hcall
    refine ⟨c, s', hs', p1, p2, p3, ?_⟩
    obtain ⟨c₀, t₀, t₁, post, hm', hu', he, hA, hpost, -⟩ := glsDrawViews_around_program hvt hs'
    rw [hm] at hm'
    simp only [Prod.mk.injEq] at hm'
    obtain ⟨rfl, rfl⟩ := hm'
    rw [hu] at hu'
    simp only [Except.ok.injEq, Prod.mk.injEq] at hu'
    obtain ⟨-, rfl⟩ := hu'
    rw [he, issued_self]
    refine ((hA.mono ?_).append (Only.nil _)).append (hpost.mono ?_) <;>
      intro n hn <;>
      simp only [cached_call_names, after_program_names, List.mem_append, List.mem_cons] at hn ⊢ <;>
      tauto

/-- A call of `glsDrawViews` that returns leaves the settings of the ghostbusting as they
are, and with a texture given it leaves a program cached for its mode. -/
theorem glsDrawViews_settings {env : Env} {ctx ctx' : GLScontext} {mode : GLSmode}
    {swap_views : Bool} {vt : Nat × Nat} {s s' : GLstate}
    (h : glsDrawViews env ctx mode swap_views vt s = .ok (ctx', s')) :
    ctx'.ghostbust = ctx.ghostbust ∧ ctx'.crosstalk_r = ctx.crosstalk_r
    ∧ ctx'.crosstalk_g = ctx.crosstalk_g ∧ ctx'.crosstalk_b = ctx.crosstalk_b
    ∧ (¬ (at2 vt 0 = 0 ∧ at2 vt 1 = 0) → program_cached ctx' mode) := by
  by_cases hvt : at2 vt 0 = 0 ∧ at2 vt 1 = 0
  · unfold glsDrawViews at h
    rw [if_pos hvt] at h
    simp only [Except.ok.injEq, Prod.mk.injEq] at h
    obtain ⟨rfl, -⟩ := h
    exact ⟨rfl, rfl, rfl, rfl, fun hn => absurd hvt hn⟩
  · obtain ⟨c₀, t₀, t₁, post, hm, hu, -, -, -, -⟩ := glsDrawViews_around_program hvt h
    obtain ⟨-, -, -, p4, p5, p6, p7⟩ := create_mask_textures_program ctx mode
      (init_gl_things (backup_gl_state s))
    rw [hm] at p4 p5 p6 p7
    dsimp only at p4 p5 p6 p7
    obtain ⟨-, hk, hhit, hmiss⟩ := update_program_spec hu
    by_cases hc : program_cached c₀ mode
    · obtain ⟨rfl, -⟩ := hhit hc
      exact ⟨p4, p5, p6, p7, fun _ => hk⟩
    · obtain ⟨rfl, -⟩ := hmiss hc
      exact ⟨p4, p5, p6, p7, fun _ => hk⟩

theorem has_own_token_iff (mode : GLSmode) : has_own_token mode ↔ 7 ≤ mode ∧ mode ≤ 23 := by
  unfold has_own_token is_anaglyph
  simp only [GLS_MODE_EVEN_ODD_ROWS, GLS_MODE_EVEN_ODD_COLUMNS, GLS_MODE_CHECKERBOARD,
    GLS_MODE_RED_CYAN_MONOCHROME, GLS_MODE_RED_CYAN_HALF_COLOR, GLS_MODE_RED_CYAN_FULL_COLOR,
    GLS_MODE_RED_CYAN_DUBOIS, GLS_MODE_GREEN_MAGENTA_MONOCHROME,
    GLS_MODE_GREEN_MAGENTA_HALF_COLOR, GLS_MODE_GREEN_MAGENTA_FULL_COLOR,
    GLS_MODE_GREEN_MAGENTA_DUBOIS, GLS_MODE_AMBER_BLUE_MONOCHROME,
    GLS_MODE_AMBER_BLUE_HALF_COLOR, GLS_MODE_AMBER_BLUE_FULL_COLOR, GLS_MODE_AMBER_BLUE_DUBOIS,
    GLS_MODE_RED_GREEN_MONOCHROME, GLS_MODE_RED_BLUE_MONOCHROME]
  unfold GLSmode at *
  omega

theorem mode_val_own_token : ∀ mode ∈ List.range' 7 17,
    (mode_val mode).toList = mode_token mode ∧ mode_val mode ≠ "mode_onechannel" := by
  decide

theorem mode_val_injective : ∀ m ∈ List.range' 7 17, ∀ n ∈ List.range' 7 17,
    mode_val m = mode_val n → m = n := by
  decide

theorem mode_val_onechannel (mode : GLSmode) (h : ¬ has_own_token mode) :
    mode_val mode = "mode_onechannel" := by
  unfold has_own_token is_anaglyph at h
  simp only [not_or] at h
  obtain ⟨h1, h2, h3, h4, h5, h6, h7, h8, h9, h10, h11, h12, h13, h14, h15, h16, h17⟩ := h
  unfold mode_val
  rw [if_neg h1, if_neg h2, if_neg h3, if_neg h4, if_neg h5, if_neg h6, if_neg h7, if_neg h8,
    if_neg h9, if_neg h10, if_neg h11, if_neg h12, if_neg h13, if_neg h14, if_neg h15,
    if_neg h17, if_neg h16]

theorem deleted_of_only {names : List String} {l : List GLcall} (h : Only names l)
    (hp : "glDeleteProgram" ∉ names) (hs : "glDeleteShader" ∉ names) :
    deleted_programs l = [] ∧ deleted_shaders l = [] := by
  constructor
  · rw [deleted_programs, List.filterMap_eq_nil_iff]
    intro c hc
    have := h c hc
    cases c <;> first | rfl | exact absurd this (by simpa [GLcall.name] using hp)
  · rw [deleted_shaders, List.filterMap_eq_nil_iff]
    intro c hc
    have := h c hc
    cases c <;> first | rfl | exact absurd this (by simpa [GLcall.name] using hs)

theorem glsDrawViews_only {env : Env} {ctx ctx' : GLScontext} {mode : GLSmode}
    {swap_views : Bool} {vt : Nat × Nat} {s s' : GLstate}
    (h : glsDrawViews env ctx mode swap_views vt s = .ok (ctx', s')) :
    Only glsDrawViews_names (issued s s') := by
  by_cases hvt : at2 vt 0 = 0 ∧ at2 vt 1 = 0
  · unfold glsDrawViews at h
    rw [if_pos hvt] at h
    simp only [Except.ok.injEq, Prod.mk.injEq] at h
    obtain ⟨-, rfl⟩ := h
    rw [@issued_of_log s (gl (.glClear true false) s) [GLcall.glClear true false] (by simp)]
    simp [Only, GLcall.name, glsDrawViews_names]
  · obtain ⟨c₀, t₀, t₁, post, -, hu, he, hA, hpost, -⟩ := glsDrawViews_around_program hvt h
    obtain ⟨hB, -, -, -⟩ := update_program_spec hu
    rw [he]
    refine ((hA.mono ?_).append (hB.2.mono ?_)).append (hpost.mono ?_) <;>
      intro n hn <;>
      simp only [glsDrawViews_names, List.mem_append, List.mem_cons] <;>
      tauto

theorem sets_crosstalk_iff (ctx : GLScontext) (mode : GLSmode) :
    sets_crosstalk ctx mode ↔ (¬ is_anaglyph mode ∧ 0 < ctx.ghostbust) := by
  unfold sets_crosstalk is_anaglyph
  tauto

/-- The commands `glUniform3f` of a call of `glsDrawViews` that returns, with a texture
given: the uniform `crosstalk` is set once when the test of line 704 holds, and no such
command is issued otherwise. -/
theorem glsDrawViews_crosstalk {env : Env} {ctx ctx' : GLScontext} {mode : GLSmode}
    {swap_views : Bool} {vt : Nat × Nat} {s s' : GLstate}
    (hvt : ¬ (at2 vt 0 = 0 ∧ at2 vt 1 = 0))
    (h : glsDrawViews env ctx mode swap_views vt s = .ok (ctx', s')) :
    uniform3f_calls (issued s s')
      = (if ¬ is_anaglyph mode ∧ 0 < ctx.ghostbust then
          [GLcall.glUniform3f ctx'.prg "crosstalk" (ctx.crosstalk_r * ctx.ghostbust)
            (ctx.crosstalk_g * ctx.ghostbust) (ctx.crosstalk_b * ctx.ghostbust)]
         else []) := by
  obtain ⟨c₀, t₀, t₁, post, -, hu, he, hA, -, h3⟩ := glsDrawViews_around_program hvt h
  obtain ⟨hB, -, -, -⟩ := update_program_spec hu
  obtain ⟨e1, e2, e3, e4, -⟩ := glsDrawViews_settings h
  rw [he, uniform3f_calls_append, uniform3f_calls_append, h3,
    uniform3f_calls_of_only hA (by decide), uniform3f_calls_of_only hB.2 (by decide)]
  simp only [List.nil_append, sets_crosstalk_iff, e1, e2, e3, e4]

/-! ## The claims on the views drawn and on the program -/

/-- Claim C11.  The column-parity exchange does not happen for every odd sum
`viewport_screen_x + viewport x`: the test `% 2 == 1` of line 592 truncates towards zero,
so a negative odd sum has the remainder -1 and no exchange takes place.  With
`viewport_screen_x = -1` and the viewport at `x = 0` in the mode
`GLS_MODE_EVEN_ODD_COLUMNS` the textures (5, 6) are bound as (5, 6), whereas the odd sum 1
binds them as (6, 5).  In general the exchange happens exactly for the positive odd sums.
The row rule of line 586 tests `== 0` and exchanges at the negative even sum -2 as well. -/
theorem column_parity_exchange_negative_sum :
    Odd ((-1 : Int) + 0)
    ∧ column_parity_exchange { sample_ctx with viewport_screen_x := -1 }
        GLS_MODE_EVEN_ODD_COLUMNS ⟨0, 0, 800, 800⟩ (0, 1) = (0, 1)
    ∧ column_parity_exchange { sample_ctx with viewport_screen_x := 1 }
        GLS_MODE_EVEN_ODD_COLUMNS ⟨0, 0, 800, 800⟩ (0, 1) = (1, 0)
    ∧ bound_textures { sample_ctx with viewport_screen_x := -1 } GLS_MODE_EVEN_ODD_COLUMNS false
        (5, 6) ⟨0, 0, 800, 800⟩ = (5, 6)
    ∧ bound_textures { sample_ctx with viewport_screen_x := 1 } GLS_MODE_EVEN_ODD_COLUMNS false
        (5, 6) ⟨0, 0, 800, 800⟩ = (6, 5)
    ∧ (∀ (ctx : GLScontext) (mode : GLSmode) (viewport : Viewport) (lr : Int × Int),
        column_parity_exchange ctx mode viewport lr
          = (if (mode = GLS_MODE_EVEN_ODD_COLUMNS ∨ mode = GLS_MODE_CHECKERBOARD)
                ∧ 0 < ctx.viewport_screen_x + viewport.x
                ∧ Odd (ctx.viewport_screen_x + viewport.x) then (lr.2, lr.1) else lr))
    ∧ row_parity_exchange { sample_ctx with viewport_screen_y := -2 }
        GLS_MODE_EVEN_ODD_ROWS ⟨0, 0, 800, 800⟩ (0, 1) = (1, 0) := by
  refine ⟨by decide, by decide, by decide, by decide, by decide, column_parity_exchange_eq,
    by decide⟩

/-- Claim C12, counterexample.  In the mode `GLS_MODE_CHECKERBOARD` with the screen origin
(0, 0), the viewport (0, 0, 800, 800), no swap and the textures (5, 6), the column rule
leaves the indices as they are, and the textures bound as left and right are (6, 5), not
the assignment (5, 6) that the swap flag alone gives. -/
theorem checkerboard_exchanges_once :
    bound_textures sample_ctx GLS_MODE_CHECKERBOARD false (5, 6) ⟨0, 0, 800, 800⟩ = (6, 5)
    ∧ swap_only_textures false (5, 6) = (5, 6)
    ∧ bound_textures sample_ctx GLS_MODE_CHECKERBOARD false (5, 6) ⟨0, 0, 800, 800⟩
        ≠ swap_only_textures false (5, 6)
    ∧ column_parity_exchange sample_ctx GLS_MODE_CHECKERBOARD ⟨0, 0, 800, 800⟩ (0, 1) = (0, 1) := by
  decide

/-- Claim C12, amended.  In the mode `GLS_MODE_CHECKERBOARD` with the screen origin (0, 0)
and the viewport origin (0, 0), for every viewport size, swap flag and pair of textures,
the row rule exchanges left and right (the sum 0 is even) and the column rule does not
(the sum 0 is not odd), so the textures bound as left and right are those that the swap
flag alone gives, exchanged; every quad of a call that returns is drawn with them. -/
theorem checkerboard_origin (env : Env) (ctx : GLScontext) (swap_views : Bool)
    (view_textures : Nat × Nat) (width height : Int) (lr : Int × Int) (s : GLstate) :
    row_parity_exchange (glsSetViewportScreenCoords ctx 0 0) GLS_MODE_CHECKERBOARD
        ⟨0, 0, width, height⟩ lr = (lr.2, lr.1)
    ∧ column_parity_exchange (glsSetViewportScreenCoords ctx 0 0) GLS_MODE_CHECKERBOARD
        ⟨0, 0, width, height⟩ lr = lr
    ∧ bound_textures (glsSetViewportScreenCoords ctx 0 0) GLS_MODE_CHECKERBOARD swap_views
        view_textures ⟨0, 0, width, height⟩
      = ((swap_only_textures swap_views view_textures).2,
         (swap_only_textures swap_views view_textures).1)
    ∧ (¬ (at2 view_textures 0 = 0 ∧ at2 view_textures 1 = 0) →
        ∀ ctx' s', glsDrawViews env (glsSetViewportScreenCoords ctx 0 0) GLS_MODE_CHECKERBOARD
            swap_views view_textures { s with viewport := ⟨0, 0, width, height⟩ } = .ok (ctx', s') →
          quads (issued { s with viewport := ⟨0, 0, width, height⟩ } s') ≠ []
          ∧ ∀ q ∈ quads (issued { s with viewport := ⟨0, 0, width, height⟩ } s'),
            q.unit0 = (swap_only_textures swap_views view_textures).2
            ∧ q.unit1 = (swap_only_textures swap_views view_textures).1) := by
  have hr : ∀ p : Int × Int, row_parity_exchange (glsSetViewportScreenCoords ctx 0 0)
      GLS_MODE_CHECKERBOARD ⟨0, 0, width, height⟩ p = (p.2, p.1) := by
    intro p
    simp [row_parity_exchange, glsSetViewportScreenCoords, exchange]
  have hc : ∀ p : Int × Int, column_parity_exchange (glsSetViewportScreenCoords ctx 0 0)
      GLS_MODE_CHECKERBOARD ⟨0, 0, width, height⟩ p = p := by
    intro p
    simp [column_parity_exchange, glsSetViewportScreenCoords]
  have hv : view_indices (glsSetViewportScreenCoords ctx 0 0) GLS_MODE_CHECKERBOARD swap_views
      view_textures ⟨0, 0, width, height⟩
      = ((swap_views_exchange swap_views (initial_indices view_textures)).2,
         (swap_views_exchange swap_views (initial_indices view_textures)).1) := by
    unfold view_indices
    rw [hc, hr]
  refine ⟨hr lr, hc lr, ?_, ?_⟩
  · simp [bound_textures, swap_only_textures, hv]
  · intro hvt ctx' s' h
    obtain ⟨hunits, hne, -, -⟩ := glsDrawViews_quads hvt h
    refine ⟨hne (by decide), fun q hq => ?_⟩
    have := hunits q hq
    rw [hv] at this
    exact this

/-- With swap, the textures (5, 6) and a viewport of 800 x 600 pixels the swap flag alone
gives (6, 5) and the quads are drawn with (5, 6). -/
theorem checkerboard_origin_witness :
    ¬ (at2 ((5, 6) : Nat × Nat) 0 = 0 ∧ at2 ((5, 6) : Nat × Nat) 1 = 0)
    ∧ swap_only_textures true (5, 6) = (6, 5)
    ∧ bound_textures (glsSetViewportScreenCoords sample_ctx 0 0) GLS_MODE_CHECKERBOARD true
        (5, 6) ⟨0, 0, 800, 600⟩ = (5, 6)
    ∧ ∀ ctx' s', glsDrawViews sample_env (glsSetViewportScreenCoords sample_ctx 0 0)
          GLS_MODE_CHECKERBOARD true (5, 6) { sample_gl with viewport := ⟨0, 0, 800, 600⟩ }
          = .ok (ctx', s') →
        quads (issued { sample_gl with viewport := ⟨0, 0, 800, 600⟩ } s') ≠ []
        ∧ ∀ q ∈ quads (issued { sample_gl with viewport := ⟨0, 0, 800, 600⟩ } s'),
          q.unit0 = 5 ∧ q.unit1 = 6 :=
  ⟨by decide, by decide,
   (checkerboard_origin sample_env sample_ctx true (5, 6) 800 600 (0, 1) sample_gl).2.2.1,
   (checkerboard_origin sample_env sample_ctx true (5, 6) 800 600 (0, 1) sample_gl).2.2.2
     (by decide)⟩

/-- Claim C13.  In a mode other than `GLS_MODE_EVEN_ODD_ROWS`, `GLS_MODE_EVEN_ODD_COLUMNS`
and `GLS_MODE_CHECKERBOARD`, two runs of `glsDrawViews` that differ only in the screen
coordinates set by `glsSetViewportScreenCoords` end alike, with the same GL state (all the
commands issued, so the texture bindings, uniforms, viewports and draws) and the same
context but for the coordinates themselves; the mode `GLS_MODE_EVEN_ODD_ROWS` ignores the x
coordinate in this way and the mode `GLS_MODE_EVEN_ODD_COLUMNS` the y coordinate. -/
theorem glsSetViewportScreenCoords_influence (env : Env) (ctx : GLScontext) (mode : GLSmode)
    (swap_views : Bool) (view_textures : Nat × Nat) (s : GLstate) (x₁ y₁ x₂ y₂ : Int) :
    (mode ≠ GLS_MODE_EVEN_ODD_ROWS → mode ≠ GLS_MODE_EVEN_ODD_COLUMNS →
      mode ≠ GLS_MODE_CHECKERBOARD →
        glsDrawViews env (glsSetViewportScreenCoords ctx x₁ y₁) mode swap_views view_textures s
          = (glsDrawViews env (glsSetViewportScreenCoords ctx x₂ y₂) mode swap_views
              view_textures s).map (fun r => (glsSetViewportScreenCoords r.1 x₁ y₁, r.2)))
    ∧ glsDrawViews env (glsSetViewportScreenCoords ctx x₁ y₁) GLS_MODE_EVEN_ODD_ROWS swap_views
          view_textures s
        = (glsDrawViews env (glsSetViewportScreenCoords ctx x₂ y₁) GLS_MODE_EVEN_ODD_ROWS
            swap_views view_textures s).map (fun r => (glsSetViewportScreenCoords r.1 x₁ y₁, r.2))
    ∧ glsDrawViews env (glsSetViewportScreenCoords ctx x₁ y₁) GLS_MODE_EVEN_ODD_COLUMNS
          swap_views view_textures s
        = (glsDrawViews env (glsSetViewportScreenCoords ctx x₁ y₂) GLS_MODE_EVEN_ODD_COLUMNS
            swap_views view_textures s).map (fun r => (glsSetViewportScreenCoords r.1 x₁ y₁, r.2)) := by
  refine ⟨fun h7 h8 h9 => ?_, ?_, ?_⟩
  · exact glsDrawViews_screen env (glsSetViewportScreenCoords ctx x₂ y₂) mode swap_views
      view_textures s x₁ y₁
      (by simp [view_indices, row_parity_exchange, column_parity_exchange, h7, h8, h9])
  · exact glsDrawViews_screen env (glsSetViewportScreenCoords ctx x₂ y₁) GLS_MODE_EVEN_ODD_ROWS
      swap_views view_textures s x₁ y₁
      (by simp [view_indices, row_parity_exchange, column_parity_exchange,
        glsSetViewportScreenCoords])
  · exact glsDrawViews_screen env (glsSetViewportScreenCoords ctx x₁ y₂)
      GLS_MODE_EVEN_ODD_COLUMNS swap_views view_textures s x₁ y₁
      (by simp [view_indices, row_parity_exchange, column_parity_exchange,
        glsSetViewportScreenCoords])

/-- The mode `GLS_MODE_LEFT_RIGHT` at the screen coordinates (-7, 3) and (300, 200). -/
theorem glsSetViewportScreenCoords_influence_witness :
    glsDrawViews sample_env (glsSetViewportScreenCoords sample_ctx (-7) 3) GLS_MODE_LEFT_RIGHT
        false (5, 6) sample_gl
      = (glsDrawViews sample_env (glsSetViewportScreenCoords sample_ctx 300 200)
          GLS_MODE_LEFT_RIGHT false (5, 6) sample_gl).map
          (fun r => (glsSetViewportScreenCoords r.1 (-7) 3, r.2)) :=
  (glsSetViewportScreenCoords_influence sample_env sample_ctx GLS_MODE_LEFT_RIGHT false (5, 6)
    sample_gl (-7) 3 300 200).1 (by decide) (by decide) (by decide)

/-- Claim C14.  In the mode `GLS_MODE_LEFT_RIGHT` with the viewport (x, y, W, H), `W >= 0`,
a call of `glsDrawViews` that returns draws two quads: the left view, with `channel = 0`,
into (x, y, W / 2, H), and the right view, with `channel = 1`, into
(x + W / 2, y, W - W / 2, H), where `/` rounds down.  The two regions have widths that are
not negative, the first ends where the second begins and the second ends at the right
edge of the viewport.  The call returns when memory is there and the shader compiles and
links.  For `W = 801` the widths are 400 and 401. -/
theorem glsDrawViews_left_right (env : Env) (ctx : GLScontext) (swap_views : Bool)
    (view_textures : Nat × Nat) (s : GLstate)
    (hvt : ¬ (at2 view_textures 0 = 0 ∧ at2 view_textures 1 = 0))
    (hW : 0 ≤ s.viewport.width) :
    (∀ ctx' s',
      glsDrawViews env ctx GLS_MODE_LEFT_RIGHT swap_views view_textures s = .ok (ctx', s') →
      ∃ q₀ q₁, quads (issued s s') = [q₀, q₁]
        ∧ q₀.channel = 0
        ∧ q₀.viewport = ⟨s.viewport.x, s.viewport.y, s.viewport.width / 2, s.viewport.height⟩
        ∧ q₁.channel = 1
        ∧ q₁.viewport = ⟨s.viewport.x + s.viewport.width / 2, s.viewport.y,
            s.viewport.width - s.viewport.width / 2, s.viewport.height⟩
        ∧ q₀.unit0 = (bound_textures ctx GLS_MODE_LEFT_RIGHT swap_views view_textures s.viewport).1
        ∧ q₁.unit1 = (bound_textures ctx GLS_MODE_LEFT_RIGHT swap_views view_textures s.viewport).2
        ∧ 0 ≤ q₀.viewport.width ∧ 0 ≤ q₁.viewport.width
        ∧ q₀.viewport.x + q₀.viewport.width = q₁.viewport.x
        ∧ q₁.viewport.x + q₁.viewport.width = s.viewport.x + s.viewport.width)
    ∧ (env.works →
        ∃ r, glsDrawViews env ctx GLS_MODE_LEFT_RIGHT swap_views view_textures s = .ok r)
    ∧ ((801 : Int) / 2 = 400 ∧ (801 : Int) - 801 / 2 = 401) := by
  refine ⟨?_, glsDrawViews_returns env ctx _ swap_views view_textures s, by decide⟩
  intro ctx' s' h
  obtain ⟨t, pre, post, he, hpre, hpost, hb0, hb1, -⟩ := glsDrawViews_render hvt h
  rw [he, quads_issued_glsDrawViews hpre hpost, render_left_right,
    Int.tdiv_eq_ediv hW (by decide)]
  refine ⟨_, _, by simp [GLcall.quad]; exact ⟨rfl, rfl⟩, rfl, rfl, rfl, rfl, hb0, hb1, ?_, ?_, rfl, ?_⟩
  · show 0 ≤ s.viewport.width / 2
    omega
  · show 0 ≤ s.viewport.width - s.viewport.width / 2
    omega
  · show s.viewport.x + s.viewport.width / 2 + (s.viewport.width - s.viewport.width / 2)
      = s.viewport.x + s.viewport.width
    omega

/-- The viewport (10, 20, 801, 721): the left view goes to (10, 20, 400, 721) and the
right view to (410, 20, 401, 721). -/
theorem glsDrawViews_left_right_witness :
    ¬ (at2 ((5, 6) : Nat × Nat) 0 = 0 ∧ at2 ((5, 6) : Nat × Nat) 1 = 0)
    ∧ 0 ≤ sample_odd_gl.viewport.width
    ∧ sample_env.works
    ∧ ∃ ctx' s' q₀ q₁,
        glsDrawViews sample_env sample_ctx GLS_MODE_LEFT_RIGHT false (5, 6) sample_odd_gl
          = .ok (ctx', s')
        ∧ quads (issued sample_odd_gl s') = [q₀, q₁]
        ∧ q₀.channel = 0 ∧ q₀.viewport = ⟨10, 20, 400, 721⟩ ∧ q₀.unit0 = 5
        ∧ q₁.channel = 1 ∧ q₁.viewport = ⟨410, 20, 401, 721⟩ ∧ q₁.unit1 = 6 := by
  have hvt : ¬ (at2 ((5, 6) : Nat × Nat) 0 = 0 ∧ at2 ((5, 6) : Nat × Nat) 1 = 0) := by decide
  have hW : 0 ≤ sample_odd_gl.viewport.width := by decide
  have H := glsDrawViews_left_right sample_env sample_ctx false (5, 6) sample_odd_gl hvt hW
  obtain ⟨⟨ctx', s'⟩, h⟩ := H.2.1 sample_env_works
  obtain ⟨q₀, q₁, hq, hc0, hv0, hc1, hv1, hu0, hu1, -⟩ := H.1 ctx' s' h
  exact ⟨hvt, hW, sample_env_works, ctx', s', q₀, q₁, h, hq, hc0, hv0, hu0, hc1, hv1, hu1⟩

/-- Claim C15.  In the mode `GLS_MODE_TOP_BOTTOM` with the viewport (x, y, W, H), `H >= 0`,
a call of `glsDrawViews` that returns draws two quads: the left view, with `channel = 0`,
into the top region (x, y + H / 2, W, H - H / 2), and the right view, with `channel = 1`,
into the bottom region (x, y, W, H / 2), where `/` rounds down.  The two regions have
heights that are not negative, the bottom one ends where the top one begins and the top
one ends at the upper edge of the viewport.  The call returns when memory is there and the
shader compiles and links. -/
theorem glsDrawViews_top_bottom (env : Env) (ctx : GLScontext) (swap_views : Bool)
    (view_textures : Nat × Nat) (s : GLstate)
    (hvt : ¬ (at2 view_textures 0 = 0 ∧ at2 view_textures 1 = 0))
    (hH : 0 ≤ s.viewport.height) :
    (∀ ctx' s',
      glsDrawViews env ctx GLS_MODE_TOP_BOTTOM swap_views view_textures s = .ok (ctx', s') →
      ∃ q₀ q₁, quads (issued s s') = [q₀, q₁]
        ∧ q₀.channel = 0
        ∧ q₀.viewport = ⟨s.viewport.x, s.viewport.y + s.viewport.height / 2, s.viewport.width,
            s.viewport.height - s.viewport.height / 2⟩
        ∧ q₁.channel = 1
        ∧ q₁.viewport = ⟨s.viewport.x, s.viewport.y, s.viewport.width, s.viewport.height / 2⟩
        ∧ q₀.unit0 = (bound_textures ctx GLS_MODE_TOP_BOTTOM swap_views view_textures s.viewport).1
        ∧ q₁.unit1 = (bound_textures ctx GLS_MODE_TOP_BOTTOM swap_views view_textures s.viewport).2
        ∧ 0 ≤ q₀.viewport.height ∧ 0 ≤ q₁.viewport.height
        ∧ q₁.viewport.y + q₁.viewport.height = q₀.viewport.y
        ∧ q₀.viewport.y + q₀.viewport.height = s.viewport.y + s.viewport.height)
    ∧ (env.works →
        ∃ r, glsDrawViews env ctx GLS_MODE_TOP_BOTTOM swap_views view_textures s = .ok r) := by
  refine ⟨?_, glsDrawViews_returns env ctx _ swap_views view_textures s⟩
  intro ctx' s' h
  obtain ⟨t, pre, post, he, hpre, hpost, hb0, hb1, -⟩ := glsDrawViews_render hvt h
  rw [he, quads_issued_glsDrawViews hpre hpost, render_top_bottom,
    Int.tdiv_eq_ediv hH (by decide)]
  refine ⟨_, _, by simp [GLcall.quad]; exact ⟨rfl, rfl⟩, rfl, rfl, rfl, rfl, hb0, hb1, ?_, ?_, rfl, ?_⟩
  · show 0 ≤ s.viewport.height - s.viewport.height / 2
    omega
  · show 0 ≤ s.viewport.height / 2
    omega
  · show s.viewport.y + s.viewport.height / 2 + (s.viewport.height - s.viewport.height / 2)
      = s.viewport.y + s.viewport.height
    omega

/-- The viewport (10, 20, 801, 721): the left view goes to (10, 380, 801, 361) and the
right view to (10, 20, 801, 360). -/
theorem glsDrawViews_top_bottom_witness :
    ¬ (at2 ((5, 6) : Nat × Nat) 0 = 0 ∧ at2 ((5, 6) : Nat × Nat) 1 = 0)
    ∧ 0 ≤ sample_odd_gl.viewport.height
    ∧ sample_env.works
    ∧ ∃ ctx' s' q₀ q₁,
        glsDrawViews sample_env sample_ctx GLS_MODE_TOP_BOTTOM false (5, 6) sample_odd_gl
          = .ok (ctx', s')
        ∧ quads (issued sample_odd_gl s') = [q₀, q₁]
        ∧ q₀.channel = 0 ∧ q₀.viewport = ⟨10, 380, 801, 361⟩ ∧ q₀.unit0 = 5
        ∧ q₁.channel = 1 ∧ q₁.viewport = ⟨10, 20, 801, 360⟩ ∧ q₁.unit1 = 6 := by
  have hvt : ¬ (at2 ((5, 6) : Nat × Nat) 0 = 0 ∧ at2 ((5, 6) : Nat × Nat) 1 = 0) := by decide
  have hH : 0 ≤ sample_odd_gl.viewport.height := by decide
  have H := glsDrawViews_top_bottom sample_env sample_ctx false (5, 6) sample_odd_gl hvt hH
  obtain ⟨⟨ctx', s'⟩, h⟩ := H.2 sample_env_works
  obtain ⟨q₀, q₁, hq, hc0, hv0, hc1, hv1, hu0, hu1, -⟩ := H.1 ctx' s' h
  exact ⟨hvt, hH, sample_env_works, ctx', s', q₀, q₁, h, hq, hc0, hv0, hu0, hc1, hv1, hu1⟩

/-- Claim C16.  In the mode `GLS_MODE_HDMI_FRAME_PACK` with the viewport (x, y, W, H),
`H >= 0`, a call of `glsDrawViews` that returns sets the viewport to the band of
`blankLines H` rows from `y + halfHeight H` on and calls `glClear`, draws the left view,
with `channel = 0`, into the region above the band, of height
`H - halfHeight H - blankLines H`, and draws the right view, with `channel = 1`, into the
rows from `y` to `y + halfHeight H`.  The three heights are not negative and add up
to `H`, each band beginning where the one below it ends.  The call returns when memory is
there and the shader compiles and links.  For `H = 720` there are 14 blank lines and both
views have 353 lines; for 1470 there are 30 blank lines between two views of 720 lines,
and for 2205 there are 45 blank lines between two views of 1080 lines. -/
theorem glsDrawViews_hdmi_frame_pack (env : Env) (ctx : GLScontext) (swap_views : Bool)
    (view_textures : Nat × Nat) (s : GLstate)
    (hvt : ¬ (at2 view_textures 0 = 0 ∧ at2 view_textures 1 = 0))
    (hH : 0 ≤ s.viewport.height) :
    (∀ ctx' s',
      glsDrawViews env ctx GLS_MODE_HDMI_FRAME_PACK swap_views view_textures s = .ok (ctx', s') →
      ∃ (pre post : List GLcall) (q₀ q₁ : Quad),
        issued s s' = pre ++
          [GLcall.glViewport s.viewport.x (s.viewport.y + halfHeight s.viewport.height)
             s.viewport.width (blankLines s.viewport.height),
           GLcall.glClear true false,
           GLcall.glViewport s.viewport.x
             (s.viewport.y + halfHeight s.viewport.height + blankLines s.viewport.height)
             s.viewport.width
             (s.viewport.height - halfHeight s.viewport.height - blankLines s.viewport.height),
           GLcall.glUniform1f ctx'.prg "channel" 0,
           GLcall.draw_quad q₀,
           GLcall.glViewport s.viewport.x s.viewport.y s.viewport.width
             (halfHeight s.viewport.height),
           GLcall.glUniform1f ctx'.prg "channel" 1,
           GLcall.draw_quad q₁] ++ post
        ∧ Only before_render_names pre ∧ Only restore_names post
        ∧ q₀.channel = 0
        ∧ q₀.viewport = ⟨s.viewport.x,
            s.viewport.y + halfHeight s.viewport.height + blankLines s.viewport.height,
            s.viewport.width,
            s.viewport.height - halfHeight s.viewport.height - blankLines s.viewport.height⟩
        ∧ q₁.channel = 1
        ∧ q₁.viewport = ⟨s.viewport.x, s.viewport.y, s.viewport.width,
            halfHeight s.viewport.height⟩
        ∧ q₀.unit0
          = (bound_textures ctx GLS_MODE_HDMI_FRAME_PACK swap_views view_textures s.viewport).1
        ∧ q₁.unit1
          = (bound_textures ctx GLS_MODE_HDMI_FRAME_PACK swap_views view_textures s.viewport).2)
    ∧ (0 ≤ halfHeight s.viewport.height ∧ 0 ≤ blankLines s.viewport.height
        ∧ 0 ≤ s.viewport.height - halfHeight s.viewport.height - blankLines s.viewport.height
        ∧ halfHeight s.viewport.height + blankLines s.viewport.height
            + (s.viewport.height - halfHeight s.viewport.height - blankLines s.viewport.height)
          = s.viewport.height)
    ∧ (env.works →
        ∃ r, glsDrawViews env ctx GLS_MODE_HDMI_FRAME_PACK swap_views view_textures s = .ok r)
    ∧ (blankLines 720 = 14 ∧ halfHeight 720 = 353 ∧ 720 - halfHeight 720 - blankLines 720 = 353)
    ∧ (blankLines 1470 = 30 ∧ halfHeight 1470 = 720
        ∧ 1470 - halfHeight 1470 - blankLines 1470 = 720)
    ∧ (blankLines 2205 = 45 ∧ halfHeight 2205 = 1080
        ∧ 2205 - halfHeight 2205 - blankLines 2205 = 1080) := by
  have hb : 0 ≤ s.viewport.height - Int.tdiv s.viewport.height 49 := by
    rw [Int.tdiv_eq_ediv hH (by decide)]
    omega
  have e₁ : Int.tdiv s.viewport.height 49 = blankLines s.viewport.height :=
    Int.tdiv_eq_ediv hH (by decide)
  have e₂ : Int.tdiv (s.viewport.height - Int.tdiv s.viewport.height 49) 2
      = halfHeight s.viewport.height := by
    rw [Int.tdiv_eq_ediv hb (by decide), e₁]
    rfl
  refine ⟨?_, ?_, glsDrawViews_returns env ctx _ swap_views view_textures s,
    by decide, by decide, by decide⟩
  · intro ctx' s' h
    obtain ⟨t, pre, post, he, hpre, hpost, hb0, hb1, -⟩ := glsDrawViews_render hvt h
    rw [render_hdmi_frame_pack, e₂, e₁] at he
    exact ⟨pre, post, _, _, he, hpre, hpost, rfl, rfl, rfl, rfl, hb0, hb1⟩
  · unfold halfHeight blankLines
    omega

/-- The viewport (0, 0, 1920, 2205): the band is (0, 1080, 1920, 45), the left view goes
to (0, 1125, 1920, 1080) and the right view to (0, 0, 1920, 1080). -/
theorem glsDrawViews_hdmi_frame_pack_witness :
    ¬ (at2 ((5, 6) : Nat × Nat) 0 = 0 ∧ at2 ((5, 6) : Nat × Nat) 1 = 0)
    ∧ 0 ≤ sample_hdmi_gl.viewport.height
    ∧ sample_env.works
    ∧ ∃ ctx' s' pre post q₀ q₁,
        glsDrawViews sample_env sample_ctx GLS_MODE_HDMI_FRAME_PACK false (5, 6) sample_hdmi_gl
          = .ok (ctx', s')
        ∧ issued sample_hdmi_gl s' = pre ++
            [GLcall.glViewport 0 1080 1920 45,
             GLcall.glClear true false,
             GLcall.glViewport 0 1125 1920 1080,
             GLcall.glUniform1f ctx'.prg "channel" 0,
             GLcall.draw_quad q₀,
             GLcall.glViewport 0 0 1920 1080,
             GLcall.glUniform1f ctx'.prg "channel" 1,
             GLcall.draw_quad q₁] ++ post
        ∧ Only before_render_names pre ∧ Only restore_names post
        ∧ q₀.channel = 0 ∧ q₀.viewport = ⟨0, 1125, 1920, 1080⟩ ∧ q₀.unit0 = 5
        ∧ q₁.channel = 1 ∧ q₁.viewport = ⟨0, 0, 1920, 1080⟩ ∧ q₁.unit1 = 6 := by
  have hvt : ¬ (at2 ((5, 6) : Nat × Nat) 0 = 0 ∧ at2 ((5, 6) : Nat × Nat) 1 = 0) := by decide
  have hH : 0 ≤ sample_hdmi_gl.viewport.height := by decide
  have H := glsDrawViews_hdmi_frame_pack sample_env sample_ctx false (5, 6) sample_hdmi_gl
    hvt hH
  obtain ⟨⟨ctx', s'⟩, h⟩ := H.2.2.1 sample_env_works
  obtain ⟨pre, post, q₀, q₁, he, hpre, hpost, hc0, hv0, hc1, hv1, hu0, hu1⟩ := H.1 ctx' s' h
  exact ⟨hvt, hH, sample_env_works, ctx', s', pre, post, q₀, q₁, h, he, hpre, hpost,
    hc0, hv0, hu0, hc1, hv1, hu1⟩

/-- Claim C17.  When the context holds a program built for the mode and for the truth
value of `ghostbust > 0`, a call of `glsDrawViews` in this mode returns, whatever the
surroundings, calls none of the GL functions that make, compile, attach or link a shader
or program, and leaves `prg`, `prg_mode` and `prg_ghostbust` as they are.  A call of
`glsSetCrosstalkGhostbusting` that keeps the truth value of `ghostbust > 0` keeps the
program cached, whatever the values of r, g and b; so after a call of `glsDrawViews`
with a texture given that returns, a second call in the same mode, after such a change of
the settings, builds nothing. -/
theorem glsDrawViews_reuses_program (env env₂ : Env) (ctx : GLScontext) (mode : GLSmode)
    (swap_views swap_views₂ : Bool) (view_textures view_textures₂ : Nat × Nat) (s s₂ : GLstate)
    (r g b ghostbust : ℚ) :
    (program_cached ctx mode →
      ∃ ctx' s', glsDrawViews env ctx mode swap_views view_textures s = .ok (ctx', s')
        ∧ ctx'.prg = ctx.prg ∧ ctx'.prg_mode = ctx.prg_mode
        ∧ ctx'.prg_ghostbust = ctx.prg_ghostbust
        ∧ ∀ c ∈ issued s s', c.name ∉ build_names)
    ∧ (program_cached ctx mode → ((0 < ghostbust) ↔ (0 < ctx.ghostbust)) →
        program_cached (glsSetCrosstalkGhostbusting ctx r g b ghostbust) mode)
    ∧ (¬ (at2 view_textures 0 = 0 ∧ at2 view_textures 1 = 0) →
        ((0 < ghostbust) ↔ (0 < ctx.ghostbust)) →
        ∀ ctx' s', glsDrawViews env ctx mode swap_views view_textures s = .ok (ctx', s') →
          ∃ ctx'' s'',
            glsDrawViews env₂ (glsSetCrosstalkGhostbusting ctx' r g b ghostbust) mode
                swap_views₂ view_textures₂ s₂ = .ok (ctx'', s'')
            ∧ ctx''.prg = ctx'.prg ∧ ctx''.prg_mode = ctx'.prg_mode
            ∧ ctx''.prg_ghostbust = ctx'.prg_ghostbust
            ∧ ∀ c ∈ issued s₂ s'', c.name ∉ build_names) := by
  have hno : ∀ {l : List GLcall}, Only cached_call_names l → ∀ c ∈ l, c.name ∉ build_names := by
    intro l hl c hc
    have hd : ∀ n ∈ cached_call_names, n ∉ build_names := by decide
    exact hd _ (hl c hc)
  have hset : ∀ c : GLScontext, program_cached c mode → ((0 < ghostbust) ↔ (0 < c.ghostbust)) →
      program_cached (glsSetCrosstalkGhostbusting c r g b ghostbust) mode :=
    fun c hk hg =>
      (@program_cached_congr c (glsSetCrosstalkGhostbusting c r g b ghostbust) mode rfl rfl rfl
        hg).mpr hk
  refine ⟨fun hk => ?_, hset ctx, fun hvt hg ctx' s' h => ?_⟩
  · obtain ⟨ctx', s', h, p1, p2, p3, ho⟩ :=
      glsDrawViews_cached env ctx mode swap_views view_textures s hk
    exact ⟨ctx', s', h, p1, p2, p3, hno ho⟩
  · obtain ⟨e, -, -, -, hk⟩ := glsDrawViews_settings h
    obtain ⟨ctx'', s'', h₂, p1, p2, p3, ho⟩ :=
      glsDrawViews_cached env₂ (glsSetCrosstalkGhostbusting ctx' r g b ghostbust) mode
        swap_views₂ view_textures₂ s₂ (hset ctx' (hk hvt) (by rw [e]; exact hg))
    exact ⟨ctx'', s'', h₂, p1, p2, p3, hno ho⟩

/-- A context that holds a program for `GLS_MODE_LEFT_RIGHT`, in surroundings where
nothing could be built; and two calls in the mode `GLS_MODE_CHECKERBOARD` between which
`ghostbust` goes from 1/2 to 3/4 and the crosstalk levels change. -/
theorem glsDrawViews_reuses_program_witness :
    program_cached sample_cached_ctx GLS_MODE_LEFT_RIGHT
    ∧ (∃ ctx' s', glsDrawViews sample_barren_env sample_cached_ctx GLS_MODE_LEFT_RIGHT false
          (5, 6) sample_gl = .ok (ctx', s')
        ∧ ctx'.prg = 2 ∧ ctx'.prg_mode = GLS_MODE_LEFT_RIGHT ∧ ctx'.prg_ghostbust = 0
        ∧ ∀ c ∈ issued sample_gl s', c.name ∉ build_names)
    ∧ ¬ (at2 ((5, 6) : Nat × Nat) 0 = 0 ∧ at2 ((5, 6) : Nat × Nat) 1 = 0)
    ∧ (((0 : ℚ) < 3 / 4) ↔ (0 < sample_ghostbust_ctx.ghostbust))
    ∧ (∀ ctx' s', glsDrawViews sample_env sample_ghostbust_ctx GLS_MODE_CHECKERBOARD false
          (5, 6) sample_gl = .ok (ctx', s') →
        ∃ ctx'' s'',
          glsDrawViews sample_barren_env (glsSetCrosstalkGhostbusting ctx' 1 1 1 (3 / 4))
              GLS_MODE_CHECKERBOARD true (7, 8) sample_odd_gl = .ok (ctx'', s'')
          ∧ ctx''.prg = ctx'.prg ∧ ctx''.prg_mode = ctx'.prg_mode
          ∧ ctx''.prg_ghostbust = ctx'.prg_ghostbust
          ∧ ∀ c ∈ issued sample_odd_gl s'', c.name ∉ build_names) := by
  have hg : ((0 : ℚ) < 3 / 4) ↔ (0 < sample_ghostbust_ctx.ghostbust) := by
    simp [sample_ghostbust_ctx, glsSetCrosstalkGhostbusting]
  exact ⟨by decide,
    (glsDrawViews_reuses_program sample_barren_env sample_barren_env sample_cached_ctx
      GLS_MODE_LEFT_RIGHT false false (5, 6) (5, 6) sample_gl sample_gl 0 0 0 0).1 (by decide),
    by decide, hg,
    (glsDrawViews_reuses_program sample_env sample_barren_env sample_ghostbust_ctx
      GLS_MODE_CHECKERBOARD false true (5, 6) (7, 8) sample_gl sample_odd_gl 1 1 1 (3 / 4)).2.2
      (by decide) hg⟩

/-- Claim C18.  A call of `glsDrawViews` deletes no program and no shader, whatever its
arguments.  After two calls on a new context, in the modes `GLS_MODE_MONO_LEFT` and
`GLS_MODE_MONO_RIGHT`, the context holds the program 4 while the programs 2 and 4 and
the shaders 1 and 3 are alive; `glsDestroyContext` then deletes the program 4 and its
shader 3 and leaves the program 2 and the shader 1 alive. -/
theorem glsDrawViews_keeps_old_programs :
    (∀ (env : Env) (ctx : GLScontext) (mode : GLSmode) (swap_views : Bool)
        (view_textures : Nat × Nat) (s : GLstate),
      deleted_by s (glsDrawViews env ctx mode swap_views view_textures s) = ([], []))
    ∧ programs_after (run_ops sample_ctx sample_gl sample_two_modes) = some (4, [2, 4], [1, 3])
    ∧ programs_after_destroy sample_env (run_ops sample_ctx sample_gl sample_two_modes)
        = some ([2], [1]) := by
  refine ⟨fun env ctx mode swap_views view_textures s => ?_, by decide, by decide⟩
  rcases h : glsDrawViews env ctx mode swap_views view_textures s with e | ⟨ctx', s'⟩
  · rfl
  · obtain ⟨h₁, h₂⟩ := deleted_of_only (glsDrawViews_only h) (by decide) (by decide)
    simp only [deleted_by, h₁, h₂]

/-- Claim C19.  The token `mode_val` put in place of `$mode`: each of the three modes that
interleave the views and of the fourteen anaglyph modes has the token `mode_` followed by
its name in lower case, which is not `mode_onechannel`; two such modes with the same token
are the same mode; every other mode has the token `mode_onechannel`, and the other modes
are `GLS_MODE_QUAD_BUFFER_STEREO`, `GLS_MODE_ALTERNATING`, `GLS_MODE_MONO_LEFT`,
`GLS_MODE_MONO_RIGHT`, `GLS_MODE_LEFT_RIGHT`, `GLS_MODE_TOP_BOTTOM`,
`GLS_MODE_HDMI_FRAME_PACK` and the values beyond the last enumerator. -/
theorem mode_val_tokens (m n : GLSmode) :
    (has_own_token m → (mode_val m).toList = mode_token m ∧ mode_val m ≠ "mode_onechannel")
    ∧ (has_own_token m → has_own_token n → mode_val m = mode_val n → m = n)
    ∧ (¬ has_own_token m → mode_val m = "mode_onechannel")
    ∧ (¬ has_own_token m ↔ (m = GLS_MODE_QUAD_BUFFER_STEREO ∨ m = GLS_MODE_ALTERNATING
          ∨ m = GLS_MODE_MONO_LEFT ∨ m = GLS_MODE_MONO_RIGHT ∨ m = GLS_MODE_LEFT_RIGHT
          ∨ m = GLS_MODE_TOP_BOTTOM ∨ m = GLS_MODE_HDMI_FRAME_PACK
          ∨ GLS_MODE_RED_BLUE_MONOCHROME < m)) := by
  have hr : ∀ k : GLSmode, has_own_token k → k ∈ List.range' 7 17 := by
    intro k hk
    rw [has_own_token_iff] at hk
    rw [List.mem_range']
    exact ⟨k - 7, by unfold GLSmode at *; omega, by unfold GLSmode at *; omega⟩
  refine ⟨fun hm => mode_val_own_token m (hr m hm),
    fun hm hn => mode_val_injective m (hr m hm) n (hr n hn), mode_val_onechannel m, ?_⟩
  rw [has_own_token_iff]
  simp only [GLS_MODE_QUAD_BUFFER_STEREO, GLS_MODE_ALTERNATING, GLS_MODE_MONO_LEFT,
    GLS_MODE_MONO_RIGHT, GLS_MODE_LEFT_RIGHT, GLS_MODE_TOP_BOTTOM, GLS_MODE_HDMI_FRAME_PACK,
    GLS_MODE_RED_BLUE_MONOCHROME]
  unfold GLSmode at *
  omega

/-- The modes `GLS_MODE_RED_CYAN_DUBOIS`, `GLS_MODE_CHECKERBOARD` and `GLS_MODE_TOP_BOTTOM`
and the value 24. -/
theorem mode_val_tokens_witness :
    has_own_token GLS_MODE_RED_CYAN_DUBOIS ∧ has_own_token GLS_MODE_CHECKERBOARD
    ∧ ¬ has_own_token GLS_MODE_TOP_BOTTOM ∧ ¬ has_own_token 24
    ∧ mode_val GLS_MODE_RED_CYAN_DUBOIS = "mode_red_cyan_dubois"
    ∧ (mode_val GLS_MODE_RED_CYAN_DUBOIS).toList = mode_token GLS_MODE_RED_CYAN_DUBOIS
    ∧ (mode_val GLS_MODE_RED_CYAN_DUBOIS = mode_val GLS_MODE_CHECKERBOARD →
        GLS_MODE_RED_CYAN_DUBOIS = GLS_MODE_CHECKERBOARD)
    ∧ mode_val GLS_MODE_TOP_BOTTOM = "mode_onechannel"
    ∧ mode_val 24 = "mode_onechannel" :=
  ⟨by decide, by decide, by decide, by decide, by decide,
   ((mode_val_tokens GLS_MODE_RED_CYAN_DUBOIS GLS_MODE_CHECKERBOARD).1 (by decide)).1,
   (mode_val_tokens GLS_MODE_RED_CYAN_DUBOIS GLS_MODE_CHECKERBOARD).2.1 (by decide) (by decide),
   (mode_val_tokens GLS_MODE_TOP_BOTTOM 0).2.2.1 (by decide),
   (mode_val_tokens 24 0).2.2.1 (by decide)⟩

/-- Claim C20, counterexample.  With the crosstalk levels 1/2, 1/4 and 1/8 and
`ghostbust = 1/2`, a call of `glsDrawViews` in the mode `GLS_MODE_LEFT_RIGHT`, which is no
anaglyph mode, sets the uniform `crosstalk` to (1/4, 1/8, 1/16), and a call in the
anaglyph mode `GLS_MODE_RED_CYAN_DUBOIS` issues no `glUniform3f` at all. -/
theorem crosstalk_set_in_left_right :
    ¬ is_anaglyph GLS_MODE_LEFT_RIGHT
    ∧ 0 < sample_ghostbust_ctx.ghostbust
    ∧ (∃ ctx' s', glsDrawViews sample_env sample_ghostbust_ctx GLS_MODE_LEFT_RIGHT false (5, 6)
          sample_gl = .ok (ctx', s')
        ∧ uniform3f_calls (issued sample_gl s')
            = [GLcall.glUniform3f 2 "crosstalk" (1 / 4) (1 / 8) (1 / 16)])
    ∧ is_anaglyph GLS_MODE_RED_CYAN_DUBOIS
    ∧ (∃ ctx' s', glsDrawViews sample_env sample_ghostbust_ctx GLS_MODE_RED_CYAN_DUBOIS false
          (5, 6) sample_gl = .ok (ctx', s')
        ∧ uniform3f_calls (issued sample_gl s') = []) := by
  have hg : (0 : ℚ) < sample_ghostbust_ctx.ghostbust := by
    simp [sample_ghostbust_ctx, glsSetCrosstalkGhostbusting]
  refine ⟨by decide, hg, ?_, by decide, ?_⟩
  · obtain ⟨⟨ctx', s'⟩, h⟩ := glsDrawViews_returns sample_env sample_ghostbust_ctx GLS_MODE_LEFT_RIGHT
      false (5, 6) sample_gl sample_env_works
    refine ⟨ctx', s', h, ?_⟩
    have hp : ctx'.prg = 2 := by
      obtain ⟨c₀, t₀, t₁, post, hm, hu, -, -, -, -⟩ :=
        @glsDrawViews_around_program _ _ _ _ _ (5, 6) _ _ (by decide) h
      have h₁ : (create_mask_textures sample_ghostbust_ctx GLS_MODE_LEFT_RIGHT
          (init_gl_things (backup_gl_state sample_gl))).1.prg = 0 := by decide
      have h₂ : (create_mask_textures sample_ghostbust_ctx GLS_MODE_LEFT_RIGHT
          (init_gl_things (backup_gl_state sample_gl))).2.names = 0 := by decide
      rw [hm] at h₁ h₂
      dsimp only at h₁ h₂
      obtain ⟨-, -, -, hmiss⟩ := update_program_spec hu
      obtain ⟨rfl, -⟩ := hmiss (fun hk => hk (Or.inl h₁))
      show t₀.names + 2 = 2
      rw [h₂]
    rw [glsDrawViews_crosstalk (by decide) h, if_pos ⟨by decide, hg⟩, hp]
    simp only [sample_ghostbust_ctx, glsSetCrosstalkGhostbusting]
    norm_num
  · obtain ⟨⟨ctx', s'⟩, h⟩ := glsDrawViews_returns sample_env sample_ghostbust_ctx
      GLS_MODE_RED_CYAN_DUBOIS false (5, 6) sample_gl sample_env_works
    refine ⟨ctx', s', h, ?_⟩
    rw [glsDrawViews_crosstalk (by decide) h, if_neg (fun hh => hh.1 (by decide))]

/-- Claim C20, amended.  A call of `glsDrawViews` with a texture given, which returns when
memory is there and the shader compiles and links, sets the uniform `crosstalk` exactly
when the mode is none of the fourteen anaglyph modes and `ghostbust > 0`: it then issues
one `glUniform3f`, with the crosstalk levels r, g and b each multiplied by `ghostbust`;
in an anaglyph mode, or with `ghostbust <= 0`, it issues no `glUniform3f`. -/
theorem glsDrawViews_sets_crosstalk (env : Env) (ctx : GLScontext) (mode : GLSmode)
    (swap_views : Bool) (view_textures : Nat × Nat) (s : GLstate)
    (hvt : ¬ (at2 view_textures 0 = 0 ∧ at2 view_textures 1 = 0)) :
    (env.works →
      ∃ r, glsDrawViews env ctx mode swap_views view_textures s = .ok r)
    ∧ ∀ ctx' s', glsDrawViews env ctx mode swap_views view_textures s = .ok (ctx', s') →
        (¬ is_anaglyph mode ∧ 0 < ctx.ghostbust →
          uniform3f_calls (issued s s')
            = [GLcall.glUniform3f ctx'.prg "crosstalk" (ctx.crosstalk_r * ctx.ghostbust)
                (ctx.crosstalk_g * ctx.ghostbust) (ctx.crosstalk_b * ctx.ghostbust)])
        ∧ (is_anaglyph mode ∨ ctx.ghostbust ≤ 0 → uniform3f_calls (issued s s') = []) := by
  refine ⟨fun hw => glsDrawViews_returns env ctx mode swap_views view_textures s hw,
    fun ctx' s' h => ⟨fun hc => ?_, fun hc => ?_⟩⟩
  · rw [glsDrawViews_crosstalk hvt h, if_pos hc]
  · rw [glsDrawViews_crosstalk hvt h, if_neg]
    rintro ⟨h₁, h₂⟩
    rcases hc with hc | hc
    · exact h₁ hc
    · exact absurd h₂ (not_lt.mpr hc)

/-- The mode `GLS_MODE_EVEN_ODD_ROWS` with the crosstalk levels 1/2, 1/4 and 1/8 and
`ghostbust = 1/2`. -/
theorem glsDrawViews_sets_crosstalk_witness :
    ¬ (at2 ((5, 6) : Nat × Nat) 0 = 0 ∧ at2 ((5, 6) : Nat × Nat) 1 = 0)
    ∧ sample_env.works
    ∧ (¬ is_anaglyph GLS_MODE_EVEN_ODD_ROWS ∧ 0 < sample_ghostbust_ctx.ghostbust)
    ∧ (∃ r, glsDrawViews sample_env sample_ghostbust_ctx GLS_MODE_EVEN_ODD_ROWS true (5, 6)
          sample_gl = .ok r)
    ∧ (∀ ctx' s', glsDrawViews sample_env sample_ghostbust_ctx GLS_MODE_EVEN_ODD_ROWS true (5, 6)
          sample_gl = .ok (ctx', s') →
        uniform3f_calls (issued sample_gl s')
          = [GLcall.glUniform3f ctx'.prg "crosstalk"
              (sample_ghostbust_ctx.crosstalk_r * sample_ghostbust_ctx.ghostbust)
              (sample_ghostbust_ctx.crosstalk_g * sample_ghostbust_ctx.ghostbust)
              (sample_ghostbust_ctx.crosstalk_b * sample_ghostbust_ctx.ghostbust)]) :=
  have hg : (0 : ℚ) < sample_ghostbust_ctx.ghostbust := by
    simp [sample_ghostbust_ctx, glsSetCrosstalkGhostbusting]
  ⟨by decide, sample_env_works, ⟨by decide, hg⟩,
   (glsDrawViews_sets_crosstalk sample_env sample_ghostbust_ctx GLS_MODE_EVEN_ODD_ROWS true
      (5, 6) sample_gl (by decide)).1 sample_env_works,
   fun ctx' s' h =>
     ((glsDrawViews_sets_crosstalk sample_env sample_ghostbust_ctx GLS_MODE_EVEN_ODD_ROWS true
        (5, 6) sample_gl (by decide)).2 ctx' s' h).1 ⟨by decide, hg⟩⟩

/-! ## Lemmas on the sync marker, the GL state, the camera and `str_replace` -/

set_option maxRecDepth 512

theorem glsCreateContext_ghostbust {env : Env} {uninit ctx : GLScontext}
    (h : glsCreateContext env uninit = some ctx) :
    ctx.ghostbust = 0 ∧ ctx.prg = 0 ∧ ctx.dlp_3d_ready_sync_buf = none
    ∧ ctx.dlp_3d_ready_sync_buf_size = 0 := by
  unfold glsCreateContext at h
  split_ifs at h
  simp only [Option.some.injEq] at h
  subst h
  exact ⟨rfl, rfl, rfl, rfl⟩

/-- A call of `glsDrawViews` that returns issues no `glUniform3f` when the mode is an
anaglyph mode or `ghostbust` is not positive. -/
theorem glsDrawViews_no_crosstalk {env : Env} {ctx ctx' : GLScontext} {mode : GLSmode}
    {swap_views : Bool} {vt : Nat × Nat} {s s' : GLstate}
    (hc : is_anaglyph mode ∨ ctx.ghostbust ≤ 0)
    (h : glsDrawViews env ctx mode swap_views vt s = .ok (ctx', s')) :
    uniform3f_calls (issued s s') = [] := by
  by_cases hvt : at2 vt 0 = 0 ∧ at2 vt 1 = 0
  · unfold glsDrawViews at h
    rw [if_pos hvt] at h
    simp only [Except.ok.injEq, Prod.mk.injEq] at h
    obtain ⟨-, rfl⟩ := h
    rw [@issued_of_log s (gl (.glClear true false) s) [GLcall.glClear true false] (by simp)]
    rfl
  · rw [glsDrawViews_crosstalk hvt h, if_neg]
    rintro ⟨h₁, h₂⟩
    rcases hc with hc | hc
    · exact h₁ hc
    · exact absurd h₂ (not_lt.mpr hc)

theorem fill_row_length (color : Nat) : ∀ (l : List Nat) (buf : List Nat),
    (l.foldl (fun b i => b.set i color) buf).length = buf.length
  | [], buf => rfl
  | i :: l, buf => by
    rw [List.foldl_cons, fill_row_length color l]
    exact List.length_set _ _ _

theorem fill_row_eq (color : Nat) (buf : List Nat) : ∀ n : Nat, n ≤ buf.length →
    fill_row buf n color = List.replicate n color ++ buf.drop n
  | 0, _ => by simp [fill_row]
  | n + 1, h => by
    have ih := fill_row_eq color buf n (by omega)
    have hstep : fill_row buf (n + 1) color = (fill_row buf n color).set n color := by
      simp [fill_row, List.range_succ, List.foldl_append]
    rw [hstep, ih]
    have hd : buf.drop n = buf[n] :: buf.drop (n + 1) := List.drop_eq_getElem_cons (by omega)
    rw [hd, List.set_append_right _ _ (by simp), List.length_replicate, Nat.sub_self,
      List.set_cons_zero, List.replicate_succ', List.append_assoc]
    rfl

theorem fill_row_take (color : Nat) (buf : List Nat) (n : Nat) (h : n ≤ buf.length) :
    (fill_row buf n color).take n = List.replicate n color := by
  rw [fill_row_eq color buf n h, List.take_left' (by simp)]

theorem marker_colors :
    ((0xff <<< 16 : Nat) = 0xff0000) ∧ ((0xff <<< 8 ||| 0xff : Nat) = 0x00ffff)
    ∧ ((0xff <<< 16 ||| 0xff <<< 8 : Nat) = 0xffff00) ∧ ((0xff <<< 8 : Nat) = 0x00ff00)
    ∧ ((0xff <<< 16 ||| 0xff : Nat) = 0xff00ff) := by
  decide

/-- The commands of `draw_sync_marker` when the scratch row has room for a row of pixels. -/
theorem draw_sync_marker_log (ctx : GLScontext) (mode : GLSmode) (viewport : Viewport)
    (buf : List Nat) (s : GLstate) (hn : Int.toNat viewport.width ≤ buf.length) :
    (draw_sync_marker ctx mode viewport buf s).1.length = buf.length
    ∧ (mode = GLS_MODE_LEFT_RIGHT →
        (draw_sync_marker ctx mode viewport buf s).2.log = s.log ++
          [GLcall.glWindowPos2i 0 0,
           GLcall.glDrawPixels viewport.width 1 (List.replicate (Int.toNat viewport.width)
             (if ctx.display_frame_counter % 2 = 0 then 0xff0000 else 0x00ffff)),
           GLcall.glWindowPos3f])
    ∧ (mode = GLS_MODE_TOP_BOTTOM →
        (draw_sync_marker ctx mode viewport buf s).2.log = s.log ++
          [GLcall.glWindowPos2i 0 0,
           GLcall.glDrawPixels viewport.width 1 (List.replicate (Int.toNat viewport.width)
             (if ctx.display_frame_counter % 2 = 0 then 0x0000ff else 0xffff00)),
           GLcall.glWindowPos2i 0 (Int.tdiv viewport.height 2),
           GLcall.glDrawPixels viewport.width 1 (List.replicate (Int.toNat viewport.width)
             (if ctx.display_frame_counter % 2 = 0 then 0x0000ff else 0xffff00)),
           GLcall.glWindowPos3f])
    ∧ (mode = GLS_MODE_ALTERNATING →
        (draw_sync_marker ctx mode viewport buf s).2.log = s.log ++
          [GLcall.glWindowPos2i 0 0,
           GLcall.glDrawPixels viewport.width 1 (List.replicate (Int.toNat viewport.width)
             (if ctx.display_frame_counter % 4 < 2 then 0x00ff00 else 0xff00ff)),
           GLcall.glWindowPos3f]) := by
  obtain ⟨c1, c2, c3, c4, c5⟩ := marker_colors
  refine ⟨?_, ?_, ?_, ?_⟩
  · unfold draw_sync_marker
    dsimp only
    split_ifs <;> simp only [fill_row, fill_row_length]
  · rintro rfl
    unfold draw_sync_marker
    dsimp only
    rw [if_pos rfl, fill_row_take _ _ _ hn, c1, c2]
    simp only [gl, GLstate.emit, List.append_assoc]
    rfl
  · rintro rfl
    unfold draw_sync_marker
    dsimp only
    rw [if_neg (by decide), if_pos rfl, fill_row_take _ _ _ hn, c3]
    simp only [gl, GLstate.emit, List.append_assoc]
    rfl
  · rintro rfl
    unfold draw_sync_marker
    dsimp only
    rw [if_neg (by decide), if_neg (by decide), if_pos rfl, fill_row_take _ _ _ hn, c4, c5]
    simp only [gl, GLstate.emit, List.append_assoc]
    rfl

/-- The call for a marker mode with the viewport at the origin: the scratch row is
managed, and the marker is drawn unless the row is the `NULL` pointer. -/
theorem glsDrawDLP3dReadySyncMarker_at_origin (env : Env) (ctx : GLScontext) (mode : GLSmode)
    (s : GLstate) (hm : is_marker_mode mode) (hx : s.viewport.x = 0) (hy : s.viewport.y = 0) :
    glsDrawDLP3dReadySyncMarker env ctx mode s
      = match (manage_sync_buf env ctx
            (sync_buf_required_size env s.viewport)).dlp_3d_ready_sync_buf with
        | none => .error .oom_abort
        | some buf =>
          .ok ({ manage_sync_buf env ctx (sync_buf_required_size env s.viewport) with
                 dlp_3d_ready_sync_buf := some (draw_sync_marker
                   (manage_sync_buf env ctx (sync_buf_required_size env s.viewport)) mode
                   s.viewport buf s).1 },
               (draw_sync_marker
                 (manage_sync_buf env ctx (sync_buf_required_size env s.viewport)) mode
                 s.viewport buf s).2) := by
  unfold glsDrawDLP3dReadySyncMarker
  have h1 : ¬ (mode ≠ GLS_MODE_LEFT_RIGHT ∧ mode ≠ GLS_MODE_TOP_BOTTOM
      ∧ mode ≠ GLS_MODE_ALTERNATING) := by
    unfold is_marker_mode at hm
    tauto
  have h2 : ¬ (s.viewport.x ≠ 0 ∨ s.viewport.y ≠ 0) := by
    rw [hx, hy]
    simp
  rw [if_neg h1]
  dsimp only
  rw [if_neg h2]

/-- The product of line 853 when it does not overflow. -/
theorem sync_buf_required_size_eq (env : Env) (viewport : Viewport) (hW : 0 ≤ viewport.width)
    (hw : 0 < env.sizeof_unsigned_int)
    (hfit : Int.toNat viewport.width * env.sizeof_unsigned_int < 2 ^ env.size_bits) :
    sync_buf_required_size env viewport = Int.toNat viewport.width * env.sizeof_unsigned_int := by
  unfold sync_buf_required_size
  have h1 : Int.toNat viewport.width < 2 ^ env.size_bits :=
    lt_of_le_of_lt (Nat.le_mul_of_pos_right _ hw) hfit
  have h2 : viewport.width % 2 ^ env.size_bits = viewport.width := by
    apply Int.emod_eq_of_lt hW
    have : ((Int.toNat viewport.width : Nat) : Int) < ((2 ^ env.size_bits : Nat) : Int) :=
      Int.ofNat_lt.mpr h1
    rw [Int.toNat_of_nonneg hW] at this
    exact_mod_cast this
  rw [h2, Nat.mod_eq_of_lt hfit]

theorem realloc_words_length (env : Env) (buf : Option (List Nat)) (size : Nat) :
    (realloc_words env buf size).length = size / env.sizeof_unsigned_int := by
  unfold realloc_words
  simp only [List.length_append, List.length_take, List.length_replicate]
  omega

/-- The scratch row after the step that manages it: the recorded size does not go
down, and it does not exceed the block when `sizeof(unsigned int)` divides it. -/
theorem manage_sync_buf_spec (env : Env) (ctx : GLScontext) (required_size : Nat)
    (hinv : sync_buf_fits env.sizeof_unsigned_int ctx)
    (hdvd : env.sizeof_unsigned_int ∣ required_size)
    (hsome : (manage_sync_buf env ctx required_size).dlp_3d_ready_sync_buf ≠ none) :
    sync_buf_fits env.sizeof_unsigned_int (manage_sync_buf env ctx required_size)
    ∧ ctx.dlp_3d_ready_sync_buf_size
        ≤ (manage_sync_buf env ctx required_size).dlp_3d_ready_sync_buf_size
    ∧ required_size ≤ (manage_sync_buf env ctx required_size).dlp_3d_ready_sync_buf_size := by
  unfold manage_sync_buf at hsome ⊢
  by_cases hlt : ctx.dlp_3d_ready_sync_buf_size < required_size
  · rw [if_pos hlt] at hsome ⊢
    by_cases hh : env.heap = true
    · refine ⟨?_, le_of_lt hlt, le_refl _⟩
      simp only [sync_buf_fits, sync_buf_words, if_pos hh, Option.getD_some,
        realloc_words_length]
      exact le_of_eq (Nat.div_mul_cancel hdvd).symm
    · simp [hh] at hsome
  · rw [if_neg hlt]
    exact ⟨hinv, le_refl _, not_lt.mp hlt⟩

theorem draw_sync_marker_length (ctx : GLScontext) (mode : GLSmode) (viewport : Viewport)
    (buf : List Nat) (s : GLstate) :
    (draw_sync_marker ctx mode viewport buf s).1.length = buf.length := by
  unfold draw_sync_marker
  dsimp only
  split_ifs <;> simp only [fill_row, fill_row_length]

theorem glsSubmitView_sync_buf (ctx : GLScontext) (view : GLSview) (s : GLstate) :
    (glsSubmitView ctx view s).1.dlp_3d_ready_sync_buf = ctx.dlp_3d_ready_sync_buf
    ∧ (glsSubmitView ctx view s).1.dlp_3d_ready_sync_buf_size
        = ctx.dlp_3d_ready_sync_buf_size := by
  unfold glsSubmitView
  by_cases h1 : at2 ctx.view_tex view.index = 0
  · simp only [h1, if_true]
    split_ifs <;> simp
  · simp only [h1, if_false]
    split_ifs <;> simp

theorem create_mask_textures_sync_buf (ctx : GLScontext) (mode : GLSmode) (s : GLstate) :
    (create_mask_textures ctx mode s).1.dlp_3d_ready_sync_buf = ctx.dlp_3d_ready_sync_buf
    ∧ (create_mask_textures ctx mode s).1.dlp_3d_ready_sync_buf_size
        = ctx.dlp_3d_ready_sync_buf_size := by
  unfold create_mask_textures
  by_cases h1 : mode = GLS_MODE_EVEN_ODD_ROWS ∧ ctx.even_odd_rows_mask_tex = 0 <;>
  by_cases h2 : mode = GLS_MODE_EVEN_ODD_COLUMNS ∧ ctx.even_odd_columns_mask_tex = 0 <;>
  by_cases h3 : mode = GLS_MODE_CHECKERBOARD ∧ ctx.checkerboard_mask_tex = 0 <;>
  simp [h1, h2, h3]

theorem glsDrawViews_sync_buf {env : Env} {ctx ctx' : GLScontext} {mode : GLSmode}
    {swap_views : Bool} {vt : Nat × Nat} {s s' : GLstate}
    (h : glsDrawViews env ctx mode swap_views vt s = .ok (ctx', s')) :
    ctx'.dlp_3d_ready_sync_buf = ctx.dlp_3d_ready_sync_buf
    ∧ ctx'.dlp_3d_ready_sync_buf_size = ctx.dlp_3d_ready_sync_buf_size := by
  by_cases hvt : at2 vt 0 = 0 ∧ at2 vt 1 = 0
  · unfold glsDrawViews at h
    rw [if_pos hvt] at h
    simp only [Except.ok.injEq, Prod.mk.injEq] at h
    obtain ⟨rfl, -⟩ := h
    exact ⟨rfl, rfl⟩
  · obtain ⟨c₀, t₀, t₁, post, hm, hu, -, -, -, -⟩ := glsDrawViews_around_program hvt h
    obtain ⟨p1, p2⟩ := create_mask_textures_sync_buf ctx mode
      (init_gl_things (backup_gl_state s))
    rw [hm] at p1 p2
    dsimp only at p1 p2
    obtain ⟨-, -, hhit, hmiss⟩ := update_program_spec hu
    by_cases hc : program_cached c₀ mode
    · obtain ⟨rfl, -⟩ := hhit hc
      exact ⟨p1, p2⟩
    · obtain ⟨rfl, -⟩ := hmiss hc
      exact ⟨p1, p2⟩

/-- The scratch row across a call of `glsDrawDLP3dReadySyncMarker` that returns. -/
theorem glsDrawDLP3dReadySyncMarker_sync_buf {env : Env} {ctx ctx' : GLScontext}
    {mode : GLSmode} {s s' : GLstate}
    (hdvd : env.sizeof_unsigned_int ∣ 2 ^ env.size_bits)
    (hinv : sync_buf_fits env.sizeof_unsigned_int ctx)
    (h : glsDrawDLP3dReadySyncMarker env ctx mode s = .ok (ctx', s')) :
    sync_buf_fits env.sizeof_unsigned_int ctx'
    ∧ ctx.dlp_3d_ready_sync_buf_size ≤ ctx'.dlp_3d_ready_sync_buf_size := by
  by_cases hm : is_marker_mode mode ∧ s.viewport.x = 0 ∧ s.viewport.y = 0
  · obtain ⟨hm, hx, hy⟩ := hm
    rw [glsDrawDLP3dReadySyncMarker_at_origin env ctx mode s hm hx hy] at h
    have hreq : env.sizeof_unsigned_int ∣ sync_buf_required_size env s.viewport :=
      (Nat.dvd_mod_iff hdvd).mpr (Dvd.intro_left _ rfl)
    cases hb : (manage_sync_buf env ctx
        (sync_buf_required_size env s.viewport)).dlp_3d_ready_sync_buf with
    | none => rw [hb] at h; exact absurd h (by simp)
    | some buf =>
      rw [hb] at h
      simp only [Except.ok.injEq, Prod.mk.injEq] at h
      obtain ⟨rfl, -⟩ := h
      obtain ⟨h1, h2, -⟩ := manage_sync_buf_spec env ctx _ hinv hreq (by rw [hb]; simp)
      refine ⟨?_, h2⟩
      simp only [sync_buf_fits, sync_buf_words, hb, Option.getD_some,
        draw_sync_marker_length] at h1 ⊢
      exact h1
  · have : glsDrawDLP3dReadySyncMarker env ctx mode s = .ok (ctx, s) := by
      unfold glsDrawDLP3dReadySyncMarker
      unfold is_marker_mode at hm
      by_cases h1 : mode ≠ GLS_MODE_LEFT_RIGHT ∧ mode ≠ GLS_MODE_TOP_BOTTOM
          ∧ mode ≠ GLS_MODE_ALTERNATING
      · rw [if_pos h1]
      · rw [if_neg h1]
        dsimp only
        rw [if_pos (by tauto)]
    rw [this] at h
    simp only [Except.ok.injEq, Prod.mk.injEq] at h
    obtain ⟨rfl, -⟩ := h
    exact ⟨hinv, le_refl _⟩

/-- The scratch row across any call that returns. -/
theorem GLSop.run_sync_buf {env : Env} {ctx ctx' : GLScontext} {s s' : GLstate} {op : GLSop}
    (hdvd : env.sizeof_unsigned_int ∣ 2 ^ env.size_bits)
    (hinv : sync_buf_fits env.sizeof_unsigned_int ctx)
    (h : op.run env ctx s = .ok (ctx', s')) :
    sync_buf_fits env.sizeof_unsigned_int ctx'
    ∧ ctx.dlp_3d_ready_sync_buf_size ≤ ctx'.dlp_3d_ready_sync_buf_size := by
  have key : ctx'.dlp_3d_ready_sync_buf = ctx.dlp_3d_ready_sync_buf
      ∧ ctx'.dlp_3d_ready_sync_buf_size = ctx.dlp_3d_ready_sync_buf_size →
      sync_buf_fits env.sizeof_unsigned_int ctx'
      ∧ ctx.dlp_3d_ready_sync_buf_size ≤ ctx'.dlp_3d_ready_sync_buf_size := by
    rintro ⟨e1, e2⟩
    refine ⟨?_, le_of_eq e2.symm⟩
    simp only [sync_buf_fits, sync_buf_words, e1, e2] at hinv ⊢
    exact hinv
  cases op with
  | glsClear =>
    simp only [GLSop.run, Except.ok.injEq, Prod.mk.injEq] at h
    obtain ⟨rfl, -⟩ := h
    apply key
    unfold Libgls.glsClear
    cases env.video_sync <;> exact ⟨rfl, rfl⟩
  | glsSubmitView v =>
    simp only [GLSop.run, Except.ok.injEq] at h
    apply key
    have := glsSubmitView_sync_buf ctx v s
    rw [h] at this
    exact this
  | glsSetViewportScreenCoords x y =>
    simp only [GLSop.run, Except.ok.injEq, Prod.mk.injEq] at h
    obtain ⟨rfl, -⟩ := h
    exact key ⟨rfl, rfl⟩
  | glsSetCrosstalkGhostbusting r g b gb =>
    simp only [GLSop.run, Except.ok.injEq, Prod.mk.injEq] at h
    obtain ⟨rfl, -⟩ := h
    exact key ⟨rfl, rfl⟩
  | glsDrawSubmittedViews mode sw => exact key (glsDrawViews_sync_buf h)
  | glsDrawViews mode sw vt => exact key (glsDrawViews_sync_buf h)
  | glsDrawDLP3dReadySyncMarker mode => exact glsDrawDLP3dReadySyncMarker_sync_buf hdvd hinv h
  | application f =>
    simp only [GLSop.run, Except.ok.injEq, Prod.mk.injEq] at h
    obtain ⟨rfl, -⟩ := h
    exact key ⟨rfl, rfl⟩

theorem run_ops_sync_buf (w : Nat) : ∀ (ops : List (Env × GLSop)) (ctx ctx' : GLScontext)
    (s s' : GLstate),
    (∀ e ∈ ops, e.1.sizeof_unsigned_int = w ∧ w ∣ 2 ^ e.1.size_bits) →
    sync_buf_fits w ctx → run_ops ctx s ops = .ok (ctx', s') →
    sync_buf_fits w ctx' ∧ ctx.dlp_3d_ready_sync_buf_size ≤ ctx'.dlp_3d_ready_sync_buf_size
  | [], ctx, ctx', s, s', _, hinv, h => by
    simp only [run_ops, Except.ok.injEq, Prod.mk.injEq] at h
    obtain ⟨rfl, -⟩ := h
    exact ⟨hinv, le_refl _⟩
  | (env, op) :: rest, ctx, ctx', s, s', hp, hinv, h => by
    unfold run_ops at h
    cases hr : op.run env ctx s with
    | error e => rw [hr] at h; exact absurd h (by simp)
    | ok r =>
      obtain ⟨c, t⟩ := r
      rw [hr] at h
      dsimp only at h
      obtain ⟨hw, hd⟩ := hp (env, op) (List.mem_cons_self _ _)
      dsimp only at hw hd
      subst hw
      obtain ⟨h1, h2⟩ := GLSop.run_sync_buf hd hinv hr
      obtain ⟨h3, h4⟩ := run_ops_sync_buf _ rest c ctx' t s'
        (fun e he => hp e (List.mem_cons_of_mem _ he)) h1 h
      exact ⟨h3, le_trans h2 h4⟩

/-- The test of line 854, and what the scratch row is afterwards: the `NULL` pointer
when `realloc` was called and failed, or when it was not called and the row was the
`NULL` pointer before. -/
theorem manage_sync_buf_none (env : Env) (ctx : GLScontext) (required_size : Nat) :
    (manage_sync_buf env ctx required_size).dlp_3d_ready_sync_buf = none
      ↔ ((ctx.dlp_3d_ready_sync_buf_size < required_size ∧ env.heap = false)
        ∨ (required_size ≤ ctx.dlp_3d_ready_sync_buf_size
            ∧ ctx.dlp_3d_ready_sync_buf = none)) := by
  unfold manage_sync_buf
  by_cases hlt : ctx.dlp_3d_ready_sync_buf_size < required_size
  · rw [if_pos hlt]
    cases hh : env.heap <;> simp [hlt, not_le.mpr hlt]
  · rw [if_neg hlt]
    simp [hlt, not_lt.mp hlt]

theorem glsDrawDLP3dReadySyncMarker_skips (env : Env) (ctx : GLScontext) (mode : GLSmode)
    (s : GLstate) (h : ¬ (is_marker_mode mode ∧ s.viewport.x = 0 ∧ s.viewport.y = 0)) :
    glsDrawDLP3dReadySyncMarker env ctx mode s = .ok (ctx, s) := by
  unfold glsDrawDLP3dReadySyncMarker
  unfold is_marker_mode at h
  by_cases h1 : mode ≠ GLS_MODE_LEFT_RIGHT ∧ mode ≠ GLS_MODE_TOP_BOTTOM
      ∧ mode ≠ GLS_MODE_ALTERNATING
  · rw [if_pos h1]
  · rw [if_neg h1]
    dsimp only
    rw [if_pos (by tauto)]

/-- The scratch row after line 857 has room for a row of pixels. -/
theorem manage_sync_buf_room (env : Env) (ctx : GLScontext) (viewport : Viewport)
    (hW : 0 ≤ viewport.width) (hw : 0 < env.sizeof_unsigned_int)
    (hfit : Int.toNat viewport.width * env.sizeof_unsigned_int < 2 ^ env.size_bits)
    (hinv : sync_buf_fits env.sizeof_unsigned_int ctx)
    (hsome : (manage_sync_buf env ctx
      (sync_buf_required_size env viewport)).dlp_3d_ready_sync_buf ≠ none) :
    sync_buf_fits env.sizeof_unsigned_int
        (manage_sync_buf env ctx (sync_buf_required_size env viewport))
    ∧ Int.toNat viewport.width * env.sizeof_unsigned_int
        ≤ (manage_sync_buf env ctx
            (sync_buf_required_size env viewport)).dlp_3d_ready_sync_buf_size
    ∧ Int.toNat viewport.width
        ≤ sync_buf_words (manage_sync_buf env ctx (sync_buf_required_size env viewport)) := by
  have hreq := sync_buf_required_size_eq env viewport hW hw hfit
  obtain ⟨h1, -, h3⟩ := manage_sync_buf_spec env ctx (sync_buf_required_size env viewport) hinv
    (by rw [hreq]; exact Dvd.intro_left _ rfl) hsome
  have h3' := le_of_eq_of_le hreq.symm h3
  refine ⟨h1, h3', ?_⟩
  unfold sync_buf_fits at h1
  exact Nat.le_of_mul_le_mul_right (le_trans h3' h1) hw

theorem backup_gl_state_stack (s : GLstate) :
    (backup_gl_state s).attrib_stack
      = ⟨s.viewport, s.active_texture, s.texture_binding_2d, s.draw_buffer⟩ :: s.attrib_stack := by
  simp only [backup_gl_state, gl_fields, glPushAttrib_fields]

theorem init_gl_things_stack (s : GLstate) :
    (init_gl_things s).attrib_stack = s.attrib_stack := by
  simp only [init_gl_things, gl_fields]

theorem create_mask_tex_stack (mask : List Nat) (s : GLstate) :
    (create_mask_tex mask s).2.attrib_stack = s.attrib_stack := by
  simp only [create_mask_tex, gl_fields, glGenTextures_fields, glBindTexture_fields]

theorem create_mask_textures_stack (ctx : GLScontext) (mode : GLSmode) (s : GLstate) :
    (create_mask_textures ctx mode s).2.attrib_stack = s.attrib_stack := by
  unfold create_mask_textures
  by_cases h1 : mode = GLS_MODE_EVEN_ODD_ROWS ∧ ctx.even_odd_rows_mask_tex = 0 <;>
  by_cases h2 : mode = GLS_MODE_EVEN_ODD_COLUMNS ∧ ctx.even_odd_columns_mask_tex = 0 <;>
  by_cases h3 : mode = GLS_MODE_CHECKERBOARD ∧ ctx.checkerboard_mask_tex = 0 <;>
  simp [h1, h2, h3, create_mask_tex_stack]

theorem update_program_stack {env : Env} {ctx ctx₁ : GLScontext} {mode : GLSmode}
    {s t : GLstate} (h : update_program env ctx mode s = .ok (ctx₁, t)) :
    t.attrib_stack = s.attrib_stack := by
  unfold update_program at h
  by_cases hc : ctx.prg = 0 ∨ ctx.prg_mode ≠ mode ∨ ctx.prg_ghostbust ≠ ghostbust_enabled ctx
  · rw [if_pos hc] at h
    split at h
    · exact absurd h (by simp)
    · split at h
      · exact absurd h (by simp)
      · rename_i shader s₁ hcomp
        simp only [] at h
        split at h
        · exact absurd h (by simp)
        · rename_i s₂ hlink
          simp only [Except.ok.injEq, Prod.mk.injEq] at h
          obtain ⟨-, rfl⟩ := h
          have h₁ : s₁.attrib_stack = s.attrib_stack := by
            unfold compile_fragment_shader at hcomp
            dsimp only at hcomp
            split_ifs at hcomp
            simp only [Except.ok.injEq, Prod.mk.injEq] at hcomp
            obtain ⟨-, rfl⟩ := hcomp
            simp only [gl_fields, glCreateShader_fields]
          have h₂ : s₂.attrib_stack = s₁.attrib_stack := by
            unfold link_program at hlink
            dsimp only at hlink
            split_ifs at hlink
            simp only [Except.ok.injEq] at hlink
            subst hlink
            simp only [gl_fields, glLinkProgram_fields, glCreateProgram_fields]
          rw [h₂, h₁]
  · rw [if_neg hc] at h
    simp only [Except.ok.injEq, Prod.mk.injEq] at h
    obtain ⟨-, rfl⟩ := h
    rfl

theorem bind_views_and_uniforms_stack (ctx : GLScontext) (mode : GLSmode) (vt : Nat × Nat)
    (viewport : Viewport) (lr : Int × Int) (s : GLstate) :
    (bind_views_and_uniforms ctx mode vt viewport lr s).attrib_stack = s.attrib_stack := by
  unfold bind_views_and_uniforms
  simp only [apply_ite GLstate.attrib_stack, gl_fields, glUseProgram_fields,
    glActiveTexture_fields, glBindTexture_fields, glUniform1f_fields, ite_self]

theorem render_stack (ctx : GLScontext) (mode : GLSmode) (viewport : Viewport) (s : GLstate) :
    (render ctx mode viewport s).attrib_stack = s.attrib_stack := by
  unfold render
  simp only [apply_ite GLstate.attrib_stack, gl_fields, draw_quad_fields, glUniform1f_fields,
    glDrawBuffer_fields, glActiveTexture_fields, glBindTexture_fields, glViewport_fields,
    ite_self]

/-- The state that `restore_gl_state` leaves when the attributes pushed by
`backup_gl_state` are on top of the stack. -/
theorem restore_gl_state_top (viewport : Viewport) (p u : Nat) (s : GLstate) (a : Attribs)
    (rest : List Attribs) (h : s.attrib_stack = a :: rest) :
    (restore_gl_state viewport p u s).viewport = viewport
    ∧ (restore_gl_state viewport p u s).current_program = p
    ∧ (restore_gl_state viewport p u s).active_texture = u
    ∧ (restore_gl_state viewport p u s).texture_binding_2d = a.texture_binding_2d
    ∧ (restore_gl_state viewport p u s).draw_buffer = a.draw_buffer
    ∧ (restore_gl_state viewport p u s).attrib_stack = rest := by
  have hp : ∀ t : GLstate, t.attrib_stack = a :: rest →
      (glPopAttrib t).texture_binding_2d = a.texture_binding_2d
      ∧ (glPopAttrib t).draw_buffer = a.draw_buffer
      ∧ (glPopAttrib t).attrib_stack = rest := by
    intro t ht
    unfold glPopAttrib
    rw [ht]
    exact ⟨rfl, rfl, rfl⟩
  have hs : (gl GLcall.glPopClientAttrib (gl GLcall.glPopMatrix (gl (GLcall.glMatrixMode
      GLenum.GL_MODELVIEW) (gl GLcall.glPopMatrix (gl (GLcall.glMatrixMode
      GLenum.GL_PROJECTION) s))))).attrib_stack = a :: rest := by
    simp only [gl_fields, h]
  obtain ⟨h1, h2, h3⟩ := hp _ hs
  unfold restore_gl_state
  simp only [glViewport_fields, glUseProgram_fields, glActiveTexture_fields, h1, h2, h3]
  exact ⟨trivial, trivial, trivial, trivial, trivial, trivial⟩

/-- A call of `glsDrawViews` that returns leaves the GL state it saved as it found it. -/
theorem glsDrawViews_restores {env : Env} {ctx ctx' : GLScontext} {mode : GLSmode}
    {swap_views : Bool} {vt : Nat × Nat} {s s' : GLstate}
    (h : glsDrawViews env ctx mode swap_views vt s = .ok (ctx', s')) :
    s'.viewport = s.viewport ∧ s'.current_program = s.current_program
    ∧ s'.active_texture = s.active_texture ∧ s'.texture_binding_2d = s.texture_binding_2d
    ∧ s'.draw_buffer = s.draw_buffer ∧ s'.attrib_stack = s.attrib_stack := by
  by_cases hvt : at2 vt 0 = 0 ∧ at2 vt 1 = 0
  · unfold glsDrawViews at h
    rw [if_pos hvt] at h
    simp only [Except.ok.injEq, Prod.mk.injEq] at h
    obtain ⟨-, rfl⟩ := h
    simp only [gl_fields]
    exact ⟨trivial, trivial, trivial, trivial, trivial, trivial⟩
  · obtain ⟨c₀, t₀, t₁, hm, hu, -, rfl, -⟩ := glsDrawViews_issued hvt h
    have h₀ : t₀.attrib_stack = ⟨s.viewport, s.active_texture, s.texture_binding_2d,
        s.draw_buffer⟩ :: s.attrib_stack := by
      have := create_mask_textures_stack ctx mode (init_gl_things (backup_gl_state s))
      rw [hm] at this
      rw [this, init_gl_things_stack, backup_gl_state_stack]
    have h₁ : (render ctx' mode s.viewport (bind_views_and_uniforms ctx' mode vt s.viewport
        (view_indices ctx mode swap_views vt s.viewport) t₁)).attrib_stack
        = ⟨s.viewport, s.active_texture, s.texture_binding_2d, s.draw_buffer⟩
          :: s.attrib_stack := by
      rw [render_stack, bind_views_and_uniforms_stack, update_program_stack hu, h₀]
    exact restore_gl_state_top _ _ _ _ _ _ h₁

/-- The vectors of `glsLookAt` named: when both lengths are not zero, the matrix has the
rows `right`, `right x forward` and `-forward`, and the translation is by the negated
position of the camera. -/
theorem glsLookAt_eq {K : Type} [Field K] [DecidableEq K] (sqrtf : K → K)
    (eyeX eyeY eyeZ centerX centerY centerZ upX upY upZ eyeSeparation : K) (view : GLSview)
    (hL : sqrtf (dot (centerX - eyeX, centerY - eyeY, centerZ - eyeZ)
      (centerX - eyeX, centerY - eyeY, centerZ - eyeZ)) ≠ 0)
    (hS : sqrtf (dot
      (cross (forward_vector sqrtf (eyeX, eyeY, eyeZ) (centerX, centerY, centerZ)) (upX, upY, upZ))
      (cross (forward_vector sqrtf (eyeX, eyeY, eyeZ) (centerX, centerY, centerZ))
        (upX, upY, upZ))) ≠ 0) :
    glsLookAt sqrtf eyeX eyeY eyeZ centerX centerY centerZ upX upY upZ eyeSeparation view
      = some
        ⟨lookat_matrix
          (right_vector sqrtf (eyeX, eyeY, eyeZ) (centerX, centerY, centerZ) (upX, upY, upZ))
          (cross (right_vector sqrtf (eyeX, eyeY, eyeZ) (centerX, centerY, centerZ)
            (upX, upY, upZ))
            (forward_vector sqrtf (eyeX, eyeY, eyeZ) (centerX, centerY, centerZ)))
          (forward_vector sqrtf (eyeX, eyeY, eyeZ) (centerX, centerY, centerZ)),
         if view = GLS_VIEW_LEFT then
           (-(eyeX - (right_vector sqrtf (eyeX, eyeY, eyeZ) (centerX, centerY, centerZ)
                (upX, upY, upZ)).1 * (eyeSeparation / 2)),
            -(eyeY - (right_vector sqrtf (eyeX, eyeY, eyeZ) (centerX, centerY, centerZ)
                (upX, upY, upZ)).2.1 * (eyeSeparation / 2)),
            -(eyeZ - (right_vector sqrtf (eyeX, eyeY, eyeZ) (centerX, centerY, centerZ)
                (upX, upY, upZ)).2.2 * (eyeSeparation / 2)))
         else
           (-(eyeX + (right_vector sqrtf (eyeX, eyeY, eyeZ) (centerX, centerY, centerZ)
                (upX, upY, upZ)).1 * (eyeSeparation / 2)),
            -(eyeY + (right_vector sqrtf (eyeX, eyeY, eyeZ) (centerX, centerY, centerZ)
                (upX, upY, upZ)).2.1 * (eyeSeparation / 2)),
            -(eyeZ + (right_vector sqrtf (eyeX, eyeY, eyeZ) (centerX, centerY, centerZ)
                (upX, upY, upZ)).2.2 * (eyeSeparation / 2)))⟩ := by
  have hL' : ¬ sqrtf ((centerX - eyeX) * (centerX - eyeX) + (centerY - eyeY) * (centerY - eyeY)
      + (centerZ - eyeZ) * (centerZ - eyeZ)) = 0 := hL
  unfold glsLookAt
  simp only []
  rw [if_neg hL']
  split
  · rename_i h
    exact absurd h hS
  · cases view <;> rfl

theorem dot_cross_left {K : Type} [Field K] (a b : K × K × K) : dot (cross a b) a = 0 := by
  simp only [dot, cross]
  ring

theorem dot_cross_right {K : Type} [Field K] (a b : K × K × K) : dot (cross a b) b = 0 := by
  simp only [dot, cross]
  ring

theorem dot_comm {K : Type} [Field K] (a b : K × K × K) : dot a b = dot b a := by
  simp only [dot]
  ring

/-- The identity of Lagrange. -/
theorem dot_cross_cross {K : Type} [Field K] (a b : K × K × K) :
    dot (cross a b) (cross a b) = dot a a * dot b b - dot a b * dot a b := by
  simp only [dot, cross]
  ring

theorem dot_normalize_left {K : Type} [Field K] (sqrtf : K → K) (a b : K × K × K) :
    dot (normalize sqrtf a) b = dot a b / sqrtf (dot a a) := by
  simp only [dot, normalize]
  ring

/-- A vector divided by its length has the length 1, when the square root is exact at
the square of the length and not zero. -/
theorem dot_normalize_self {K : Type} [Field K] (sqrtf : K → K) (a : K × K × K)
    (h : sqrtf (dot a a) * sqrtf (dot a a) = dot a a) (h0 : sqrtf (dot a a) ≠ 0) :
    dot (normalize sqrtf a) (normalize sqrtf a) = 1 := by
  rw [dot_normalize_left, dot_comm, dot_normalize_left, div_div, h]
  exact div_self (by rw [← h]; exact mul_ne_zero h0 h0)

/-- The three vectors `right`, `right x forward` and `forward` of `glsLookAt` have the
length 1 and are orthogonal to each other, and the matrix with the rows `right`,
`right x forward` and `-forward` has the determinant 1. -/
theorem right_up_forward_orthonormal {K : Type} [Field K] (sqrtf : K → K)
    (eye center up : K × K × K)
    (hv : sqrt_exact sqrtf (dot (vec_sub center eye) (vec_sub center eye)))
    (hL : sqrtf (dot (vec_sub center eye) (vec_sub center eye)) ≠ 0)
    (hs : sqrt_exact sqrtf (dot (cross (forward_vector sqrtf eye center) up)
      (cross (forward_vector sqrtf eye center) up)))
    (hS : sqrtf (dot (cross (forward_vector sqrtf eye center) up)
        (cross (forward_vector sqrtf eye center) up)) ≠ 0) :
    dot (right_vector sqrtf eye center up) (right_vector sqrtf eye center up) = 1
    ∧ dot (cross (right_vector sqrtf eye center up) (forward_vector sqrtf eye center))
        (cross (right_vector sqrtf eye center up) (forward_vector sqrtf eye center)) = 1
    ∧ dot (forward_vector sqrtf eye center) (forward_vector sqrtf eye center) = 1
    ∧ dot (right_vector sqrtf eye center up)
        (cross (right_vector sqrtf eye center up) (forward_vector sqrtf eye center)) = 0
    ∧ dot (right_vector sqrtf eye center up) (forward_vector sqrtf eye center) = 0
    ∧ dot (cross (right_vector sqrtf eye center up) (forward_vector sqrtf eye center))
        (forward_vector sqrtf eye center) = 0
    ∧ dot (right_vector sqrtf eye center up)
        (cross (cross (right_vector sqrtf eye center up) (forward_vector sqrtf eye center))
          (-(forward_vector sqrtf eye center).1, -(forward_vector sqrtf eye center).2.1,
           -(forward_vector sqrtf eye center).2.2)) = 1 := by
  have hf : dot (forward_vector sqrtf eye center) (forward_vector sqrtf eye center) = 1 :=
    dot_normalize_self sqrtf _ hv hL
  have hr : dot (right_vector sqrtf eye center up) (right_vector sqrtf eye center up) = 1 :=
    dot_normalize_self sqrtf _ hs hS
  have hrf : dot (right_vector sqrtf eye center up) (forward_vector sqrtf eye center) = 0 := by
    unfold right_vector
    rw [dot_normalize_left, dot_cross_left, zero_div]
  generalize right_vector sqrtf eye center up = s at hr hrf ⊢
  generalize forward_vector sqrtf eye center = f at hf hrf ⊢
  refine ⟨hr, ?_, hf, ?_, hrf, dot_cross_right s f, ?_⟩
  · rw [dot_cross_cross, hr, hf, hrf]
    ring
  · rw [dot_comm]
    exact dot_cross_left s f
  · obtain ⟨s1, s2, s3⟩ := s
    obtain ⟨f1, f2, f3⟩ := f
    simp only [dot, cross] at hr hf hrf ⊢
    linear_combination (f1 * f1 + f2 * f2 + f3 * f3) * hr
      - (s1 * f1 + s2 * f2 + s3 * f3) * hrf + hf

theorem sqrtf_ne_zero {K : Type} [Field K] (sqrtf : K → K) (x : K) (hx : x ≠ 0)
    (h : sqrtf x * sqrtf x = x) : sqrtf x ≠ 0 := by
  intro h0
  rw [h0, mul_zero] at h
  exact hx h.symm

theorem dot_self_ne_zero {K : Type} [LinearOrderedField K] (a : K × K × K)
    (h : a ≠ (0, 0, 0)) : dot a a ≠ 0 := by
  obtain ⟨a1, a2, a3⟩ := a
  intro h0
  simp only [dot] at h0
  have h1 : a1 = 0 := by nlinarith [mul_self_nonneg a1, mul_self_nonneg a2, mul_self_nonneg a3]
  have h2 : a2 = 0 := by nlinarith [mul_self_nonneg a1, mul_self_nonneg a2, mul_self_nonneg a3]
  have h3 : a3 = 0 := by nlinarith [mul_self_nonneg a1, mul_self_nonneg a2, mul_self_nonneg a3]
  exact h (by rw [h1, h2, h3])

theorem cross_normalize_ne_zero {K : Type} [Field K] (sqrtf : K → K) (a b : K × K × K)
    (h0 : sqrtf (dot a a) ≠ 0) (h : cross a b ≠ (0, 0, 0)) :
    cross (normalize sqrtf a) b ≠ (0, 0, 0) := by
  intro hc
  apply h
  simp only [cross, normalize, Prod.mk.injEq] at hc ⊢
  obtain ⟨c1, c2, c3⟩ := hc
  field_simp at c1 c2 c3
  exact ⟨c1, c2, c3⟩

/-- The two lengths of `glsLookAt` are not zero when `center` is not `eye`, `up` is not
parallel to `center - eye` and the square root is exact at the two squares. -/
theorem glsLookAt_lengths {K : Type} [LinearOrderedField K] (sqrtf : K → K)
    (eye center up : K × K × K) (hce : center ≠ eye)
    (hup : cross (vec_sub center eye) up ≠ (0, 0, 0))
    (hv : sqrt_exact sqrtf (dot (vec_sub center eye) (vec_sub center eye)))
    (hs : sqrt_exact sqrtf (dot (cross (forward_vector sqrtf eye center) up)
      (cross (forward_vector sqrtf eye center) up))) :
    sqrtf (dot (vec_sub center eye) (vec_sub center eye)) ≠ 0
    ∧ sqrtf (dot (cross (forward_vector sqrtf eye center) up)
        (cross (forward_vector sqrtf eye center) up)) ≠ 0 := by
  have hne : (vec_sub center eye) ≠ ((0 : K), (0 : K), (0 : K)) := by
    intro h
    simp only [vec_sub, Prod.mk.injEq, sub_eq_zero] at h
    exact hce (Prod.ext h.1 (Prod.ext h.2.1 h.2.2))
  have hL := sqrtf_ne_zero sqrtf _ (dot_self_ne_zero _ hne) hv
  refine ⟨hL, sqrtf_ne_zero sqrtf _ (dot_self_ne_zero _ ?_) hs⟩
  exact cross_normalize_ne_zero sqrtf _ up hL hup

/-- With the eye separation 0 and both lengths not zero, `glsLookAt` passes what
`gluLookAt` passes. -/
theorem glsLookAt_zero_separation {K : Type} [Field K] [DecidableEq K] (sqrtf : K → K)
    (eye center up : K × K × K) (view : GLSview)
    (hL : sqrtf (dot (vec_sub center eye) (vec_sub center eye)) ≠ 0)
    (hS : sqrtf (dot (cross (forward_vector sqrtf eye center) up)
        (cross (forward_vector sqrtf eye center) up)) ≠ 0) :
    glsLookAt sqrtf eye.1 eye.2.1 eye.2.2 center.1 center.2.1 center.2.2 up.1 up.2.1 up.2.2
        0 view
      = some (gluLookAt sqrtf eye.1 eye.2.1 eye.2.2 center.1 center.2.1 center.2.2
          up.1 up.2.1 up.2.2) := by
  obtain ⟨e1, e2, e3⟩ := eye
  obtain ⟨c1, c2, c3⟩ := center
  obtain ⟨u1, u2, u3⟩ := up
  rw [glsLookAt_eq sqrtf e1 e2 e3 c1 c2 c3 u1 u2 u3 0 view hL hS]
  unfold gluLookAt
  simp only []
  have hL' : ¬ sqrtf (dot (c1 - e1, c2 - e2, c3 - e3) (c1 - e1, c2 - e2, c3 - e3)) = 0 := hL
  rw [if_neg hL']
  have hS' : ¬ sqrtf (dot (cross (normalize sqrtf (c1 - e1, c2 - e2, c3 - e3)) (u1, u2, u3))
      (cross (normalize sqrtf (c1 - e1, c2 - e2, c3 - e3)) (u1, u2, u3))) = 0 := hS
  rw [if_neg hS']
  cases view <;> simp [right_vector, forward_vector, vec_sub, lookat_matrix]

theorem rat_sqrt_25 : Rat.sqrt 25 = 5 := by
  have h := Rat.sqrt_eq 5
  rw [abs_of_pos (by norm_num : (0 : ℚ) < 5)] at h
  rw [← h]
  norm_num

/-- Over the real numbers the square root is exact at every inner product of a vector
with itself. -/
theorem real_sqrt_exact (a : ℝ × ℝ × ℝ) : sqrt_exact Real.sqrt (dot a a) :=
  Real.mul_self_sqrt
    (add_nonneg (add_nonneg (mul_self_nonneg _) (mul_self_nonneg _)) (mul_self_nonneg _))

theorem sample_right_vector :
    forward_vector Rat.sqrt sample_eye sample_center = (0, 0, -1)
    ∧ right_vector Rat.sqrt sample_eye sample_center sample_up = (1, 0, 0)
    ∧ cross (right_vector Rat.sqrt sample_eye sample_center sample_up)
        (forward_vector Rat.sqrt sample_eye sample_center) = (0, 1, 0) := by
  have h1 : forward_vector Rat.sqrt sample_eye sample_center = (0, 0, -1) := by
    norm_num [sample_eye, sample_center, forward_vector, vec_sub, normalize, dot, rat_sqrt_25]
  have h2 : right_vector Rat.sqrt sample_eye sample_center sample_up = (1, 0, 0) := by
    rw [right_vector, h1]
    norm_num [sample_up, normalize, dot, cross]
  refine ⟨h1, h2, ?_⟩
  rw [h1, h2]
  norm_num [cross]

theorem sample_lookat_hypotheses :
    sample_center ≠ sample_eye
    ∧ cross (vec_sub sample_center sample_eye) sample_up ≠ (0, 0, 0)
    ∧ sqrt_exact Rat.sqrt
        (dot (vec_sub sample_center sample_eye) (vec_sub sample_center sample_eye))
    ∧ sqrt_exact Rat.sqrt
        (dot (cross (forward_vector Rat.sqrt sample_eye sample_center) sample_up)
          (cross (forward_vector Rat.sqrt sample_eye sample_center) sample_up)) := by
  refine ⟨by decide, ?_, ?_, ?_⟩
  · norm_num [sample_eye, sample_center, sample_up, vec_sub, cross]
  · norm_num [sample_eye, sample_center, vec_sub, sqrt_exact, dot, rat_sqrt_25]
  · rw [sample_right_vector.1]
    norm_num [sample_up, sqrt_exact, dot, cross]

/-- Claim C21.  In each of the fourteen anaglyph modes, whatever the ghostbusting and the
crosstalk levels are, a call of `glsDrawViews` that returns issues no `glUniform3f`, so
the uniform `crosstalk` is not set.  A context that `glsCreateContext` has just made has
`ghostbust = 0`, the text put in place of `$ghostbust` is `ghostbust_disabled`, and a call
of `glsDrawViews` on it sets the uniform in no mode.  The call returns when memory is
there and the shader compiles and links. -/
theorem glsDrawViews_anaglyph_no_ghostbusting (env : Env) (ctx uninit : GLScontext)
    (mode : GLSmode) (swap_views : Bool) (view_textures : Nat × Nat) (s : GLstate) :
    (is_anaglyph mode →
      ∀ ctx' s', glsDrawViews env ctx mode swap_views view_textures s = .ok (ctx', s') →
        uniform3f_calls (issued s s') = [])
    ∧ (glsCreateContext env uninit = some ctx →
        ctx.ghostbust = 0
        ∧ ghostbust_val ctx = "ghostbust_disabled"
        ∧ ∀ ctx' s', glsDrawViews env ctx mode swap_views view_textures s = .ok (ctx', s') →
            uniform3f_calls (issued s s') = [])
    ∧ (env.works → ∃ r, glsDrawViews env ctx mode swap_views view_textures s = .ok r) := by
  refine ⟨fun ha ctx' s' h => glsDrawViews_no_crosstalk (Or.inl ha) h, fun hn => ?_,
    glsDrawViews_returns env ctx mode swap_views view_textures s⟩
  obtain ⟨hg, -, -, -⟩ := glsCreateContext_ghostbust hn
  refine ⟨hg, ?_, fun ctx' s' h => glsDrawViews_no_crosstalk (Or.inr (le_of_eq hg)) h⟩
  unfold ghostbust_val
  rw [if_neg (by rw [hg]; exact lt_irrefl 0)]

/-- The mode `GLS_MODE_RED_CYAN_DUBOIS` with `ghostbust = 1/2`, and the mode
`GLS_MODE_LEFT_RIGHT` on a new context. -/
theorem glsDrawViews_anaglyph_no_ghostbusting_witness :
    is_anaglyph GLS_MODE_RED_CYAN_DUBOIS
    ∧ sample_env.works
    ∧ glsCreateContext sample_env sample_cached_ctx = some sample_new_ctx
    ∧ (∃ ctx' s', glsDrawViews sample_env sample_ghostbust_ctx GLS_MODE_RED_CYAN_DUBOIS false
          (5, 6) sample_gl = .ok (ctx', s')
        ∧ uniform3f_calls (issued sample_gl s') = [])
    ∧ ghostbust_val sample_new_ctx = "ghostbust_disabled"
    ∧ (∃ ctx' s', glsDrawViews sample_env sample_new_ctx GLS_MODE_LEFT_RIGHT false
          (5, 6) sample_gl = .ok (ctx', s')
        ∧ uniform3f_calls (issued sample_gl s') = []) := by
  have hn : glsCreateContext sample_env sample_cached_ctx = some sample_new_ctx := by decide
  have H₁ := glsDrawViews_anaglyph_no_ghostbusting sample_env sample_ghostbust_ctx
    sample_cached_ctx GLS_MODE_RED_CYAN_DUBOIS false (5, 6) sample_gl
  have H₂ := glsDrawViews_anaglyph_no_ghostbusting sample_env sample_new_ctx
    sample_cached_ctx GLS_MODE_LEFT_RIGHT false (5, 6) sample_gl
  obtain ⟨⟨c₁, s₁⟩, h₁⟩ := H₁.2.2 sample_env_works
  obtain ⟨⟨c₂, s₂⟩, h₂⟩ := H₂.2.2 sample_env_works
  exact ⟨by decide, sample_env_works, hn, ⟨c₁, s₁, h₁, H₁.1 (by decide) c₁ s₁ h₁⟩,
    (H₂.2.1 hn).2.1, ⟨c₂, s₂, h₂, (H₂.2.1 hn).2.2 c₂ s₂ h₂⟩⟩

/-- Claim C22.  For a mode other than `GLS_MODE_LEFT_RIGHT`, `GLS_MODE_TOP_BOTTOM` and
`GLS_MODE_ALTERNATING`, and for a viewport with `x` or `y` not zero,
`glsDrawDLP3dReadySyncMarker` returns with the context, the scratch row and its recorded
size included, and the GL state as they were: no command is issued, no pixel written. -/
theorem glsDrawDLP3dReadySyncMarker_no_op (env : Env) (ctx : GLScontext) (mode : GLSmode)
    (s : GLstate) :
    (mode ≠ GLS_MODE_LEFT_RIGHT → mode ≠ GLS_MODE_TOP_BOTTOM → mode ≠ GLS_MODE_ALTERNATING →
      glsDrawDLP3dReadySyncMarker env ctx mode s = .ok (ctx, s))
    ∧ (s.viewport.x ≠ 0 ∨ s.viewport.y ≠ 0 →
      glsDrawDLP3dReadySyncMarker env ctx mode s = .ok (ctx, s)) := by
  refine ⟨fun h1 h2 h3 => glsDrawDLP3dReadySyncMarker_skips env ctx mode s ?_,
    fun h => glsDrawDLP3dReadySyncMarker_skips env ctx mode s ?_⟩
  · unfold is_marker_mode
    tauto
  · tauto

/-- The mode `GLS_MODE_HDMI_FRAME_PACK`, and the mode `GLS_MODE_LEFT_RIGHT` with the
viewport at (10, 20). -/
theorem glsDrawDLP3dReadySyncMarker_no_op_witness :
    GLS_MODE_HDMI_FRAME_PACK ≠ GLS_MODE_LEFT_RIGHT
    ∧ GLS_MODE_HDMI_FRAME_PACK ≠ GLS_MODE_TOP_BOTTOM
    ∧ GLS_MODE_HDMI_FRAME_PACK ≠ GLS_MODE_ALTERNATING
    ∧ glsDrawDLP3dReadySyncMarker sample_env sample_ctx GLS_MODE_HDMI_FRAME_PACK sample_gl
        = .ok (sample_ctx, sample_gl)
    ∧ (sample_odd_gl.viewport.x ≠ 0 ∨ sample_odd_gl.viewport.y ≠ 0)
    ∧ glsDrawDLP3dReadySyncMarker sample_env sample_ctx GLS_MODE_LEFT_RIGHT sample_odd_gl
        = .ok (sample_ctx, sample_odd_gl) :=
  ⟨by decide, by decide, by decide,
   (glsDrawDLP3dReadySyncMarker_no_op sample_env sample_ctx GLS_MODE_HDMI_FRAME_PACK
      sample_gl).1 (by decide) (by decide) (by decide),
   by decide,
   (glsDrawDLP3dReadySyncMarker_no_op sample_env sample_ctx GLS_MODE_LEFT_RIGHT
      sample_odd_gl).2 (by decide)⟩

/-- Claim C23.  With the viewport at the origin, of width `W >= 0` and height `H >= 0`,
a scratch row whose recorded size does not exceed its block, and `W * sizeof(unsigned
int)` within the range of `size_t`, a call of `glsDrawDLP3dReadySyncMarker` that returns
draws rows of `W` pixels of one colour each: in the mode `GLS_MODE_LEFT_RIGHT` one row at
`y = 0`, `0xff0000` when the frame counter is even and `0x00ffff` when it is odd; in the
mode `GLS_MODE_TOP_BOTTOM` two rows, at `y = 0` and at `y = H / 2` rounded down, both
`0x0000ff` when the counter is even and both `0xffff00` when it is odd; in the mode
`GLS_MODE_ALTERNATING` one row at `y = 0`, `0x00ff00` when the counter modulo 4 is less
than 2 and `0xff00ff` otherwise.  The call returns when memory is there and `W > 0`. -/
theorem glsDrawDLP3dReadySyncMarker_rows (env : Env) (ctx : GLScontext) (mode : GLSmode)
    (s : GLstate) (hx : s.viewport.x = 0) (hy : s.viewport.y = 0)
    (hW : 0 ≤ s.viewport.width) (hH : 0 ≤ s.viewport.height)
    (hw : 0 < env.sizeof_unsigned_int)
    (hfit : Int.toNat s.viewport.width * env.sizeof_unsigned_int < 2 ^ env.size_bits)
    (hinv : sync_buf_fits env.sizeof_unsigned_int ctx) :
    (∀ ctx' s', glsDrawDLP3dReadySyncMarker env ctx mode s = .ok (ctx', s') →
      (mode = GLS_MODE_LEFT_RIGHT →
        issued s s' =
          [GLcall.glWindowPos2i 0 0,
           GLcall.glDrawPixels s.viewport.width 1 (List.replicate (Int.toNat s.viewport.width)
             (if ctx.display_frame_counter % 2 = 0 then 0xff0000 else 0x00ffff)),
           GLcall.glWindowPos3f])
      ∧ (mode = GLS_MODE_TOP_BOTTOM →
        issued s s' =
          [GLcall.glWindowPos2i 0 0,
           GLcall.glDrawPixels s.viewport.width 1 (List.replicate (Int.toNat s.viewport.width)
             (if ctx.display_frame_counter % 2 = 0 then 0x0000ff else 0xffff00)),
           GLcall.glWindowPos2i 0 (s.viewport.height / 2),
           GLcall.glDrawPixels s.viewport.width 1 (List.replicate (Int.toNat s.viewport.width)
             (if ctx.display_frame_counter % 2 = 0 then 0x0000ff else 0xffff00)),
           GLcall.glWindowPos3f])
      ∧ (mode = GLS_MODE_ALTERNATING →
        issued s s' =
          [GLcall.glWindowPos2i 0 0,
           GLcall.glDrawPixels s.viewport.width 1 (List.replicate (Int.toNat s.viewport.width)
             (if ctx.display_frame_counter % 4 < 2 then 0x00ff00 else 0xff00ff)),
           GLcall.glWindowPos3f]))
    ∧ (is_marker_mode mode → env.heap = true → 0 < s.viewport.width →
        ∃ r, glsDrawDLP3dReadySyncMarker env ctx mode s = .ok r) := by
  have hreq := sync_buf_required_size_eq env s.viewport hW hw hfit
  constructor
  · intro ctx' s' h
    have key : is_marker_mode mode →
        ∃ buf, (manage_sync_buf env ctx (sync_buf_required_size env s.viewport)).dlp_3d_ready_sync_buf
            = some buf
          ∧ Int.toNat s.viewport.width ≤ buf.length
          ∧ s' = (draw_sync_marker (manage_sync_buf env ctx
              (sync_buf_required_size env s.viewport)) mode s.viewport buf s).2 := by
      intro hm
      rw [glsDrawDLP3dReadySyncMarker_at_origin env ctx mode s hm hx hy] at h
      cases hb : (manage_sync_buf env ctx
          (sync_buf_required_size env s.viewport)).dlp_3d_ready_sync_buf with
      | none => rw [hb] at h; exact absurd h (by simp)
      | some buf =>
        rw [hb] at h
        simp only [Except.ok.injEq, Prod.mk.injEq] at h
        obtain ⟨-, rfl⟩ := h
        obtain ⟨-, -, h3⟩ := manage_sync_buf_room env ctx s.viewport hW hw hfit hinv
          (by rw [hb]; simp)
        simp only [sync_buf_words, hb, Option.getD_some] at h3
        exact ⟨buf, rfl, h3, rfl⟩
    have hc : (manage_sync_buf env ctx
        (sync_buf_required_size env s.viewport)).display_frame_counter
        = ctx.display_frame_counter := by
      unfold manage_sync_buf
      split_ifs <;> rfl
    refine ⟨fun hm => ?_, fun hm => ?_, fun hm => ?_⟩
    · obtain ⟨buf, -, hn, rfl⟩ := key (Or.inl hm)
      have := (draw_sync_marker_log (manage_sync_buf env ctx
        (sync_buf_required_size env s.viewport)) mode s.viewport buf s hn).2.1 hm
      rw [hc] at this
      exact issued_of_log this
    · obtain ⟨buf, -, hn, rfl⟩ := key (Or.inr (Or.inl hm))
      have := (draw_sync_marker_log (manage_sync_buf env ctx
        (sync_buf_required_size env s.viewport)) mode s.viewport buf s hn).2.2.1 hm
      rw [hc, Int.tdiv_eq_ediv hH (by decide)] at this
      exact issued_of_log this
    · obtain ⟨buf, -, hn, rfl⟩ := key (Or.inr (Or.inr hm))
      have := (draw_sync_marker_log (manage_sync_buf env ctx
        (sync_buf_required_size env s.viewport)) mode s.viewport buf s hn).2.2.2 hm
      rw [hc] at this
      exact issued_of_log this
  · intro hm hh hpos
    rw [glsDrawDLP3dReadySyncMarker_at_origin env ctx mode s hm hx hy]
    cases hb : (manage_sync_buf env ctx
        (sync_buf_required_size env s.viewport)).dlp_3d_ready_sync_buf with
    | some buf => exact ⟨_, rfl⟩
    | none =>
      exfalso
      rcases (manage_sync_buf_none env ctx _).mp hb with ⟨-, h2⟩ | ⟨h1, h2⟩
      · rw [hh] at h2
        exact absurd h2 (by decide)
      · rw [hreq] at h1
        unfold sync_buf_fits sync_buf_words at hinv
        rw [h2] at hinv
        simp only [Option.getD_none, List.length_nil, Nat.zero_mul, Nat.le_zero] at hinv
        rw [hinv] at h1
        have h0 : 0 < Int.toNat s.viewport.width := by omega
        have := Nat.mul_pos h0 hw
        omega

/-- The mode `GLS_MODE_TOP_BOTTOM` with a viewport of 4 x 721 pixels: the frame counter 4
gives two blue rows and the frame counter 5 two yellow rows, at `y = 0` and `y = 360`. -/
theorem glsDrawDLP3dReadySyncMarker_rows_witness :
    sample_marker_gl.viewport.x = 0 ∧ sample_marker_gl.viewport.y = 0
    ∧ 0 ≤ sample_marker_gl.viewport.width ∧ 0 ≤ sample_marker_gl.viewport.height
    ∧ 0 < sample_env.sizeof_unsigned_int
    ∧ Int.toNat sample_marker_gl.viewport.width * sample_env.sizeof_unsigned_int
        < 2 ^ sample_env.size_bits
    ∧ sync_buf_fits sample_env.sizeof_unsigned_int { sample_ctx with display_frame_counter := 4 }
    ∧ sync_buf_fits sample_env.sizeof_unsigned_int { sample_ctx with display_frame_counter := 5 }
    ∧ (∃ ctx' s', glsDrawDLP3dReadySyncMarker sample_env
          { sample_ctx with display_frame_counter := 4 } GLS_MODE_TOP_BOTTOM sample_marker_gl
          = .ok (ctx', s')
        ∧ issued sample_marker_gl s' =
          [GLcall.glWindowPos2i 0 0,
           GLcall.glDrawPixels 4 1 [0x0000ff, 0x0000ff, 0x0000ff, 0x0000ff],
           GLcall.glWindowPos2i 0 360,
           GLcall.glDrawPixels 4 1 [0x0000ff, 0x0000ff, 0x0000ff, 0x0000ff],
           GLcall.glWindowPos3f])
    ∧ (∃ ctx' s', glsDrawDLP3dReadySyncMarker sample_env
          { sample_ctx with display_frame_counter := 5 } GLS_MODE_TOP_BOTTOM sample_marker_gl
          = .ok (ctx', s')
        ∧ issued sample_marker_gl s' =
          [GLcall.glWindowPos2i 0 0,
           GLcall.glDrawPixels 4 1 [0xffff00, 0xffff00, 0xffff00, 0xffff00],
           GLcall.glWindowPos2i 0 360,
           GLcall.glDrawPixels 4 1 [0xffff00, 0xffff00, 0xffff00, 0xffff00],
           GLcall.glWindowPos3f]) := by
  have H₄ := glsDrawDLP3dReadySyncMarker_rows sample_env
    { sample_ctx with display_frame_counter := 4 } GLS_MODE_TOP_BOTTOM sample_marker_gl
    rfl rfl (by decide) (by decide) (by decide) (by decide) (by decide)
  have H₅ := glsDrawDLP3dReadySyncMarker_rows sample_env
    { sample_ctx with display_frame_counter := 5 } GLS_MODE_TOP_BOTTOM sample_marker_gl
    rfl rfl (by decide) (by decide) (by decide) (by decide) (by decide)
  obtain ⟨⟨c₄, s₄⟩, h₄⟩ := H₄.2 (by decide) rfl (by decide)
  obtain ⟨⟨c₅, s₅⟩, h₅⟩ := H₅.2 (by decide) rfl (by decide)
  exact ⟨rfl, rfl, by decide, by decide, by decide, by decide, by decide, by decide,
    ⟨c₄, s₄, h₄, (H₄.1 c₄ s₄ h₄).2.1 rfl⟩, ⟨c₅, s₅, h₅, (H₅.1 c₅ s₅ h₅).2.1 rfl⟩⟩

/-- Claim C24.  After a call of `glsDrawViews` or of `glsDrawSubmittedViews` that returns,
in every mode and also when both textures are zero, the viewport, the program in use, the
active texture unit and the texture bound in every unit are what they were before the
call.  The calls return when memory is there and the shader compiles and links. -/
theorem glsDrawViews_restores_gl_state (env : Env) (ctx : GLScontext) (mode : GLSmode)
    (swap_views : Bool) (view_textures : Nat × Nat) (s : GLstate) :
    (∀ ctx' s', glsDrawViews env ctx mode swap_views view_textures s = .ok (ctx', s') →
      s'.viewport = s.viewport ∧ s'.current_program = s.current_program
      ∧ s'.active_texture = s.active_texture
      ∧ s'.texture_binding_2d = s.texture_binding_2d)
    ∧ (∀ ctx' s', glsDrawSubmittedViews env ctx mode swap_views s = .ok (ctx', s') →
      s'.viewport = s.viewport ∧ s'.current_program = s.current_program
      ∧ s'.active_texture = s.active_texture
      ∧ s'.texture_binding_2d = s.texture_binding_2d)
    ∧ (env.works →
        (∃ r, glsDrawViews env ctx mode swap_views view_textures s = .ok r)
        ∧ ∃ r, glsDrawSubmittedViews env ctx mode swap_views s = .ok r) := by
  refine ⟨fun ctx' s' h => ?_, fun ctx' s' h => ?_, fun hw => ⟨?_, ?_⟩⟩
  · obtain ⟨h1, h2, h3, h4, -, -⟩ := glsDrawViews_restores h
    exact ⟨h1, h2, h3, h4⟩
  · obtain ⟨h1, h2, h3, h4, -, -⟩ := glsDrawViews_restores h
    exact ⟨h1, h2, h3, h4⟩
  · exact glsDrawViews_returns env ctx mode swap_views view_textures s hw
  · exact glsDrawViews_returns env ctx mode swap_views (submitted_view_textures ctx) s hw

/-- A GL state with the program 9 in use, the unit 1 active and the texture `u + 10` bound
in the unit `u`: the mode `GLS_MODE_CHECKERBOARD`, which binds a mask in the unit 2, the
mode `GLS_MODE_LEFT_RIGHT` without textures, and `glsDrawSubmittedViews` in the mode
`GLS_MODE_TOP_BOTTOM`. -/
theorem glsDrawViews_restores_gl_state_witness :
    sample_env.works
    ∧ (∃ ctx' s', glsDrawViews sample_env sample_ctx GLS_MODE_CHECKERBOARD false (5, 6)
          sample_busy_gl = .ok (ctx', s')
        ∧ s'.viewport = ⟨10, 20, 801, 721⟩ ∧ s'.current_program = 9 ∧ s'.active_texture = 1
        ∧ s'.texture_binding_2d = fun u => u + 10)
    ∧ (∃ ctx' s', glsDrawViews sample_env sample_ctx GLS_MODE_LEFT_RIGHT false (0, 0)
          sample_busy_gl = .ok (ctx', s')
        ∧ s'.viewport = ⟨10, 20, 801, 721⟩ ∧ s'.current_program = 9 ∧ s'.active_texture = 1
        ∧ s'.texture_binding_2d = fun u => u + 10)
    ∧ (∃ ctx' s', glsDrawSubmittedViews sample_env sample_ctx GLS_MODE_TOP_BOTTOM false
          sample_busy_gl = .ok (ctx', s')
        ∧ s'.viewport = ⟨10, 20, 801, 721⟩ ∧ s'.current_program = 9 ∧ s'.active_texture = 1
        ∧ s'.texture_binding_2d = fun u => u + 10) := by
  have H₁ := glsDrawViews_restores_gl_state sample_env sample_ctx GLS_MODE_CHECKERBOARD false
    (5, 6) sample_busy_gl
  have H₂ := glsDrawViews_restores_gl_state sample_env sample_ctx GLS_MODE_LEFT_RIGHT false
    (0, 0) sample_busy_gl
  have H₃ := glsDrawViews_restores_gl_state sample_env sample_ctx GLS_MODE_TOP_BOTTOM false
    (0, 0) sample_busy_gl
  obtain ⟨⟨c₁, s₁⟩, h₁⟩ := (H₁.2.2 sample_env_works).1
  obtain ⟨⟨c₂, s₂⟩, h₂⟩ := (H₂.2.2 sample_env_works).1
  obtain ⟨⟨c₃, s₃⟩, h₃⟩ := (H₃.2.2 sample_env_works).2
  exact ⟨sample_env_works, ⟨c₁, s₁, h₁, H₁.1 c₁ s₁ h₁⟩, ⟨c₂, s₂, h₂, H₂.1 c₂ s₂ h₂⟩,
    ⟨c₃, s₃, h₃, H₃.2.1 c₃ s₃ h₃⟩⟩

/-- Claim C25.  In exact arithmetic with `focalLength` not zero, `glsFrustum` passes to
`glFrustum` the bounds `left + d` and `right + d` for `GLS_VIEW_LEFT` and `left - d` and
`right - d` for `GLS_VIEW_RIGHT`, where `d = eyeSeparation / 2 * (zNear / focalLength)`,
and passes `bottom`, `top`, `zNear` and `zFar` on as they are; the width `right - left` is
the same for both views, and with the eye separation 0 the arguments of `glFrustum` are
those of `glsFrustum`. -/
theorem glsFrustum_shifts {K : Type} [Field K] [DecidableEq K]
    (left right bottom top zNear zFar focalLength eyeSeparation : K)
    (hf : focalLength ≠ 0) :
    glsFrustum left right bottom top zNear zFar focalLength eyeSeparation GLS_VIEW_LEFT
      = some ⟨left + eyeSeparation / 2 * (zNear / focalLength),
              right + eyeSeparation / 2 * (zNear / focalLength), bottom, top, zNear, zFar⟩
    ∧ glsFrustum left right bottom top zNear zFar focalLength eyeSeparation GLS_VIEW_RIGHT
      = some ⟨left - eyeSeparation / 2 * (zNear / focalLength),
              right - eyeSeparation / 2 * (zNear / focalLength), bottom, top, zNear, zFar⟩
    ∧ (right + eyeSeparation / 2 * (zNear / focalLength))
        - (left + eyeSeparation / 2 * (zNear / focalLength)) = right - left
    ∧ (right - eyeSeparation / 2 * (zNear / focalLength))
        - (left - eyeSeparation / 2 * (zNear / focalLength)) = right - left
    ∧ ∀ view, glsFrustum left right bottom top zNear zFar focalLength 0 view
        = some ⟨left, right, bottom, top, zNear, zFar⟩ := by
  refine ⟨?_, ?_, by ring, by ring, fun view => ?_⟩
  · unfold glsFrustum
    rw [if_neg hf]
    simp only [if_true, mul_div_assoc]
  · unfold glsFrustum
    rw [if_neg hf]
    simp only [mul_div_assoc]
    rfl
  · unfold glsFrustum
    rw [if_neg hf]
    cases view <;> simp

/-- The frustum from -1 to 1 with `zNear = 1`, the focal length 2 and the eye separation
1/2, for which `d = 1/8`. -/
theorem glsFrustum_shifts_witness :
    (2 : ℚ) ≠ 0
    ∧ glsFrustum (-1 : ℚ) 1 (-1) 1 1 10 2 (1 / 2) GLS_VIEW_LEFT
        = some ⟨-7 / 8, 9 / 8, -1, 1, 1, 10⟩
    ∧ glsFrustum (-1 : ℚ) 1 (-1) 1 1 10 2 (1 / 2) GLS_VIEW_RIGHT
        = some ⟨-9 / 8, 7 / 8, -1, 1, 1, 10⟩
    ∧ glsFrustum (-1 : ℚ) 1 (-1) 1 1 10 2 0 GLS_VIEW_RIGHT = some ⟨-1, 1, -1, 1, 1, 10⟩ := by
  have H := glsFrustum_shifts (-1 : ℚ) 1 (-1) 1 1 10 2 (1 / 2) (by norm_num)
  refine ⟨by norm_num, ?_, ?_, H.2.2.2.2 GLS_VIEW_RIGHT⟩
  · rw [H.1]
    norm_num
  · rw [H.2.1]
    norm_num

/-- Claim C26.  In exact arithmetic, when `center` is not `eye`, `up` is not parallel to
`center - eye` and the square root is exact at the two squared lengths, `glsLookAt`
passes the same matrix to `glMultMatrixf` for both views and translates by the negated
position `eye - eyeSeparation / 2 * right` for `GLS_VIEW_LEFT` and
`eye + eyeSeparation / 2 * right` for `GLS_VIEW_RIGHT`, where
`right = normalize(normalize(center - eye) x up)`; the two positions differ by
`eyeSeparation * right`, and `right` has the length 1; with the eye separation 0 both
views pass what `gluLookAt` passes. -/
theorem glsLookAt_camera_positions {K : Type} [LinearOrderedField K] (sqrtf : K → K)
    (eye center up : K × K × K) (eyeSeparation : K) (hce : center ≠ eye)
    (hup : cross (vec_sub center eye) up ≠ (0, 0, 0))
    (hv : sqrt_exact sqrtf (dot (vec_sub center eye) (vec_sub center eye)))
    (hs : sqrt_exact sqrtf (dot (cross (forward_vector sqrtf eye center) up)
      (cross (forward_vector sqrtf eye center) up))) :
    (∃ M : List K,
      glsLookAt sqrtf eye.1 eye.2.1 eye.2.2 center.1 center.2.1 center.2.2 up.1 up.2.1 up.2.2
          eyeSeparation GLS_VIEW_LEFT
        = some ⟨M,
            (-(eye.1 - eyeSeparation / 2 * (right_vector sqrtf eye center up).1),
             -(eye.2.1 - eyeSeparation / 2 * (right_vector sqrtf eye center up).2.1),
             -(eye.2.2 - eyeSeparation / 2 * (right_vector sqrtf eye center up).2.2))⟩
      ∧ glsLookAt sqrtf eye.1 eye.2.1 eye.2.2 center.1 center.2.1 center.2.2 up.1 up.2.1
          up.2.2 eyeSeparation GLS_VIEW_RIGHT
        = some ⟨M,
            (-(eye.1 + eyeSeparation / 2 * (right_vector sqrtf eye center up).1),
             -(eye.2.1 + eyeSeparation / 2 * (right_vector sqrtf eye center up).2.1),
             -(eye.2.2 + eyeSeparation / 2 * (right_vector sqrtf eye center up).2.2))⟩)
    ∧ ((eye.1 + eyeSeparation / 2 * (right_vector sqrtf eye center up).1)
          - (eye.1 - eyeSeparation / 2 * (right_vector sqrtf eye center up).1)
        = eyeSeparation * (right_vector sqrtf eye center up).1
      ∧ (eye.2.1 + eyeSeparation / 2 * (right_vector sqrtf eye center up).2.1)
          - (eye.2.1 - eyeSeparation / 2 * (right_vector sqrtf eye center up).2.1)
        = eyeSeparation * (right_vector sqrtf eye center up).2.1
      ∧ (eye.2.2 + eyeSeparation / 2 * (right_vector sqrtf eye center up).2.2)
          - (eye.2.2 - eyeSeparation / 2 * (right_vector sqrtf eye center up).2.2)
        = eyeSeparation * (right_vector sqrtf eye center up).2.2)
    ∧ dot (right_vector sqrtf eye center up) (right_vector sqrtf eye center up) = 1
    ∧ ∀ view, glsLookAt sqrtf eye.1 eye.2.1 eye.2.2 center.1 center.2.1 center.2.2 up.1 up.2.1
          up.2.2 0 view
        = some (gluLookAt sqrtf eye.1 eye.2.1 eye.2.2 center.1 center.2.1 center.2.2
            up.1 up.2.1 up.2.2) := by
  obtain ⟨hL, hS⟩ := glsLookAt_lengths sqrtf eye center up hce hup hv hs
  refine ⟨⟨lookat_matrix (right_vector sqrtf eye center up)
      (cross (right_vector sqrtf eye center up) (forward_vector sqrtf eye center))
      (forward_vector sqrtf eye center), ?_, ?_⟩, ⟨by ring, by ring, by ring⟩,
    (right_up_forward_orthonormal sqrtf eye center up hv hL hs hS).1,
    fun view => glsLookAt_zero_separation sqrtf eye center up view hL hS⟩
  · rw [glsLookAt_eq sqrtf eye.1 eye.2.1 eye.2.2 center.1 center.2.1 center.2.2 up.1 up.2.1
      up.2.2 eyeSeparation GLS_VIEW_LEFT hL hS, if_pos rfl]
    simp only [Prod.mk.eta, mul_comm (eyeSeparation / 2)]
  · rw [glsLookAt_eq sqrtf eye.1 eye.2.1 eye.2.2 center.1 center.2.1 center.2.2 up.1 up.2.1
      up.2.2 eyeSeparation GLS_VIEW_RIGHT hL hS, if_neg (by decide)]
    simp only [Prod.mk.eta, mul_comm (eyeSeparation / 2)]

/-- The camera at (0, 0, 5) looking at the origin, with the eye separation 1/2: `right` is
(1, 0, 0) and the translations are by (1/4, 0, -5) and by (-1/4, 0, -5). -/
theorem glsLookAt_camera_positions_witness :
    (sample_center ≠ sample_eye
      ∧ cross (vec_sub sample_center sample_eye) sample_up ≠ (0, 0, 0)
      ∧ sqrt_exact Rat.sqrt
          (dot (vec_sub sample_center sample_eye) (vec_sub sample_center sample_eye))
      ∧ sqrt_exact Rat.sqrt
          (dot (cross (forward_vector Rat.sqrt sample_eye sample_center) sample_up)
            (cross (forward_vector Rat.sqrt sample_eye sample_center) sample_up)))
    ∧ right_vector Rat.sqrt sample_eye sample_center sample_up = (1, 0, 0)
    ∧ (∃ M : List ℚ,
        glsLookAt Rat.sqrt sample_eye.1 sample_eye.2.1 sample_eye.2.2 sample_center.1
            sample_center.2.1 sample_center.2.2 sample_up.1 sample_up.2.1 sample_up.2.2
            (1 / 2) GLS_VIEW_LEFT
          = some ⟨M, (1 / 4, 0, -5)⟩
        ∧ glsLookAt Rat.sqrt sample_eye.1 sample_eye.2.1 sample_eye.2.2 sample_center.1
            sample_center.2.1 sample_center.2.2 sample_up.1 sample_up.2.1 sample_up.2.2
            (1 / 2) GLS_VIEW_RIGHT
          = some ⟨M, (-1 / 4, 0, -5)⟩)
    ∧ glsLookAt Rat.sqrt sample_eye.1 sample_eye.2.1 sample_eye.2.2 sample_center.1
          sample_center.2.1 sample_center.2.2 sample_up.1 sample_up.2.1 sample_up.2.2
          0 GLS_VIEW_LEFT
        = some (gluLookAt Rat.sqrt sample_eye.1 sample_eye.2.1 sample_eye.2.2
            sample_center.1 sample_center.2.1 sample_center.2.2 sample_up.1 sample_up.2.1
            sample_up.2.2) := by
  obtain ⟨h1, h2, h3, h4⟩ := sample_lookat_hypotheses
  obtain ⟨⟨M, hl, hr⟩, -, -, hz⟩ := glsLookAt_camera_positions Rat.sqrt sample_eye
    sample_center sample_up (1 / 2) h1 h2 h3 h4
  refine ⟨⟨h1, h2, h3, h4⟩, sample_right_vector.2.1, ⟨M, ?_, ?_⟩, hz GLS_VIEW_LEFT⟩
  · rw [hl, sample_right_vector.2.1]
    norm_num [sample_eye]
  · rw [hr, sample_right_vector.2.1]
    norm_num [sample_eye]

/-- Claim C27.  In exact arithmetic, when `center` is not `eye`, `up` is not parallel to
`center - eye` and the square root is exact at the two squared lengths, the matrix that
`glsLookAt` passes to `glMultMatrixf` has the rows `s`, `u` and `-f` in its upper left
3 x 3 block, where `s` is the vector `right`, `f` the direction of view and `u = s x f`;
the three vectors have the length 1 and are orthogonal to each other, and the block has
the determinant 1: it is a rotation. -/
theorem glsLookAt_orthonormal_basis {K : Type} [LinearOrderedField K] (sqrtf : K → K)
    (eye center up : K × K × K) (eyeSeparation : K) (view : GLSview) (hce : center ≠ eye)
    (hup : cross (vec_sub center eye) up ≠ (0, 0, 0))
    (hv : sqrt_exact sqrtf (dot (vec_sub center eye) (vec_sub center eye)))
    (hs : sqrt_exact sqrtf (dot (cross (forward_vector sqrtf eye center) up)
      (cross (forward_vector sqrtf eye center) up))) :
    ∃ s u f t : K × K × K,
      glsLookAt sqrtf eye.1 eye.2.1 eye.2.2 center.1 center.2.1 center.2.2 up.1 up.2.1 up.2.2
          eyeSeparation view
        = some ⟨[s.1, u.1, -f.1, 0, s.2.1, u.2.1, -f.2.1, 0, s.2.2, u.2.2, -f.2.2, 0,
                 0, 0, 0, 1], t⟩
      ∧ s = right_vector sqrtf eye center up
      ∧ u = cross s f
      ∧ f = forward_vector sqrtf eye center
      ∧ dot s s = 1 ∧ dot u u = 1 ∧ dot f f = 1
      ∧ dot s u = 0 ∧ dot s f = 0 ∧ dot u f = 0
      ∧ dot s (cross u (-f.1, -f.2.1, -f.2.2)) = 1 := by
  obtain ⟨hL, hS⟩ := glsLookAt_lengths sqrtf eye center up hce hup hv hs
  obtain ⟨h1, h2, h3, h4, h5, h6, h7⟩ :=
    right_up_forward_orthonormal sqrtf eye center up hv hL hs hS
  exact ⟨_, _, _, _,
    glsLookAt_eq sqrtf eye.1 eye.2.1 eye.2.2 center.1 center.2.1 center.2.2 up.1 up.2.1
      up.2.2 eyeSeparation view hL hS, rfl, rfl, rfl, h1, h2, h3, h4, h5, h6, h7⟩

/-- The camera at (0, 0, 5) looking at the origin with `up = (0, 1, 0)`: the matrix is the
unit matrix. -/
theorem glsLookAt_orthonormal_basis_witness :
    (sample_center ≠ sample_eye
      ∧ cross (vec_sub sample_center sample_eye) sample_up ≠ (0, 0, 0)
      ∧ sqrt_exact Rat.sqrt
          (dot (vec_sub sample_center sample_eye) (vec_sub sample_center sample_eye))
      ∧ sqrt_exact Rat.sqrt
          (dot (cross (forward_vector Rat.sqrt sample_eye sample_center) sample_up)
            (cross (forward_vector Rat.sqrt sample_eye sample_center) sample_up)))
    ∧ (∃ t, glsLookAt Rat.sqrt sample_eye.1 sample_eye.2.1 sample_eye.2.2 sample_center.1
          sample_center.2.1 sample_center.2.2 sample_up.1 sample_up.2.1 sample_up.2.2
          (1 / 2) GLS_VIEW_LEFT
        = some ⟨[1, 0, 0, 0, 0, 1, 0, 0, 0, 0, 1, 0, 0, 0, 0, 1], t⟩)
    ∧ dot ((1 : ℚ), (0 : ℚ), (0 : ℚ)) (1, 0, 0) = 1
    ∧ dot ((1 : ℚ), (0 : ℚ), (0 : ℚ)) (0, 1, 0) = 0 := by
  obtain ⟨h1, h2, h3, h4⟩ := sample_lookat_hypotheses
  obtain ⟨s, u, f, t, h, hs, hu, hf, d1, -, -, d4, -⟩ :=
    glsLookAt_orthonormal_basis Rat.sqrt sample_eye sample_center sample_up (1 / 2)
      GLS_VIEW_LEFT h1 h2 h3 h4
  have hu' : u = (0, 1, 0) := by
    rw [hu, hs, hf]
    exact sample_right_vector.2.2
  rw [hs, sample_right_vector.2.1] at h d1 d4
  rw [hf, sample_right_vector.1, hu'] at h
  rw [hu'] at d4
  refine ⟨⟨h1, h2, h3, h4⟩, ⟨t, ?_⟩, d1, d4⟩
  rw [h]
  norm_num

/-- Claim C28.  On a context that `glsCreateContext` has just made, with memory there, a
call of `glsDrawDLP3dReadySyncMarker` in the mode `GLS_MODE_LEFT_RIGHT` with the viewport
(0, 0, 0, 600) ends in `oom_abort`: the size needed is 0, `realloc` is not called, and the
scratch row is still the `NULL` pointer at the test of line 858.  In general the call
ends in `oom_abort` exactly for a marker mode with the viewport at the origin when either
`realloc` is called and fails, or it is not called and the scratch row is the `NULL`
pointer. -/
theorem glsDrawDLP3dReadySyncMarker_aborts_without_allocation :
    sample_env.heap = true
    ∧ glsCreateContext sample_env sample_cached_ctx = some sample_new_ctx
    ∧ sample_empty_gl.viewport = ⟨0, 0, 0, 600⟩
    ∧ sync_buf_required_size sample_env sample_empty_gl.viewport = 0
    ∧ manage_sync_buf sample_env sample_new_ctx 0 = sample_new_ctx
    ∧ glsDrawDLP3dReadySyncMarker sample_env sample_new_ctx GLS_MODE_LEFT_RIGHT sample_empty_gl
        = .error .oom_abort
    ∧ (∀ (env : Env) (ctx : GLScontext) (mode : GLSmode) (s : GLstate),
        glsDrawDLP3dReadySyncMarker env ctx mode s = .error .oom_abort
          ↔ (is_marker_mode mode ∧ s.viewport.x = 0 ∧ s.viewport.y = 0
              ∧ ((ctx.dlp_3d_ready_sync_buf_size < sync_buf_required_size env s.viewport
                    ∧ env.heap = false)
                ∨ (sync_buf_required_size env s.viewport ≤ ctx.dlp_3d_ready_sync_buf_size
                    ∧ ctx.dlp_3d_ready_sync_buf = none)))) := by
  refine ⟨rfl, by decide, rfl, by decide, by decide, rfl, ?_⟩
  intro env ctx mode s
  by_cases hm : is_marker_mode mode ∧ s.viewport.x = 0 ∧ s.viewport.y = 0
  · obtain ⟨hm, hx, hy⟩ := hm
    rw [glsDrawDLP3dReadySyncMarker_at_origin env ctx mode s hm hx hy,
      ← manage_sync_buf_none]
    cases (manage_sync_buf env ctx (sync_buf_required_size env s.viewport)).dlp_3d_ready_sync_buf
      <;> simp [hm, hx, hy]
  · rw [glsDrawDLP3dReadySyncMarker_skips env ctx mode s hm]
    constructor
    · intro h
      exact absurd h (by simp)
    · rintro ⟨h1, h2, h3, -⟩
      exact absurd ⟨h1, h2, h3⟩ hm

/-- Claim C29.  The recorded size of the scratch row does not exceed the bytes of its block
on a context that `glsCreateContext` has just made, and this stays so across every
sequence of calls that returns, on a platform where `sizeof(unsigned int)` divides the
range of `size_t`; across such a sequence the recorded size does not go down.  After
the step that manages the scratch row, for a viewport of width `W >= 0` with `W *
sizeof(unsigned int)` within the range of `size_t`, and unless the row is the `NULL`
pointer, by which the call aborts, the recorded size is at least `W * sizeof(unsigned
int)` and every index below `W` that the loop writes lies in the block. -/
theorem sync_buf_large_enough (w : Nat) (env : Env) (uninit ctx ctx' : GLScontext)
    (s s' : GLstate) (ops : List (Env × GLSop)) (viewport : Viewport) :
    (glsCreateContext env uninit = some ctx → sync_buf_fits w ctx)
    ∧ ((∀ e ∈ ops, e.1.sizeof_unsigned_int = w ∧ w ∣ 2 ^ e.1.size_bits) →
        sync_buf_fits w ctx → run_ops ctx s ops = .ok (ctx', s') →
        sync_buf_fits w ctx'
        ∧ ctx.dlp_3d_ready_sync_buf_size ≤ ctx'.dlp_3d_ready_sync_buf_size)
    ∧ (0 ≤ viewport.width → 0 < env.sizeof_unsigned_int →
        Int.toNat viewport.width * env.sizeof_unsigned_int < 2 ^ env.size_bits →
        sync_buf_fits env.sizeof_unsigned_int ctx →
        (manage_sync_buf env ctx
          (sync_buf_required_size env viewport)).dlp_3d_ready_sync_buf ≠ none →
        sync_buf_fits env.sizeof_unsigned_int
            (manage_sync_buf env ctx (sync_buf_required_size env viewport))
        ∧ Int.toNat viewport.width * env.sizeof_unsigned_int
            ≤ (manage_sync_buf env ctx
                (sync_buf_required_size env viewport)).dlp_3d_ready_sync_buf_size
        ∧ ∀ i ∈ List.range (Int.toNat viewport.width),
            i < sync_buf_words (manage_sync_buf env ctx
              (sync_buf_required_size env viewport))) := by
  refine ⟨fun hn => ?_, fun hp hinv h => run_ops_sync_buf w ops ctx ctx' s s' hp hinv h,
    fun hW hw hfit hinv hsome => ?_⟩
  · obtain ⟨-, -, h1, h2⟩ := glsCreateContext_ghostbust hn
    simp [sync_buf_fits, sync_buf_words, h1, h2]
  · obtain ⟨h1, h2, h3⟩ := manage_sync_buf_room env ctx viewport hW hw hfit hinv hsome
    exact ⟨h1, h2, fun i hi => lt_of_lt_of_le (List.mem_range.mp hi) h3⟩

/-- A new context and one call of `glsDrawDLP3dReadySyncMarker` with a viewport of the
width 4: the scratch row gets 4 words and the recorded size 16. -/
theorem sync_buf_large_enough_witness :
    glsCreateContext sample_env sample_cached_ctx = some sample_new_ctx
    ∧ (∀ e ∈ sample_marker_ops, e.1.sizeof_unsigned_int = 4 ∧ 4 ∣ 2 ^ e.1.size_bits)
    ∧ sync_buf_fits 4 sample_new_ctx
    ∧ (∃ ctx' s', run_ops sample_new_ctx sample_marker_gl sample_marker_ops = .ok (ctx', s')
        ∧ sync_buf_fits 4 ctx'
        ∧ sample_new_ctx.dlp_3d_ready_sync_buf_size ≤ ctx'.dlp_3d_ready_sync_buf_size)
    ∧ 0 ≤ sample_marker_gl.viewport.width ∧ 0 < sample_env.sizeof_unsigned_int
    ∧ Int.toNat sample_marker_gl.viewport.width * sample_env.sizeof_unsigned_int
        < 2 ^ sample_env.size_bits
    ∧ (manage_sync_buf sample_env sample_new_ctx
        (sync_buf_required_size sample_env sample_marker_gl.viewport)).dlp_3d_ready_sync_buf
        = some [0, 0, 0, 0]
    ∧ (manage_sync_buf sample_env sample_new_ctx
        (sync_buf_required_size sample_env sample_marker_gl.viewport)).dlp_3d_ready_sync_buf_size
        = 16
    ∧ (∀ i ∈ List.range (Int.toNat sample_marker_gl.viewport.width),
        i < sync_buf_words (manage_sync_buf sample_env sample_new_ctx
          (sync_buf_required_size sample_env sample_marker_gl.viewport))) := by
  have hn : glsCreateContext sample_env sample_cached_ctx = some sample_new_ctx := by decide
  have hp : ∀ e ∈ sample_marker_ops, e.1.sizeof_unsigned_int = 4 ∧ 4 ∣ 2 ^ e.1.size_bits := by
    intro e he
    simp only [sample_marker_ops, List.mem_singleton] at he
    subst he
    exact ⟨rfl, ⟨2 ^ 62, by decide⟩⟩
  have hrun : ∃ r, run_ops sample_new_ctx sample_marker_gl sample_marker_ops = .ok r :=
    ⟨_, rfl⟩
  obtain ⟨⟨c, t⟩, hrun⟩ := hrun
  have H := sync_buf_large_enough 4 sample_env sample_cached_ctx sample_new_ctx c
    sample_marker_gl t sample_marker_ops sample_marker_gl.viewport
  have hinv := H.1 hn
  exact ⟨hn, hp, hinv, ⟨c, t, hrun, H.2.1 hp hinv hrun⟩, by decide, by decide, by decide,
    by decide, by decide,
    (H.2.2 (by decide) (by decide) (by decide) hinv (by decide)).2.2⟩

theorem binds_append (u : Nat) (l₁ l₂ : List GLcall) :
    binds u (l₁ ++ l₂) = binds u l₁ ++ binds u l₂ := by
  simp [binds, List.filterMap_append]

theorem binds_of_only {names : List String} {l : List GLcall} (u : Nat) (h : Only names l)
    (hn : "glBindTexture" ∉ names) : binds u l = [] := by
  unfold binds
  rw [List.filterMap_eq_nil_iff]
  intro c hc
  have := h c hc
  cases c <;> first | rfl | exact absurd this (by simpa [GLcall.name] using hn)

/-- Lines 731 to 808 of `glsDrawViews` bind no texture to the units 0 and 1. -/
theorem render_binds (ctx : GLScontext) (mode : GLSmode) (viewport : Viewport) (s : GLstate) :
    binds 0 (issued s (render ctx mode viewport s)) = []
    ∧ binds 1 (issued s (render ctx mode viewport s)) = [] := by
  suffices h : ∃ l, (render ctx mode viewport s).log = s.log ++ l
      ∧ binds 0 l = [] ∧ binds 1 l = [] by
    obtain ⟨l, hl, h0, h1⟩ := h
    rw [issued_of_log hl]
    exact ⟨h0, h1⟩
  unfold render
  by_cases h1 : mode = GLS_MODE_QUAD_BUFFER_STEREO
  · rw [if_pos h1]
    refine ⟨_, by simp only [gl_fields, draw_quad_fields, glUniform1f_fields, glDrawBuffer_fields,
      glActiveTexture_fields, glBindTexture_fields, glViewport_fields, List.append_assoc]; rfl, ?_⟩
    simp [binds]
  rw [if_neg h1]
  by_cases h2 : mode = GLS_MODE_EVEN_ODD_ROWS
  · rw [if_pos h2]
    refine ⟨_, by simp only [gl_fields, draw_quad_fields, glUniform1f_fields, glDrawBuffer_fields,
      glActiveTexture_fields, glBindTexture_fields, glViewport_fields, List.append_assoc]; rfl, ?_⟩
    simp [binds]
  rw [if_neg h2]
  by_cases h3 : mode = GLS_MODE_EVEN_ODD_COLUMNS
  · rw [if_pos h3]
    refine ⟨_, by simp only [gl_fields, draw_quad_fields, glUniform1f_fields, glDrawBuffer_fields,
      glActiveTexture_fields, glBindTexture_fields, glViewport_fields, List.append_assoc]; rfl, ?_⟩
    simp [binds]
  rw [if_neg h3]
  by_cases h4 : mode = GLS_MODE_CHECKERBOARD
  · rw [if_pos h4]
    refine ⟨_, by simp only [gl_fields, draw_quad_fields, glUniform1f_fields, glDrawBuffer_fields,
      glActiveTexture_fields, glBindTexture_fields, glViewport_fields, List.append_assoc]; rfl, ?_⟩
    simp [binds]
  rw [if_neg h4]
  by_cases h5 : is_anaglyph mode
  · rw [if_pos h5]
    refine ⟨_, by simp only [gl_fields, draw_quad_fields, glUniform1f_fields, glDrawBuffer_fields,
      glActiveTexture_fields, glBindTexture_fields, glViewport_fields, List.append_assoc]; rfl, ?_⟩
    simp [binds]
  rw [if_neg h5]
  by_cases h6 : mode = GLS_MODE_MONO_LEFT
      ∨ (mode = GLS_MODE_ALTERNATING ∧ ctx.display_frame_counter % 2 = 0)
  · rw [if_pos h6]
    refine ⟨_, by simp only [gl_fields, draw_quad_fields, glUniform1f_fields, glDrawBuffer_fields,
      glActiveTexture_fields, glBindTexture_fields, glViewport_fields, List.append_assoc]; rfl, ?_⟩
    simp [binds]
  rw [if_neg h6]
  by_cases h7 : mode = GLS_MODE_MONO_RIGHT
      ∨ (mode = GLS_MODE_ALTERNATING ∧ ctx.display_frame_counter % 2 = 1)
  · rw [if_pos h7]
    refine ⟨_, by simp only [gl_fields, draw_quad_fields, glUniform1f_fields, glDrawBuffer_fields,
      glActiveTexture_fields, glBindTexture_fields, glViewport_fields, List.append_assoc]; rfl, ?_⟩
    simp [binds]
  rw [if_neg h7]
  by_cases h8 : mode = GLS_MODE_LEFT_RIGHT
  · rw [if_pos h8]
    refine ⟨_, by simp only [gl_fields, draw_quad_fields, glUniform1f_fields, glDrawBuffer_fields,
      glActiveTexture_fields, glBindTexture_fields, glViewport_fields, List.append_assoc]; rfl, ?_⟩
    simp [binds]
  rw [if_neg h8]
  by_cases h9 : mode = GLS_MODE_TOP_BOTTOM
  · rw [if_pos h9]
    refine ⟨_, by simp only [gl_fields, draw_quad_fields, glUniform1f_fields, glDrawBuffer_fields,
      glActiveTexture_fields, glBindTexture_fields, glViewport_fields, List.append_assoc]; rfl, ?_⟩
    simp [binds]
  rw [if_neg h9]
  by_cases h10 : mode = GLS_MODE_HDMI_FRAME_PACK
  · rw [if_pos h10]
    refine ⟨_, by simp only [gl_fields, draw_quad_fields, glUniform1f_fields, glDrawBuffer_fields,
      glActiveTexture_fields, glBindTexture_fields, glViewport_fields, List.append_assoc]; rfl, ?_⟩
    simp [binds]
  rw [if_neg h10]
  exact ⟨[], by simp, rfl, rfl⟩

/-- Lines 695 to 729 of `glsDrawViews` bind one texture to the unit 0 and one to the
unit 1. -/
theorem bind_views_and_uniforms_binds (ctx : GLScontext) (mode : GLSmode) (vt : Nat × Nat)
    (viewport : Viewport) (lr : Int × Int) (s : GLstate) :
    binds 0 (issued s (bind_views_and_uniforms ctx mode vt viewport lr s)) = [at2 vt lr.1]
    ∧ binds 1 (issued s (bind_views_and_uniforms ctx mode vt viewport lr s)) = [at2 vt lr.2] := by
  rw [issued_of_log (bind_views_and_uniforms_log ctx mode vt viewport lr s)]
  by_cases h1 : sets_crosstalk ctx mode <;>
  by_cases h2 : mode = GLS_MODE_EVEN_ODD_ROWS ∨ mode = GLS_MODE_EVEN_ODD_COLUMNS
      ∨ mode = GLS_MODE_CHECKERBOARD <;>
  simp [h1, h2, binds]

/-- A call of `glsDrawViews` that returns, with a texture given: the last textures that
its commands `glBindTexture` bind to the units 0 and 1 are those of the final indices
`left` and `right`. -/
theorem glsDrawViews_last_bound {env : Env} {ctx ctx' : GLScontext} {mode : GLSmode}
    {swap_views : Bool} {vt : Nat × Nat} {s s' : GLstate}
    (hvt : ¬ (at2 vt 0 = 0 ∧ at2 vt 1 = 0))
    (h : glsDrawViews env ctx mode swap_views vt s = .ok (ctx', s')) :
    last_bound 0 (issued s s')
      = some (at2 vt (view_indices ctx mode swap_views vt s.viewport).1)
    ∧ last_bound 1 (issued s s')
      = some (at2 vt (view_indices ctx mode swap_views vt s.viewport).2) := by
  obtain ⟨c₀, t₀, t₁, -, -, -, rfl, he⟩ := glsDrawViews_issued hvt h
  obtain ⟨hb0, hb1⟩ := bind_views_and_uniforms_binds ctx' mode vt s.viewport
    (view_indices ctx mode swap_views vt s.viewport) t₁
  obtain ⟨hr0, hr1⟩ := render_binds ctx' mode s.viewport
    (bind_views_and_uniforms ctx' mode vt s.viewport
      (view_indices ctx mode swap_views vt s.viewport) t₁)
  have hP := (restore_gl_state_issues s.viewport s.current_program s.active_texture
    (render ctx' mode s.viewport (bind_views_and_uniforms ctx' mode vt s.viewport
      (view_indices ctx mode swap_views vt s.viewport) t₁))).2
  have hp0 := binds_of_only 0 hP (by decide)
  have hp1 := binds_of_only 1 hP (by decide)
  unfold last_bound
  rw [he]
  simp only [binds_append, hb0, hb1, hr0, hr1, hp0, hp1, List.append_nil]
  exact ⟨by simp, by simp⟩

/-- Claim C9.  For every mode, screen origin, viewport origin and textures not both
zero, the textures that `glsDrawViews` binds to the units 0 and 1 with `swap_views` on
are those it binds with `swap_views` off, exchanged.  Of two such calls that return, the
last commands `glBindTexture` for the units 0 and 1 bind the textures of the final
indices `left` and `right`, those of the one call are those of the other exchanged, so
are the textures in the units 0 and 1 of the quads drawn, and in each of the 24 modes
both calls draw a quad.  Where memory is there and the shaders build, both calls
return. -/
theorem glsDrawViews_swap_views (env : Env) (ctx : GLScontext) (mode : GLSmode)
    (view_textures : Nat × Nat) (s : GLstate)
    (hvt : ¬ (at2 view_textures 0 = 0 ∧ at2 view_textures 1 = 0)) :
    bound_textures ctx mode true view_textures s.viewport
      = ((bound_textures ctx mode false view_textures s.viewport).2,
         (bound_textures ctx mode false view_textures s.viewport).1)
    ∧ (∀ ctx₁ s₁ ctx₂ s₂,
        glsDrawViews env ctx mode true view_textures s = .ok (ctx₁, s₁) →
        glsDrawViews env ctx mode false view_textures s = .ok (ctx₂, s₂) →
        (last_bound 0 (issued s s₁)
            = some (bound_textures ctx mode true view_textures s.viewport).1
          ∧ last_bound 1 (issued s s₁)
            = some (bound_textures ctx mode true view_textures s.viewport).2
          ∧ last_bound 0 (issued s s₂)
            = some (bound_textures ctx mode false view_textures s.viewport).1
          ∧ last_bound 1 (issued s s₂)
            = some (bound_textures ctx mode false view_textures s.viewport).2)
        ∧ (last_bound 0 (issued s s₁) = last_bound 1 (issued s s₂)
          ∧ last_bound 1 (issued s s₁) = last_bound 0 (issued s s₂))
        ∧ (∀ q₁ ∈ quads (issued s s₁), ∀ q₂ ∈ quads (issued s s₂),
            q₁.unit0 = q₂.unit1 ∧ q₁.unit1 = q₂.unit0)
        ∧ (mode < 24 → quads (issued s s₁) ≠ [] ∧ quads (issued s s₂) ≠ []))
    ∧ (env.works → (∃ r, glsDrawViews env ctx mode true view_textures s = .ok r)
        ∧ ∃ r, glsDrawViews env ctx mode false view_textures s = .ok r) := by
  have hsw := view_indices_swap ctx mode view_textures s.viewport
  refine ⟨?_, ?_, fun hw => ⟨glsDrawViews_returns env ctx mode true _ s hw,
    glsDrawViews_returns env ctx mode false _ s hw⟩⟩
  · simp [bound_textures, hsw, exchange]
  · intro ctx₁ s₁ ctx₂ s₂ h₁ h₂
    obtain ⟨a₁, b₁⟩ := glsDrawViews_last_bound hvt h₁
    obtain ⟨a₂, b₂⟩ := glsDrawViews_last_bound hvt h₂
    obtain ⟨u₁, n₁, -, -⟩ := glsDrawViews_quads hvt h₁
    obtain ⟨u₂, n₂, -, -⟩ := glsDrawViews_quads hvt h₂
    refine ⟨⟨a₁, b₁, a₂, b₂⟩, ⟨?_, ?_⟩, ?_, fun hm => ⟨n₁ hm, n₂ hm⟩⟩
    · rw [a₁, b₂, hsw]
      simp only [exchange]
    · rw [b₁, a₂, hsw]
      simp only [exchange]
    · intro q₁ hq₁ q₂ hq₂
      have v₁ := u₁ q₁ hq₁
      have v₂ := u₂ q₂ hq₂
      rw [hsw] at v₁
      simp only [exchange] at v₁
      exact ⟨v₁.1.trans v₂.2.symm, v₁.2.trans v₂.1.symm⟩

/-- The mode `GLS_MODE_CHECKERBOARD` at the origin, where the row rule exchanges too:
both calls return and draw, the one with the swap binds the textures (5, 6) and the one
without binds (6, 5). -/
theorem glsDrawViews_swap_views_witness :
    ¬ (at2 ((5, 6) : Nat × Nat) 0 = 0 ∧ at2 ((5, 6) : Nat × Nat) 1 = 0)
    ∧ sample_env.works
    ∧ ∃ c₁ t₁ c₂ t₂,
        glsDrawViews sample_env sample_ctx GLS_MODE_CHECKERBOARD true (5, 6) sample_gl
          = .ok (c₁, t₁)
        ∧ glsDrawViews sample_env sample_ctx GLS_MODE_CHECKERBOARD false (5, 6) sample_gl
          = .ok (c₂, t₂)
        ∧ last_bound 0 (issued sample_gl t₁) = some 5
        ∧ last_bound 1 (issued sample_gl t₁) = some 6
        ∧ last_bound 0 (issued sample_gl t₂) = some 6
        ∧ last_bound 1 (issued sample_gl t₂) = some 5
        ∧ quads (issued sample_gl t₁) ≠ [] ∧ quads (issued sample_gl t₂) ≠ [] := by
  have h := glsDrawViews_swap_views sample_env sample_ctx GLS_MODE_CHECKERBOARD (5, 6) sample_gl
    (by decide)
  have hF : bound_textures sample_ctx GLS_MODE_CHECKERBOARD false (5, 6) sample_gl.viewport
      = (6, 5) := by decide
  have hT : bound_textures sample_ctx GLS_MODE_CHECKERBOARD true (5, 6) sample_gl.viewport
      = (5, 6) := by rw [h.1, hF]
  obtain ⟨⟨⟨c₁, t₁⟩, e₁⟩, ⟨⟨c₂, t₂⟩, e₂⟩⟩ := h.2.2 sample_env_works
  obtain ⟨⟨a₁, b₁, a₂, b₂⟩, -, -, hq⟩ := h.2.1 c₁ t₁ c₂ t₂ e₁ e₂
  rw [hT] at a₁ b₁
  rw [hF] at a₂ b₂
  exact ⟨by decide, sample_env_works, c₁, t₁, c₂, t₂, e₁, e₂, a₁, b₁, a₂, b₂,
    (hq (by decide)).1, (hq (by decide)).2⟩

end Libgls
